import Mathlib

/-!
# Risk flagging engine of the clinic dashboard

A shallow embedding of the risk normalisation and flagging code of
`backend/controllers/dashboard.controller.js` (`normProb`, `RULES`,
`checkHighRisk` and the ranking of `getHighRiskPatients`),
`backend/controllers/patient.controller.js` (`normProb`) and
`frontend/src/pages/components/RiskCard.jsx` (`normProb`).

Modelling conventions.

* Patient documents are JSON-like JavaScript values (`JsVal`).  Objects are
  association lists read by first match; getters, `Date` and `ObjectId`
  values are outside the model.  The one object that the code writes under
  data-controlled names, the accumulator of `labsMap`, carries its prototype.
* JavaScript numbers are `JsNum`: `NaN`, the two infinities, or a rational.
  A sum is rounded to the nearest double (`JsNum.toDouble`), as the ranking
  compares sums; a number read from a record or a literal stands for
  itself, the quotient `n / 100` is exact, and overflow and the sign of zero
  are not modelled.
* `none` as a result of `checkHighRisk` stands for a thrown `TypeError`.
-/

set_option autoImplicit false

/-! ## JavaScript values -/

/-- A JavaScript number: `NaN`, plus or minus `Infinity`, or a finite value. -/
inductive JsNum where
  | nan
  | inf (neg : Bool)
  | fin (q : ℚ)
  deriving DecidableEq

/-- A JSON-like JavaScript value. -/
inductive JsVal where
  | undefined
  | null
  | bool (b : Bool)
  | num (n : JsNum)
  | str (s : String)
  | arr (items : List JsVal)
  | obj (fields : List (String × JsVal))

namespace JsNum

/-- The relational operator `a < b` on numbers (false as soon as `NaN` is involved). -/
def lt : JsNum → JsNum → Bool
  | fin a, fin b => decide (a < b)
  | inf true, fin _ => true
  | inf true, inf false => true
  | fin _, inf false => true
  | _, _ => false

/-- The relational operator `a > b`. -/
def gt (a b : JsNum) : Bool := lt b a

/-- The relational operator `a <= b` (false as soon as `NaN` is involved). -/
def le : JsNum → JsNum → Bool
  | nan, _ => false
  | _, nan => false
  | a, b => !(lt b a)

/-- The relational operator `a >= b`. -/
def ge (a b : JsNum) : Bool := le b a

/-- The global `isNaN` on a number. -/
def isNaN : JsNum → Bool
  | nan => true
  | _ => false

/-- The quotient `n / d` for a finite positive literal divisor `d`. -/
def divLit : JsNum → ℚ → JsNum
  | nan, _ => nan
  | inf s, _ => inf s
  | fin q, d => fin (q / d)

/-- Decimal digits of the fraction `r / d` (with `r < d`), at most `fuel` of them. -/
def fracDigits (d : Nat) : Nat → Nat → List Char
  | 0, _ => []
  | fuel + 1, r =>
    if r = 0 then [] else Nat.digitChar (r * 10 / d) :: fracDigits d fuel (r * 10 % d)

/-- Decimal rendering of a non-negative rational: the integer part, then a
point and the fraction digits when there are any (at most 20 are printed). -/
def renderNonneg (q : ℚ) : String :=
  let n := q.num.toNat
  let d := q.den
  let ds := fracDigits d 20 (n % d)
  if ds.isEmpty then Nat.repr (n / d) else Nat.repr (n / d) ++ "." ++ String.mk ds

/-- Number to string conversion.  Exponent notation (used by JavaScript from
`1e21` upwards and below `1e-6`) is not modelled. -/
def toStr : JsNum → String
  | nan => "NaN"
  | inf false => "Infinity"
  | inf true => "-Infinity"
  | fin q => if q < 0 then "-" ++ renderNonneg (-q) else renderNonneg q

end JsNum

/-! ## String to number conversion (`Number(s)` on a string) -/

namespace StrNum

/-- White space and line terminators stripped by the string to number conversion. -/
def isJsWhite (c : Char) : Bool :=
  let n := c.toNat
  n = 0x09 || n = 0x0A || n = 0x0B || n = 0x0C || n = 0x0D || n = 0x20 || n = 0xA0 ||
  n = 0x1680 || (0x2000 ≤ n && n ≤ 0x200A) || n = 0x2028 || n = 0x2029 || n = 0x202F ||
  n = 0x205F || n = 0x3000 || n = 0xFEFF

/-- Strip leading and trailing white space. -/
def trim (cs : List Char) : List Char :=
  ((cs.dropWhile isJsWhite).reverse.dropWhile isJsWhite).reverse

/-- Value of a digit character in the given base (up to sixteen). -/
def digitVal (base : Nat) (c : Char) : Option Nat :=
  let n := c.toNat
  let v : Option Nat :=
    if 48 ≤ n ∧ n ≤ 57 then some (n - 48)
    else if 97 ≤ n ∧ n ≤ 102 then some (n - 87)
    else if 65 ≤ n ∧ n ≤ 70 then some (n - 55)
    else none
  match v with
  | some d => if d < base then some d else none
  | none => none

/-- Value of a possibly empty digit string, accumulated from the left. -/
def digitsFrom (base : Nat) : Nat → List Char → Option Nat
  | acc, [] => some acc
  | acc, c :: cs =>
    match digitVal base c with
    | some d => digitsFrom base (acc * base + d) cs
    | none => none

/-- Value of a non-empty digit string. -/
def digits (base : Nat) (cs : List Char) : Option Nat :=
  if cs.isEmpty then none else digitsFrom base 0 cs

/-- Split a list at the first element satisfying `f`. -/
def splitAt1 (f : Char → Bool) : List Char → List Char × Option (List Char)
  | [] => ([], none)
  | c :: cs =>
    if f c then ([], some cs)
    else
      let r := splitAt1 f cs
      (c :: r.1, r.2)

/-- The exponent part after `e` or `E`: an optional sign and digits. -/
def exponent : List Char → Option Int
  | '+' :: cs => (digits 10 cs).map Int.ofNat
  | '-' :: cs => (digits 10 cs).map (fun n => - Int.ofNat n)
  | cs => (digits 10 cs).map Int.ofNat

/-- The mantissa `ddd`, `ddd.`, `ddd.ddd` or `.ddd`. -/
def mantissa (cs : List Char) : Option ℚ :=
  match splitAt1 (fun c => c = '.') cs with
  | (ip, none) => (digits 10 ip).map (fun n => (n : ℚ))
  | (ip, some fp) =>
    if ip.isEmpty then
      (digits 10 fp).map (fun f => (f : ℚ) / (10 : ℚ) ^ fp.length)
    else
      match digits 10 ip, digitsFrom 10 0 fp with
      | some n, some f => some ((n : ℚ) + (f : ℚ) / (10 : ℚ) ^ fp.length)
      | _, _ => none

/-- An unsigned decimal literal with optional exponent. -/
def unsignedDecimal (cs : List Char) : Option ℚ :=
  match splitAt1 (fun c => c = 'e' || c = 'E') cs with
  | (m, none) => mantissa m
  | (m, some e) =>
    match mantissa m, exponent e with
    | some q, some k => some (q * (10 : ℚ) ^ k)
    | _, _ => none

/-- An unsigned decimal literal or `Infinity`. -/
def unsignedLit (cs : List Char) : JsNum :=
  if cs = "Infinity".data then JsNum.inf false
  else
    match unsignedDecimal cs with
    | some q => JsNum.fin q
    | none => JsNum.nan

/-- Negation of a number. -/
def negate : JsNum → JsNum
  | JsNum.nan => JsNum.nan
  | JsNum.inf s => JsNum.inf (!s)
  | JsNum.fin q => JsNum.fin (-q)

/-- A non-decimal integer literal body in the given base. -/
def radixLit (base : Nat) (cs : List Char) : JsNum :=
  match digits base cs with
  | some n => JsNum.fin (n : ℚ)
  | none => JsNum.nan

/-- The string to number conversion: the empty or blank string is `0`, a
numeric literal is its value, anything else is `NaN`. -/
def stringToNumber (s : String) : JsNum :=
  match trim s.data with
  | [] => JsNum.fin 0
  | '0' :: 'x' :: cs => radixLit 16 cs
  | '0' :: 'X' :: cs => radixLit 16 cs
  | '0' :: 'o' :: cs => radixLit 8 cs
  | '0' :: 'O' :: cs => radixLit 8 cs
  | '0' :: 'b' :: cs => radixLit 2 cs
  | '0' :: 'B' :: cs => radixLit 2 cs
  | '+' :: cs => unsignedLit cs
  | '-' :: cs => negate (unsignedLit cs)
  | cs => unsignedLit cs

end StrNum

namespace JsVal

/-- The test `v == null`: true for `null` and `undefined` only. -/
def isNullish : JsVal → Bool
  | undefined => true
  | null => true
  | _ => false

/-- Truthiness, as used by `||`, `?:` and `if`. -/
def truthy : JsVal → Bool
  | undefined => false
  | null => false
  | bool b => b
  | num JsNum.nan => false
  | num (JsNum.inf _) => true
  | num (JsNum.fin q) => decide (q ≠ 0)
  | str s => !s.data.isEmpty
  | arr _ => true
  | obj _ => true

/-- The operator `a ?? b`. -/
def orElse (a b : JsVal) : JsVal := if a.isNullish then b else a

/-- The operator `a || b`. -/
def lor (a b : JsVal) : JsVal := if a.truthy then a else b

/-- Own property lookup in a field list; a missing key reads `undefined`. -/
def lookup (k : String) : List (String × JsVal) → JsVal
  | [] => undefined
  | (k1, v) :: fs => if k1 = k then v else lookup k fs

/-- Property read `v?.k` (and `v.k` on a value known not to be nullish):
primitives and arrays have none of the property names used by the source. -/
def get (v : JsVal) (k : String) : JsVal :=
  match v with
  | obj fs => lookup k fs
  | _ => undefined

mutual
/-- String conversion: `String(v)`, template interpolation and `v.toString()`. -/
def toStr : JsVal → String
  | undefined => "undefined"
  | null => "null"
  | bool true => "true"
  | bool false => "false"
  | num n => n.toStr
  | str s => s
  | arr xs => joinItems xs
  | obj _ => "[object Object]"
/-- The items of an array joined by commas, `null` and `undefined` printing empty. -/
def joinItems : List JsVal → String
  | [] => ""
  | x :: xs =>
    (match x with
      | undefined => ""
      | null => ""
      | y => toStr y) ++
    (match xs with
      | [] => ""
      | _ => "," ++ joinItems xs)
end

/-- Number conversion `Number(v)`. -/
def toNumber : JsVal → JsNum
  | undefined => JsNum.nan
  | null => JsNum.fin 0
  | bool true => JsNum.fin 1
  | bool false => JsNum.fin 0
  | num n => n
  | str s => StrNum.stringToNumber s
  | arr xs => StrNum.stringToNumber (toStr (arr xs))
  | obj _ => JsNum.nan

/-- Strict equality with the boolean `true`. -/
def isTrue : JsVal → Bool
  | bool true => true
  | _ => false

/-- Strict equality `v === s` with a string literal. -/
def isStr (s : String) : JsVal → Bool
  | str t => decide (t = s)
  | _ => false

/-- Strict equality `v === q` with a finite numeric literal. -/
def isNum (q : ℚ) : JsVal → Bool
  | num (JsNum.fin r) => decide (r = q)
  | _ => false

end JsVal

/-- ASCII lower-casing.  The strings compared after `toLowerCase()` in the
source contain no letter that a non-ASCII character lower-cases to. -/
def toLowerCase (s : String) : String := String.mk (s.data.map Char.toLower)

/-- The predicate `s.includes(t)`. -/
def includes (s t : String) : Bool := decide (t.data <:+: s.data)

/-! ## Verdicts -/

/-- The `type` tag of a reason. -/
inductive ReasonType where
  | model
  | flag
  | clinical
  | history
  deriving DecidableEq

/-- The `domain` tag of a reason. -/
inductive Domain where
  | cardio
  | diabetes
  deriving DecidableEq

/-- An entry of the `reasons` array: `{ type, domain, score }` for model
reasons and `{ type, domain, note }` for the others. -/
structure Reason where
  type : ReasonType
  domain : Domain
  score : Option JsNum
  note : Option String
  deriving DecidableEq

/-- The object `{ isHigh, reasons, cardioProb, diabetesProb }` returned by `checkHighRisk`. -/
structure Verdict where
  isHigh : Bool
  reasons : List Reason
  cardioProb : JsNum
  diabetesProb : JsNum
  deriving DecidableEq

/-! ## `patient.controller.js` and `RiskCard.jsx` -/

namespace PatientController

/-- The helper `normProb` of `patient.controller.js`; `none` is `null`. -/
def normProb (v : JsVal) : Option JsNum :=
  if v.isNullish then none
  else
    let n := v.toNumber
    if n.isNaN then none
    else if n.gt (JsNum.fin 1) then some (n.divLit 100) else some n

end PatientController

namespace RiskCard

/-- The helper `normProb` of `RiskCard.jsx`; `none` is `null`. -/
def normProb (v : JsVal) : Option JsNum :=
  if v.isNullish then none
  else
    let n := v.toNumber
    if n.isNaN then none
    else if n.gt (JsNum.fin 1) then some (n.divLit 100) else some n

end RiskCard

/-- A `number | null` result seen again as a value. -/
def JsVal.ofResult : Option JsNum → JsVal
  | none => JsVal.null
  | some n => JsVal.num n

/-! ## `dashboard.controller.js`: `getHighRiskPatients` -/

namespace Dashboard

/-- The helper `normProb` local to `getHighRiskPatients`: missing and
non-numeric values normalise to `0`. -/
def normProb (v : JsVal) : JsNum :=
  if v.isNullish then JsNum.fin 0
  else
    let n := v.toNumber
    if n.isNaN then JsNum.fin 0
    else if n.gt (JsNum.fin 1) then n.divLit 100 else n

namespace RULES
namespace cardio
def systolic : ℚ := 160
def diastolic : ℚ := 100
def bmi : ℚ := 30
def tc : ℚ := 6.2
def ldl : ℚ := 3.4
def hdl : ℚ := 1.0
def creat : ℚ := 1.5
def egfr : ℚ := 60
def uacr : ℚ := 30
end cardio
namespace diabetes
def fasting_glucose : ℚ := 7.0
def hba1c : ℚ := 6.5
def bmi : ℚ := 30
def uacr : ℚ := 30
def egfr : ℚ := 60
end diabetes
def probabilityThreshold : ℚ := 0.35
end RULES

/-- The statement `if (c) reasons.push(r)`. -/
def pushIf (c : Bool) (r : Reason) (reasons : List Reason) : List Reason :=
  if c then reasons ++ [r] else reasons

/-- A `{ type: "model", domain, score }` reason. -/
def modelReason (d : Domain) (score : JsNum) : Reason :=
  { type := ReasonType.model, domain := d, score := some score, note := none }

/-- A `{ type, domain, note }` reason. -/
def noteReason (t : ReasonType) (d : Domain) (note : String) : Reason :=
  { type := t, domain := d, score := none, note := some note }

/-- The accumulator object of `labsMap`, which starts as `{}`: its own
properties, the last one written first, and the own properties of the object
that an assignment to `__proto__` has made its prototype (empty for the
initial `Object.prototype`, for `null` and for an array, which have none of
the names read from the map). -/
structure LabsObject where
  own : List (String × JsVal)
  proto : List (String × JsVal)

/-- The assignment `acc[key] = value` on the accumulator.  The key `__proto__`
is the accessor of `Object.prototype`: an object or `null` replaces the
prototype and any other value is ignored; every other key writes an own
property. -/
def LabsObject.assign (acc : LabsObject) (key : String) (value : JsVal) : LabsObject :=
  if key = "__proto__" then
    match value with
    | JsVal.obj fields => { own := acc.own, proto := fields }
    | JsVal.arr _ => { own := acc.own, proto := [] }
    | JsVal.null => { own := acc.own, proto := [] }
    | _ => acc
  else { own := (key, value) :: acc.own, proto := acc.proto }

/-- The properties read by `labsMap[k]`: an own property first, then a
property of the prototype. -/
def LabsObject.table (acc : LabsObject) : List (String × JsVal) := acc.own ++ acc.proto

/-- The reducer of `labsMap`: `if (it?.name) acc[it.name.toString().toLowerCase()] = it.value`. -/
def labsStep (acc : LabsObject) (it : JsVal) : LabsObject :=
  if (it.get "name").truthy then
    acc.assign (toLowerCase (it.get "name").toStr) (it.get "value")
  else acc

/-- The expression `(p.labs || []).reduce(..., {})`, as the table of the
properties read from it; `none` when the value is not an array, which has no
`reduce` method. -/
def labsMap (p : JsVal) : Option (List (String × JsVal)) :=
  match (p.get "labs").lor (JsVal.arr []) with
  | JsVal.arr items => some (items.foldl labsStep { own := [], proto := [] }).table
  | _ => none

/-- The object `top` of resolved lab values. -/
structure Top where
  hba1c : JsVal
  tc : JsVal
  ldl : JsVal
  hdl : JsVal
  creat : JsVal
  egfr : JsVal
  uacr : JsVal
  glucose : JsVal
  bmi : JsVal

/-- The object literal `top` built from the record, `v = p.vitals || {}` and `labsMap`. -/
def mkTop (p v : JsVal) (m : List (String × JsVal)) : Top :=
  { hba1c :=
      (((p.get "hba1c").orElse (JsVal.lookup "hba1c" m)).orElse
        (JsVal.lookup "hba-1c" m)).orElse JsVal.null
    tc :=
      (((p.get "tc").orElse (JsVal.lookup "total cholesterol" m)).orElse
        (JsVal.lookup "tc" m)).orElse JsVal.null
    ldl := ((p.get "ldl").orElse (JsVal.lookup "ldl" m)).orElse JsVal.null
    hdl := ((p.get "hdl").orElse (JsVal.lookup "hdl" m)).orElse JsVal.null
    creat := ((p.get "creat").orElse (JsVal.lookup "creatinine" m)).orElse JsVal.null
    egfr := (p.get "egfr").orElse JsVal.null
    uacr := (p.get "uacr").orElse JsVal.null
    glucose := ((p.get "glucose").orElse (JsVal.lookup "glucose" m)).orElse JsVal.null
    bmi := ((v.get "bmi").orElse (p.get "bmi")).orElse JsVal.null }

/-- The guard `x != null && Number(x) >= t`. -/
def atLeast (x : JsVal) (t : ℚ) : Bool := !x.isNullish && x.toNumber.ge (JsNum.fin t)

/-- The guard `x != null && Number(x) > t`. -/
def above (x : JsVal) (t : ℚ) : Bool := !x.isNullish && x.toNumber.gt (JsNum.fin t)

/-- The guard `x != null && Number(x) < t`. -/
def below (x : JsVal) (t : ℚ) : Bool := !x.isNullish && x.toNumber.lt (JsNum.fin t)

/-- The test `(x || "").toString().toLowerCase().includes("high")`. -/
def saysHigh (x : JsVal) : Bool :=
  includes (toLowerCase (x.lor (JsVal.str "")).toStr) "high"

/-- The argument `p?.risk?.cardio?.probabilities?.High ?? p?.risk?.cardio?.High ?? null`. -/
def cardioRaw (p : JsVal) : JsVal :=
  (((((p.get "risk").get "cardio").get "probabilities").get "High").orElse
    (((p.get "risk").get "cardio").get "High")).orElse JsVal.null

/-- The argument `p?.risk?.diabetes?.probabilities?.Yes ?? p?.risk?.diabetes?.Yes ?? null`. -/
def diabetesRaw (p : JsVal) : JsVal :=
  (((((p.get "risk").get "diabetes").get "probabilities").get "Yes").orElse
    (((p.get "risk").get "diabetes").get "Yes")).orElse JsVal.null

/-- The closure `checkHighRisk` of `getHighRiskPatients`.  The result is `none`
when the evaluation throws: `p` is `null` or `undefined`, or `p.labs` is
truthy and not an array. -/
def checkHighRisk (p : JsVal) : Option Verdict :=
  let reasons : List Reason := []
  -- 1. Model probabilities (new shape)
  let risk := p.get "risk"
  let cardioProb := normProb (cardioRaw p)
  let diabetesProb := normProb (diabetesRaw p)
  let reasons := pushIf (cardioProb.gt (JsNum.fin RULES.probabilityThreshold))
    (modelReason Domain.cardio cardioProb) reasons
  let reasons := pushIf (diabetesProb.gt (JsNum.fin RULES.probabilityThreshold))
    (modelReason Domain.diabetes diabetesProb) reasons
  if p.isNullish then none
  else
    -- 2. Legacy flags / old-shape strings
    let reasons := pushIf
      ((p.get "cardio_label").isNum 1 || saysHigh ((risk.get "cardio").get "predicted_risk"))
      (noteReason ReasonType.flag Domain.cardio "cardio_label/predicted_risk") reasons
    let reasons := pushIf
      ((p.get "diabetes_label").isNum 1 || saysHigh ((risk.get "diabetes").get "prediction"))
      (noteReason ReasonType.flag Domain.diabetes "diabetes_label/prediction") reasons
    -- 3. Clinical thresholds (vitals and labs)
    let v := (p.get "vitals").lor (JsVal.obj [])
    match labsMap p with
    | none => none
    | some m =>
      let top := mkTop p v m
      -- Cardio clinical checks
      let reasons := pushIf (atLeast (v.get "bpSystolic") RULES.cardio.systolic)
        (noteReason ReasonType.clinical Domain.cardio ("systolic " ++ (v.get "bpSystolic").toStr))
        reasons
      let reasons := pushIf (atLeast (v.get "bpDiastolic") RULES.cardio.diastolic)
        (noteReason ReasonType.clinical Domain.cardio ("diastolic " ++ (v.get "bpDiastolic").toStr))
        reasons
      let reasons := pushIf (atLeast top.bmi RULES.cardio.bmi)
        (noteReason ReasonType.clinical Domain.cardio ("bmi " ++ top.bmi.toStr)) reasons
      let reasons := pushIf (above top.tc RULES.cardio.tc)
        (noteReason ReasonType.clinical Domain.cardio ("tc " ++ top.tc.toStr)) reasons
      let reasons := pushIf (above top.ldl RULES.cardio.ldl)
        (noteReason ReasonType.clinical Domain.cardio ("ldl " ++ top.ldl.toStr)) reasons
      let reasons := pushIf (below top.hdl RULES.cardio.hdl)
        (noteReason ReasonType.clinical Domain.cardio ("hdl " ++ top.hdl.toStr)) reasons
      let reasons := pushIf (above top.creat RULES.cardio.creat)
        (noteReason ReasonType.clinical Domain.cardio ("creat " ++ top.creat.toStr)) reasons
      let reasons := pushIf (below top.egfr RULES.cardio.egfr)
        (noteReason ReasonType.clinical Domain.cardio ("egfr " ++ top.egfr.toStr)) reasons
      let reasons := pushIf (above top.uacr RULES.cardio.uacr)
        (noteReason ReasonType.clinical Domain.cardio ("uacr " ++ top.uacr.toStr)) reasons
      -- History/lifestyle contributions
      let reasons := pushIf
        ((p.get "smoker").isTrue || (p.get "smoker").isStr "1" ||
          decide ((p.get "smoker").toStr = "true"))
        (noteReason ReasonType.history Domain.cardio "smoker") reasons
      let reasons := pushIf
        ((p.get "dm").isTrue || (p.get "dm").isStr "1" ||
          decide ((p.get "dm").toStr = "true") || (p.get "diabetes").isTrue)
        (noteReason ReasonType.history Domain.diabetes "diabetes") reasons
      let reasons := pushIf
        ((p.get "htn").isTrue || (p.get "htn").isStr "1" || (p.get "hypertension").isTrue)
        (noteReason ReasonType.history Domain.cardio "hypertension") reasons
      let reasons := pushIf
        ((p.get "fam_cad").isTrue || (p.get "fam_cad").isStr "1" ||
          (p.get "familyHistoryCad").isTrue ||
          decide (toLowerCase (p.get "fam_cad").toStr = "yes"))
        (noteReason ReasonType.history Domain.cardio "family CAD") reasons
      -- Diabetes-specific checks
      let reasons := pushIf (atLeast top.glucose RULES.diabetes.fasting_glucose)
        (noteReason ReasonType.clinical Domain.diabetes ("glucose " ++ top.glucose.toStr)) reasons
      let reasons := pushIf (atLeast top.hba1c RULES.diabetes.hba1c)
        (noteReason ReasonType.clinical Domain.diabetes ("hba1c " ++ top.hba1c.toStr)) reasons
      let reasons := pushIf (atLeast top.uacr RULES.diabetes.uacr)
        (noteReason ReasonType.clinical Domain.diabetes ("uacr " ++ top.uacr.toStr)) reasons
      let reasons := pushIf (below top.egfr RULES.diabetes.egfr)
        (noteReason ReasonType.clinical Domain.diabetes ("egfr " ++ top.egfr.toStr)) reasons
      let isHigh := decide (reasons.length > 0)
      some { isHigh := isHigh, reasons := reasons, cardioProb := cardioProb,
             diabetesProb := diabetesProb }

end Dashboard

/-! ## Notions used to state the properties -/

/-- A raw value whose numeric value is finite and lies between 0 and 100. -/
def PercentOrFraction (v : JsVal) : Prop :=
  ∃ q : ℚ, v.toNumber = JsNum.fin q ∧ 0 ≤ q ∧ q ≤ 100

/-- A number that is finite and lies in the closed interval from 0 to 1. -/
def InUnitInterval (n : JsNum) : Prop :=
  ∃ r : ℚ, n = JsNum.fin r ∧ 0 ≤ r ∧ r ≤ 1

/-- A raw value whose numeric value, when finite, is at most 100. -/
def AtMostHundred (v : JsVal) : Prop :=
  ∀ q : ℚ, v.toNumber = JsNum.fin q → q ≤ 100

/-- A row of the table of clinical threshold rules: the domain, the label that
starts the note, the observed value and the trigger on its numeric value. -/
structure ClinicalRule where
  domain : Domain
  label : String
  value : JsVal
  trigger : JsNum → Bool

/-- The table of clinical threshold rules as the specification lists it, each
row with the value that `checkHighRisk` resolves for its field
(`v = p.vitals || {}` and the object `top`). -/
def clinicalTable (p : JsVal) (m : List (String × JsVal)) : List ClinicalRule :=
  let v := (p.get "vitals").lor (JsVal.obj [])
  let top := Dashboard.mkTop p v m
  [ { domain := Domain.cardio, label := "systolic ", value := v.get "bpSystolic",
      trigger := fun n => n.ge (JsNum.fin 160) },
    { domain := Domain.cardio, label := "diastolic ", value := v.get "bpDiastolic",
      trigger := fun n => n.ge (JsNum.fin 100) },
    { domain := Domain.cardio, label := "bmi ", value := top.bmi,
      trigger := fun n => n.ge (JsNum.fin 30) },
    { domain := Domain.cardio, label := "tc ", value := top.tc,
      trigger := fun n => n.gt (JsNum.fin 6.2) },
    { domain := Domain.cardio, label := "ldl ", value := top.ldl,
      trigger := fun n => n.gt (JsNum.fin 3.4) },
    { domain := Domain.cardio, label := "hdl ", value := top.hdl,
      trigger := fun n => n.lt (JsNum.fin 1.0) },
    { domain := Domain.cardio, label := "creat ", value := top.creat,
      trigger := fun n => n.gt (JsNum.fin 1.5) },
    { domain := Domain.cardio, label := "egfr ", value := top.egfr,
      trigger := fun n => n.lt (JsNum.fin 60) },
    { domain := Domain.cardio, label := "uacr ", value := top.uacr,
      trigger := fun n => n.gt (JsNum.fin 30) },
    { domain := Domain.diabetes, label := "glucose ", value := top.glucose,
      trigger := fun n => n.ge (JsNum.fin 7.0) },
    { domain := Domain.diabetes, label := "hba1c ", value := top.hba1c,
      trigger := fun n => n.ge (JsNum.fin 6.5) },
    { domain := Domain.diabetes, label := "uacr ", value := top.uacr,
      trigger := fun n => n.ge (JsNum.fin 30) },
    { domain := Domain.diabetes, label := "egfr ", value := top.egfr,
      trigger := fun n => n.lt (JsNum.fin 60) } ]

/-- The clinical reason that a rule pushes: the note is the label followed by the value. -/
def ClinicalRule.reason (r : ClinicalRule) : Reason :=
  Dashboard.noteReason ReasonType.clinical r.domain (r.label ++ r.value.toStr)

/-- Whether a rule fires: the value is present and its numeric value meets the trigger. -/
def ClinicalRule.fires (r : ClinicalRule) : Bool :=
  !r.value.isNullish && r.trigger r.value.toNumber

/-- The reasons of a verdict with the given type and domain. -/
def reasonsOf (t : ReasonType) (d : Domain) (verdict : Verdict) : List Reason :=
  verdict.reasons.filter (fun r => decide (r.type = t ∧ r.domain = d))

/-! ### Sample records -/

/-- The record `{ vitals: { bpSystolic: 162 } }`. -/
def recSystolic162 : JsVal :=
  JsVal.obj [("vitals", JsVal.obj [("bpSystolic", JsVal.num (JsNum.fin 162))])]

/-- The record `{ vitals: { bpSystolic: 162 }, uacr: 30 }`. -/
def recSystolicUacr : JsVal :=
  JsVal.obj [("vitals", JsVal.obj [("bpSystolic", JsVal.num (JsNum.fin 162))]),
    ("uacr", JsVal.num (JsNum.fin 30))]

/-- The record `{ risk: { cardio: { probabilities: { High: x } } } }`. -/
def recCardioHigh (x : JsVal) : JsVal :=
  JsVal.obj [("risk", JsVal.obj [("cardio", JsVal.obj [("probabilities",
    JsVal.obj [("High", x)])])])]

/-- The record `{ risk: { cardio, diabetes } }`. -/
def recRisk (cardio diabetes : JsVal) : JsVal :=
  JsVal.obj [("risk", JsVal.obj [("cardio", cardio), ("diabetes", diabetes)])]

/-- The object `{ probabilities: { key: x } }`. -/
def recProbs (key : String) (x : JsVal) : JsVal :=
  JsVal.obj [("probabilities", JsVal.obj [(key, x)])]

/-- The record `{ labs: [{ name, value }] }` with a single lab entry. -/
def recLab (name : String) (value : JsVal) : JsVal :=
  JsVal.obj [("labs", JsVal.arr [JsVal.obj [("name", JsVal.str name), ("value", value)]])]

/-- The record `{ [key]: x, labs: [{ name, value }] }`: a top-level field next to a lab entry. -/
def recTopAndLab (key : String) (x : JsVal) (name : String) (value : JsVal) : JsVal :=
  JsVal.obj [(key, x),
    ("labs", JsVal.arr [JsVal.obj [("name", JsVal.str name), ("value", value)]])]

/-- The record `{ [key]: x }` with a single top-level field. -/
def recField (key : String) (x : JsVal) : JsVal := JsVal.obj [(key, x)]

/-- The verdict without reasons and without stored probabilities. -/
def noReasons : Verdict :=
  { isHigh := false, reasons := [], cardioProb := JsNum.fin 0, diabetesProb := JsNum.fin 0 }

/-- The high-risk verdict with the given reasons and without stored probabilities. -/
def flaggedFor (reasons : List Reason) : Verdict :=
  { isHigh := true, reasons := reasons, cardioProb := JsNum.fin 0, diabetesProb := JsNum.fin 0 }

/-! ## `dashboard.controller.js`: ranking in `getHighRiskPatients` -/

namespace JsNum

/-- The unary minus on numbers. -/
def neg : JsNum → JsNum
  | nan => nan
  | inf s => inf (!s)
  | fin q => fin (-q)

/-- The number of halvings that bring `n` below 2, at most `fuel` of them. -/
def bitsFuel : Nat → Nat → Nat
  | 0, _ => 0
  | fuel + 1, n => if n < 2 then 0 else bitsFuel fuel (n / 2) + 1

/-- The binary logarithm of a positive natural number, rounded down. -/
def log2 (n : Nat) : Nat := bitsFuel n n

/-- The binary exponent `e` of a positive rational `x`: `2 ^ e ≤ x < 2 ^ (e + 1)`. -/
def binade (x : ℚ) : ℤ :=
  let k : ℤ := (log2 x.num.natAbs : ℤ) - (log2 x.den : ℤ)
  if (2 : ℚ) ^ k ≤ x then k else k - 1

/-- Rounding to the nearest integer, a tie going to the even neighbour. -/
def roundHalfEven (m : ℚ) : ℤ :=
  if m - ⌊m⌋ < 1 / 2 then ⌊m⌋
  else if 1 / 2 < m - ⌊m⌋ then ⌊m⌋ + 1
  else if ⌊m⌋ % 2 = 0 then ⌊m⌋ else ⌊m⌋ + 1

/-- The significand of a positive rational scaled to 53 bits and rounded, times
the unit of its binade. -/
def roundPos (x : ℚ) : ℚ :=
  (roundHalfEven (x / 2 ^ (binade x - 52)) : ℚ) * 2 ^ (binade x - 52)

/-- The double nearest to a rational, ties to even: the result of an
arithmetic operation of exact value `x`.  The exponent range of doubles
(overflow to infinity, subnormal numbers) is not modelled. -/
def toDouble (x : ℚ) : ℚ :=
  if x = 0 then 0
  else if 0 < x then roundPos x
  else -roundPos (-x)

/-- The sum `a + b` of two numbers: the exact sum of two finite operands is
rounded to the nearest double; opposite infinities add up to `NaN`. -/
def add : JsNum → JsNum → JsNum
  | nan, _ => nan
  | _, nan => nan
  | inf s, inf t => if s = t then inf s else nan
  | inf s, fin _ => inf s
  | fin _, inf t => inf t
  | fin a, fin b => fin (toDouble (a + b))

/-- The difference `a - b` of two numbers. -/
def sub (a b : JsNum) : JsNum := add a (neg b)

/-- The expression `Number(x || 0)` on a number `x`: `0` and `NaN` are falsy. -/
def orZero : JsNum → JsNum
  | nan => fin 0
  | inf s => inf s
  | fin q => if q = 0 then fin 0 else fin q

end JsNum

namespace Dashboard

/-- An element of the array `flagged`:
`{ _id, name, age, gender, risk, cardioProb, diabetesProb, reasons }`. -/
structure Flagged where
  _id : JsVal
  name : JsVal
  age : JsVal
  gender : JsVal
  risk : JsVal
  cardioProb : JsNum
  diabetesProb : JsNum
  reasons : List Reason

/-- The object pushed on `flagged` for a patient `p` and its verdict. -/
def mkFlagged (p : JsVal) (verdict : Verdict) : Flagged :=
  { _id := p.get "_id", name := p.get "name", age := p.get "age", gender := p.get "gender",
    risk := (p.get "risk").orElse JsVal.null, cardioProb := verdict.cardioProb,
    diabetesProb := verdict.diabetesProb, reasons := verdict.reasons }

/-- The loop `for (const p of patients)` that fills `flagged`; `none` when an
evaluation of `checkHighRisk` throws. -/
def collectFlagged : List JsVal → List Flagged → Option (List Flagged)
  | [], flagged => some flagged
  | p :: ps, flagged =>
    match checkHighRisk p with
    | none => none
    | some verdict =>
      if verdict.isHigh then collectFlagged ps (flagged ++ [mkFlagged p verdict])
      else collectFlagged ps flagged

/-- The arrow function `score` of the comparator:
`(x.reasons?.length || 0) + Number(x.cardioProb || 0) + Number(x.diabetesProb || 0)`,
added from left to right, each sum rounded to a double. -/
def score (x : Flagged) : JsNum :=
  ((JsNum.fin (x.reasons.length : ℚ)).orZero.add x.cardioProb.orZero).add x.diabetesProb.orZero

/-- The comparator `(a, b) => score(b) - score(a)`. -/
def compareFn (a b : Flagged) : JsNum := (score b).sub (score a)

/-- Insertion of `x` in front of a sorted tail: `x` moves behind `y` only when
the comparator is positive on `(x, y)`; a `NaN` result counts as `0`. -/
def sortInsert (cmp : Flagged → Flagged → JsNum) (x : Flagged) : List Flagged → List Flagged
  | [] => [x]
  | y :: ys =>
    if (cmp x y).gt (JsNum.fin 0) then y :: sortInsert cmp x ys else x :: y :: ys

/-- The method `Array.prototype.sort(cmp)`.  The language fixes its result for
a consistent comparator: the stable sort, computed here by insertion from the
right.  For an inconsistent comparator the order is implementation-defined. -/
def jsSort (cmp : Flagged → Flagged → JsNum) : List Flagged → List Flagged
  | [] => []
  | x :: xs => sortInsert cmp x (jsSort cmp xs)

/-- The response of the handler: `res.json(body)` or `res.status(code).json({ message })`. -/
inductive Response where
  | json (body : List Flagged)
  | failed (code : Nat) (message : String)

/-- The handler `getHighRiskPatients` from the loaded `patients` on: the loop
that collects `flagged`, then `flagged.slice().sort(cmp).slice(0, 10)`.
The two database queries before are outside the model; an exception is caught
and answered with status 500. -/
def getHighRiskPatients (patients : List JsVal) : Response :=
  match collectFlagged patients [] with
  | none => Response.failed 500 "Failed to fetch high risk patients"
  | some flagged => Response.json ((jsSort compareFn flagged).take 10)

end Dashboard

/-! ### Notions used to state the ranking properties -/

/-- The entry that the loop pushes for a patient, if any: the patient is
flagged when its verdict has `isHigh`. -/
def flaggedEntry (p : JsVal) : Option Dashboard.Flagged :=
  match Dashboard.checkHighRisk p with
  | none => none
  | some verdict => if verdict.isHigh then some (Dashboard.mkFlagged p verdict) else none

/-- What the examples observe of an entry: name, number of reasons and the two probabilities. -/
def entryView (x : Dashboard.Flagged) : String × Nat × JsNum × JsNum :=
  (x.name.toStr, x.reasons.length, x.cardioProb, x.diabetesProb)

/-- The views of the entries of a successful response. -/
def responseViews : Dashboard.Response → Option (List (String × Nat × JsNum × JsNum))
  | Dashboard.Response.json body => some (body.map entryView)
  | Dashboard.Response.failed _ _ => none

/-- The record `{ name, smoker: true, htn: true }`: two reasons, no probability. -/
def recTwoHistory (name : String) : JsVal :=
  JsVal.obj [("name", JsVal.str name), ("smoker", JsVal.bool true), ("htn", JsVal.bool true)]

/-- The record `{ name, smoker: true, risk: { cardio: { probabilities: { High: 0.5 } } } }`:
two reasons and `cardioProb = 0.5`. -/
def recHistoryAndModel (name : String) : JsVal :=
  JsVal.obj [("name", JsVal.str name), ("smoker", JsVal.bool true),
    ("risk", JsVal.obj [("cardio", JsVal.obj [("probabilities",
      JsVal.obj [("High", JsVal.num (JsNum.fin 0.5))])])])]

/-- The record `{ name, vitals: { bpSystolic: 162, bpDiastolic: 105, bmi: 31 } }`:
three clinical reasons, no probability. -/
def recThreeClinical (name : String) : JsVal :=
  JsVal.obj [("name", JsVal.str name),
    ("vitals", JsVal.obj [("bpSystolic", JsVal.num (JsNum.fin 162)),
      ("bpDiastolic", JsVal.num (JsNum.fin 105)), ("bmi", JsVal.num (JsNum.fin 31))])]

/-- The record with `risk.cardio.probabilities.High` and
`risk.diabetes.probabilities.Yes` both 0.9: two model reasons. -/
def recTwoModel (name : String) : JsVal :=
  JsVal.obj [("name", JsVal.str name),
    ("risk", JsVal.obj [
      ("cardio", JsVal.obj [("probabilities", JsVal.obj [("High", JsVal.num (JsNum.fin 0.9))])]),
      ("diabetes", JsVal.obj [("probabilities",
        JsVal.obj [("Yes", JsVal.num (JsNum.fin 0.9))])])])]

/-- The record `{ name, smoker: true, risk: { cardio: { probabilities: { High: c } },
diabetes: { probabilities: { Yes: d } } } }`: one history reason when both
probabilities are at most 0.35. -/
def recSmokerProbs (name : String) (c d : ℚ) : JsVal :=
  JsVal.obj [("name", JsVal.str name), ("smoker", JsVal.bool true),
    ("risk", JsVal.obj [
      ("cardio", JsVal.obj [("probabilities", JsVal.obj [("High", JsVal.num (JsNum.fin c))])]),
      ("diabetes", JsVal.obj [("probabilities",
        JsVal.obj [("Yes", JsVal.num (JsNum.fin d))])])])]

/-- The record `{ name, risk: { cardio: { probabilities: { High: 0.9 } } } }`:
one model reason and `cardioProb = 0.9`. -/
def recOneModel (name : String) : JsVal :=
  JsVal.obj [("name", JsVal.str name),
    ("risk", JsVal.obj [("cardio", JsVal.obj [("probabilities",
      JsVal.obj [("High", JsVal.num (JsNum.fin 0.9))])])])]

/-- The reasons of a verdict with the given type. -/
def reasonsOfType (t : ReasonType) (verdict : Verdict) : List Reason :=
  verdict.reasons.filter (fun r => decide (r.type = t))

/-- A history flag that is a boolean or absent (`undefined` or `null`). -/
def BoolOrAbsent (x : JsVal) : Prop :=
  x.isNullish = true ∨ ∃ b : Bool, x = JsVal.bool b

/-- The record `{ smoker: "1", htn: true }`. -/
def recSmokerHtn : JsVal :=
  JsVal.obj [("smoker", JsVal.str "1"), ("htn", JsVal.bool true)]

/-- The record `{ dm: false, diabetes: true }`. -/
def recDiabetesAlias : JsVal :=
  JsVal.obj [("dm", JsVal.bool false), ("diabetes", JsVal.bool true)]

/-- The record `{ smoker: true, glucose: 8 }`. -/
def recSmokerGlucose : JsVal :=
  JsVal.obj [("smoker", JsVal.bool true), ("glucose", JsVal.num (JsNum.fin 8))]

/-! ### Notions used to state the properties of the labs map -/

/-- The record `p` with the field `k` set to `v`: the new binding is read
first and hides an older one. -/
def JsVal.setField (p : JsVal) (k : String) (v : JsVal) : JsVal :=
  match p with
  | JsVal.obj fields => JsVal.obj ((k, v) :: fields)
  | x => x

/-- A labs entry without a name: the name is `undefined`, `null` or the empty string
(an entry that is itself `null` or `undefined` has no name either). -/
def nameless (it : JsVal) : Bool :=
  match it.get "name" with
  | JsVal.undefined => true
  | JsVal.null => true
  | JsVal.str s => s.data.isEmpty
  | _ => false

/-- The key under which a named labs entry is recorded: its name in lower case. -/
def labKey (it : JsVal) : String := toLowerCase (it.get "name").toStr

/-- The record `{ labs: [{ name: n1, value: v1 }, { name: n2, value: v2 }] }`. -/
def recTwoLabs (n1 : String) (v1 : JsVal) (n2 : String) (v2 : JsVal) : JsVal :=
  JsVal.obj [("labs", JsVal.arr [JsVal.obj [("name", JsVal.str n1), ("value", v1)],
    JsVal.obj [("name", JsVal.str n2), ("value", v2)]])]

/-! ## `doctorAvailability.controllers.js` -/

namespace DoctorAvailability

/-- The method `String.prototype.trim`. -/
def jsTrim (s : String) : String := String.mk (StrNum.trim s.data)

/-- The test `isYMD`: a string matching `/^\d{4}-\d{2}-\d{2}$/`. -/
def isYMD : JsVal → Bool
  | JsVal.str s =>
    match s.data with
    | [y1, y2, y3, y4, '-', m1, m2, '-', d1, d2] =>
      y1.isDigit && y2.isDigit && y3.isDigit && y4.isDigit && m1.isDigit && m2.isDigit &&
        d1.isDigit && d2.isDigit
    | _ => false
  | _ => false

/-- The test `isHHMM`: a string matching `/^\d{2}:\d{2}$/`. -/
def isHHMM : JsVal → Bool
  | JsVal.str s =>
    match s.data with
    | [h1, h2, ':', m1, m2] => h1.isDigit && h2.isDigit && m1.isDigit && m2.isDigit
    | _ => false
  | _ => false

/-- The expression `[...new Set(xs)]` on strings: every value once, at the
place of its first occurrence. -/
def dedupFirst : List String → List String
  | [] => []
  | x :: xs => x :: (dedupFirst xs).filter (fun y => decide (y ≠ x))

/-- The method `sort()` without comparator on strings: ascending order of the
code units, which is the order of `String` on the Basic Multilingual Plane. -/
def sortDefault (xs : List String) : List String := xs.insertionSort (fun a b => a ≤ b)

/-- The constant `cleaned`:
`[...new Set(slots.map(s => String(s).trim()).filter(s => s && isHHMM(s)))].sort()`. -/
def cleaned (slots : List JsVal) : List String :=
  sortDefault (dedupFirst
    ((slots.map (fun s => jsTrim s.toStr)).filter
      (fun s => !s.data.isEmpty && isHHMM (JsVal.str s))))

/-- The constant `dedupedSlots` of the retry:
`[...new Set((req.body.slots || []).map(String))].sort()`; `none` when the
value has no `map` method. -/
def dedupedSlots (slots : JsVal) : Option (List String) :=
  match slots.lor (JsVal.arr []) with
  | JsVal.arr items => some (sortDefault (dedupFirst (items.map (fun s => s.toStr))))
  | _ => none

/-- What the handler does up to its first write: an early answer, or the
update `{ $set: { slots } }` for the pair of doctor and date. -/
inductive Step where
  | answer (code : Nat) (message : String)
  | setSlots (doctor : JsVal) (date : JsVal) (slots : List String)

/-- The normal path of `setAvailability` up to `updateOne`. -/
def setAvailability (user body : JsVal) : Step :=
  if !(user.get "id").truthy then Step.answer 401 "Unauthenticated"
  else if !isYMD (body.get "date") then
    Step.answer 400 "Invalid 'date' (YYYY-MM-DD required)"
  else
    match body.get "slots" with
    | JsVal.arr slots => Step.setSlots (user.get "id") (body.get "date") (cleaned slots)
    | _ => Step.answer 400 "'slots' must be an array of HH:MM strings"

/-- The retry of `setAvailability` after a duplicate-key error, up to its
`updateOne`; `none` when the evaluation throws. -/
def setAvailabilityRetry (user body : JsVal) : Option Step :=
  match dedupedSlots (body.get "slots") with
  | some slots => some (Step.setSlots (user.get "id") (body.get "date") slots)
  | none => none

end DoctorAvailability

/-- A text made of two digits, a colon and two digits. -/
def TwoDigitsColonTwoDigits (x : String) : Prop :=
  ∃ a b c d : Char, a.isDigit = true ∧ b.isDigit = true ∧ c.isDigit = true ∧
    d.isDigit = true ∧ x.data = [a, b, ':', c, d]

/-- The text `raw` is the text `x` between two runs of white space. -/
def PaddingOf (raw x : String) : Prop :=
  ∃ pre post : List Char, raw.data = pre ++ x.data ++ post ∧
    (∀ c ∈ pre, StrNum.isJsWhite c = true) ∧ (∀ c ∈ post, StrNum.isJsWhite c = true)

/-- The slots written by a step, if it is a write. -/
def writtenSlots : DoctorAvailability.Step → Option (List String)
  | DoctorAvailability.Step.setSlots _ _ slots => some slots
  | DoctorAvailability.Step.answer _ _ => none

/-- The minutes since midnight that a string `HH:MM` stands for. -/
def minutesOf (s : String) : Nat :=
  match s.data with
  | [h1, h2, _, m1, m2] =>
    ((h1.toNat - 48) * 10 + (h2.toNat - 48)) * 60 + ((m1.toNat - 48) * 10 + (m2.toNat - 48))
  | _ => 0

/-- The request body `{ date: "2025-03-01", slots }`. -/
def slotsBody (slots : List JsVal) : JsVal :=
  JsVal.obj [("date", JsVal.str "2025-03-01"), ("slots", JsVal.arr slots)]

/-- The authenticated user `{ id: "d1" }`. -/
def someDoctor : JsVal := JsVal.obj [("id", JsVal.str "d1")]

/-- The minutes field of a string `HH:MM`. -/
def minutePart (s : String) : Nat :=
  match s.data with
  | [_, _, _, m1, m2] => (m1.toNat - 48) * 10 + (m2.toNat - 48)
  | _ => 0

/-! ## `patient.controller.js`: predictor payload and stored labels -/

namespace PatientController

/-- The flag code `x ? "1" : "0"` of the predictor payload. -/
def flagCode (x : JsVal) : String := if x.truthy then "1" else "0"

/-- The object `fastApiPayload` built by `addPatientWithRisk` from `req.body`. -/
def addPatientWithRiskPayload (patientData : JsVal) : JsVal :=
  JsVal.obj [
    ("name", patientData.get "name"),
    ("email", patientData.get "email"),
    ("age", patientData.get "age"),
    ("gender", JsVal.str (if (patientData.get "gender").isStr "male" then "1" else "0")),
    ("sbp", patientData.get "sbp"),
    ("dbp", patientData.get "dbp"),
    ("bmi", patientData.get "bmi"),
    ("glucose", patientData.get "glucose"),
    ("tc", patientData.get "tc"),
    ("hdl", patientData.get "hdl"),
    ("ldl", patientData.get "ldl"),
    ("hba1c", patientData.get "hba1c"),
    ("alt", patientData.get "alt"),
    ("ast", patientData.get "ast"),
    ("creat", patientData.get "creat"),
    ("egfr", patientData.get "egfr"),
    ("uacr", patientData.get "uacr"),
    ("bilirubin", patientData.get "bilirubin"),
    ("smoker", JsVal.str (flagCode (patientData.get "smoker"))),
    ("dm", JsVal.str (flagCode (patientData.get "dm"))),
    ("htn", JsVal.str (flagCode (patientData.get "htn"))),
    ("fam_cad", JsVal.str (flagCode (patientData.get "fam_cad")))]

/-- The object `fastApiPayload` built by `computePatientRisk` from the stored patient. -/
def computePatientRiskPayload (patient : JsVal) : JsVal :=
  JsVal.obj [
    ("name", patient.get "name"),
    ("email", patient.get "email"),
    ("age", patient.get "age"),
    ("gender", JsVal.str
      (if (patient.get "gender").isStr "male" || (patient.get "gender").isStr "1" then "1"
       else "0")),
    ("sbp", patient.get "sbp"),
    ("dbp", patient.get "dbp"),
    ("bmi", patient.get "bmi"),
    ("glucose", patient.get "glucose"),
    ("tc", patient.get "tc"),
    ("hdl", patient.get "hdl"),
    ("ldl", patient.get "ldl"),
    ("hba1c", patient.get "hba1c"),
    ("alt", patient.get "alt"),
    ("ast", patient.get "ast"),
    ("creat", patient.get "creat"),
    ("egfr", patient.get "egfr"),
    ("uacr", patient.get "uacr"),
    ("bilirubin", patient.get "bilirubin"),
    ("smoker", JsVal.str (flagCode (patient.get "smoker"))),
    ("dm", JsVal.str (flagCode (patient.get "dm"))),
    ("htn", JsVal.str (flagCode (patient.get "htn"))),
    ("fam_cad", JsVal.str (flagCode (patient.get "fam_cad")))]

/-- The loop of `safeProb` over the parts of the path; `none` is the early `return null`. -/
def walk : JsVal → List String → Option JsVal
  | cur, [] => some cur
  | cur, k :: ks => if cur.isNullish then none else walk (cur.get k) ks

/-- The helper `safeProb(obj, path)` with the path already split at the dots;
`none` is `null`. -/
def safeProb (obj : JsVal) (path : List String) : Option JsNum :=
  match walk obj path with
  | none => none
  | some cur => if cur.isNullish then none else some cur.toNumber

/-- The constant `THRESH` of `addPatientWithRisk` and `computePatientRisk`. -/
def THRESH : ℚ := 0.35

/-- The label `prob != null ? (prob >= THRESH ? 1 : 0) : 0`. -/
def riskLabel (prob : Option JsNum) : Nat :=
  match prob with
  | none => 0
  | some n => if n.ge (JsNum.fin THRESH) then 1 else 0

/-- The stored `cardio_label` computed from the `riskData` of the predictor. -/
def cardio_label (riskData : JsVal) : Nat :=
  riskLabel (normProb (JsVal.ofResult (safeProb riskData ["cardio", "probabilities", "High"])))

/-- The stored `diabetes_label` computed from the `riskData` of the predictor. -/
def diabetes_label (riskData : JsVal) : Nat :=
  riskLabel (normProb (JsVal.ofResult (safeProb riskData ["diabetes", "probabilities", "Yes"])))

end PatientController

/-- The text of a field of a payload. -/
def payloadText (payload : JsVal) (key : String) : String := (payload.get key).toStr

/-- The risk data `{ cardio: { probabilities: { High: x } } }` of the predictor. -/
def riskCardioHigh (x : JsVal) : JsVal :=
  JsVal.obj [("cardio", JsVal.obj [("probabilities", JsVal.obj [("High", x)])])]

/-! ## `doctor.controller.js`: `addMedicationToPatient` -/

namespace DoctorController

/-- An entry of `patient.medications`. -/
structure Medication where
  name : JsVal
  dose : JsVal
  instructions : JsVal
  date : JsVal

/-- The call `x.toLowerCase()`; `none` is the TypeError thrown when `x` is not
a string. The lower-casing of strings is the parameter `lower`. -/
def lowerOf (lower : String → String) : JsVal → Option String
  | JsVal.str s => some (lower s)
  | _ => none

/-- The call `patient.medications.find((m) => m.name.toLowerCase() === name.toLowerCase())`,
returning the index of the entry found; the outer `none` is a TypeError thrown
by the callback. -/
def findExisting (lower : String → String) (name : JsVal) :
    List Medication → Option (Option Nat)
  | [] => some none
  | m :: ms =>
    match lowerOf lower m.name, lowerOf lower name with
    | some a, some b =>
      if a = b then some (some 0)
      else
        match findExisting lower name ms with
        | none => none
        | some none => some none
        | some (some i) => some (some (i + 1))
    | _, _ => none

/-- The assignments `existingMed.dose = dose; existingMed.instructions = instructions`
on the entry at index `i`. -/
def setDose (dose instructions : JsVal) : Nat → List Medication → List Medication
  | _, [] => []
  | 0, m :: ms => { m with dose := dose, instructions := instructions } :: ms
  | i + 1, m :: ms => m :: setDose dose instructions i ms

/-- What the handler answers: an error status, or the saved list with the text
of the timeline event. -/
inductive MedResponse where
  | status (code : Nat) (message : String)
  | success (medications : List Medication) (event : String)

/-- Whether the response is the success response. -/
def MedResponse.isSuccess : MedResponse → Bool
  | MedResponse.success _ _ => true
  | MedResponse.status _ _ => false

/-- The handler `addMedicationToPatient`: `body` is `req.body`, `patient` the
medications of the patient found by id (`none` when there is no such patient),
`now` the value of `new Date()`. -/
def addMedicationToPatient (lower : String → String) (now body : JsVal)
    (patient : Option (List Medication)) : MedResponse :=
  if body.isNullish then MedResponse.status 500 "Server error"
  else
    let name := body.get "name"
    let dose := body.get "dose"
    let instructions := body.get "instructions"
    if !name.truthy then MedResponse.status 400 "Medication name is required"
    else
      match patient with
      | none => MedResponse.status 404 "Patient not found"
      | some medications =>
        match findExisting lower name medications with
        | none => MedResponse.status 500 "Server error"
        | some (some i) =>
          MedResponse.success (setDose dose instructions i medications)
            ("Medication updated: " ++ name.toStr)
        | some none =>
          MedResponse.success
            (medications ++ [{ name := name, dose := dose, instructions := instructions,
                               date := now }])
            ("Medication added: " ++ name.toStr)

end DoctorController

/-- Two names are equal ignoring case: both are strings with the same lower-casing. -/
def SameName (lower : String → String) (a b : JsVal) : Prop :=
  ∃ s t, a = JsVal.str s ∧ b = JsVal.str t ∧ lower s = lower t

/-- No two medications of the list have names equal ignoring case. -/
def UniqueNames (lower : String → String) (meds : List DoctorController.Medication) : Prop :=
  (meds.map (fun m => m.name)).Pairwise (fun a b => ¬ SameName lower a b)

/-- What the examples observe of a response: the name, dose and instructions of
every saved entry, and the text of the timeline event. -/
def savedView : DoctorController.MedResponse → Option (List (String × String × String) × String)
  | DoctorController.MedResponse.success medications event =>
    some (medications.map (fun m => (m.name.toStr, m.dose.toStr, m.instructions.toStr)), event)
  | DoctorController.MedResponse.status _ _ => none

/-- A medication list with one entry, used as a sample. -/
def medsAspirin : List DoctorController.Medication :=
  [{ name := JsVal.str "Aspirin", dose := JsVal.str "75mg", instructions := JsVal.str "daily",
     date := JsVal.str "2025-01-01" }]

/-- A request body naming a medication with a dose. -/
def medBody (name dose : String) : JsVal :=
  JsVal.obj [("name", JsVal.str name), ("dose", JsVal.str dose),
    ("instructions", JsVal.str "with food")]

/-! ## `appointments.jsx`: time labels -/

/-- The remainder operator `a % b` on numbers: the result has the sign of the
dividend. -/
def JsNum.mod : JsNum → JsNum → JsNum
  | JsNum.nan, _ => JsNum.nan
  | _, JsNum.nan => JsNum.nan
  | JsNum.inf _, _ => JsNum.nan
  | JsNum.fin a, JsNum.inf _ => JsNum.fin a
  | JsNum.fin a, JsNum.fin b =>
    if b = 0 then JsNum.nan else JsNum.fin (a - b * ((a / b).num.tdiv (a / b).den))

namespace Appointments

/-- The fixed list `timeSlots` of labels offered by the page. -/
def timeSlots : List String :=
  ["09:00 AM", "09:30 AM", "10:00 AM", "10:30 AM", "11:00 AM", "11:30 AM",
   "12:00 PM", "12:30 PM", "02:00 PM", "02:30 PM", "03:00 PM", "03:30 PM",
   "04:00 PM", "04:30 PM", "05:00 PM"]

/-- The pieces of a character list between the occurrences of `sep`. -/
def splitChars (sep : Char) : List Char → List (List Char)
  | [] => [[]]
  | c :: cs =>
    if c = sep then [] :: splitChars sep cs
    else
      match splitChars sep cs with
      | [] => [[c]]
      | p :: ps => (c :: p) :: ps

/-- The call `s.split(sep)` for a separator of one character. -/
def split (s : String) (sep : Char) : List String :=
  (splitChars sep s.data).map String.mk

/-- The element `xs[i]` of an array of strings, `undefined` past the end. -/
def item (xs : List String) (i : Nat) : JsVal :=
  match xs.get? i with
  | some s => JsVal.str s
  | none => JsVal.undefined

/-- The call `s.padStart(2, "0")`. -/
def padStart2 (s : String) : String :=
  String.mk (List.replicate (2 - s.length) '0') ++ s

/-- The helper `toLabel(hhmm24)` for a string argument. -/
def toLabel (hhmm24 : String) : String :=
  if hhmm24 = "" then ""
  else
    let parts := split hhmm24 ':'
    let h := (item parts 0).toNumber
    let m := (item parts 1).toNumber
    let ampm := if h.ge (JsNum.fin 12) then "PM" else "AM"
    let h12 := if h.mod (JsNum.fin 12) = JsNum.fin 0 then JsNum.fin 12 else h.mod (JsNum.fin 12)
    padStart2 h12.toStr ++ ":" ++ padStart2 m.toStr ++ " " ++ ampm

/-- The array `time.split(":").map(Number)`. -/
def numbers (time : JsVal) : List JsVal :=
  match time with
  | JsVal.str t => (split t ':').map (fun s => JsVal.num (JsVal.str s).toNumber)
  | _ => []

/-- The helper `to24h(label)` for a string argument. -/
def to24h (label : String) : String :=
  let parts := split label ' '
  let time := item parts 0
  let ampm := item parts 1
  let nums := numbers time
  let h := nums.getD 0 JsVal.undefined
  let m := nums.getD 1 JsVal.undefined
  let h1 :=
    if ampm.isStr "PM" && !(h.isNum 12) then JsVal.num (h.toNumber.add (JsNum.fin 12)) else h
  let h2 := if ampm.isStr "AM" && h1.isNum 12 then JsVal.num (JsNum.fin 0) else h1
  padStart2 h2.toStr ++ ":" ++ padStart2 m.toStr

end Appointments

/-- The 24-hour string `HH:MM` of hour `h` and minute `m`, each on two digits. -/
def hhmm (h m : Nat) : String :=
  Appointments.padStart2 (Nat.repr h) ++ ":" ++ Appointments.padStart2 (Nat.repr m)

/-! ## `patient.jsx`: `computeRisk` of the patient dashboard -/

namespace PatientDashboard

/-- The pair `{ cardio, diabetes }` returned by `computeRisk`. -/
structure RiskLevels where
  cardio : String
  diabetes : String
  deriving DecidableEq

/-- The test `/pat/i.test(x)` for a pattern of lower-case ASCII letters and digits. -/
def testIgnoreCase (pat : String) (x : JsVal) : Bool := includes (toLowerCase x.toStr) pat

/-- The call `labs.find((l) => /pat/i.test(l.name || ""))`; the outer `none` is
the TypeError thrown on a `null` or `undefined` entry. -/
def findLab (pat : String) : List JsVal → Option (Option JsVal)
  | [] => some none
  | l :: ls =>
    if l.isNullish then none
    else if testIgnoreCase pat ((l.get "name").lor (JsVal.str "")) then some (some l)
    else findLab pat ls

/-- The expression `item ? Number(String(item.value).replace(/[^\d.]/g, "")) : 0`. -/
def labNumber (item : Option JsVal) : JsNum :=
  match item with
  | some it =>
    if it.truthy then
      (JsVal.str (String.mk ((it.get "value").toStr.data.filter
        (fun c => c.isDigit || c = '.')))).toNumber
    else JsNum.fin 0
  | none => JsNum.fin 0

/-- The expression `Number(vitals.key || 0)`. -/
def vital (vitals : JsVal) (key : String) : JsNum :=
  ((vitals.get key).lor (JsVal.num (JsNum.fin 0))).toNumber

/-- The level `score >= 4 ? "High" : score >= 2 ? "Medium" : "Low"`. -/
def level (score : Nat) : String :=
  if score ≥ 4 then "High" else if score ≥ 2 then "Medium" else "Low"

/-- The function `computeRisk(vitals = {}, labs = [])`; `none` is a thrown TypeError. -/
def computeRisk (vitalsArg labsArg : JsVal) : Option RiskLevels :=
  let vitals := match vitalsArg with
    | JsVal.undefined => JsVal.obj []
    | v => v
  let labsVal := match labsArg with
    | JsVal.undefined => JsVal.arr []
    | v => v
  match vitals, labsVal with
  | JsVal.null, _ => none
  | _, JsVal.arr labs =>
    let systolic := vital vitals "bpSystolic"
    let diastolic := vital vitals "bpDiastolic"
    let bmi := vital vitals "bmi"
    let hr := vital vitals "heartRate"
    match findLab "hba1c" labs, findLab "triglycerides" labs with
    | some a1cItem, some tgItem =>
      let a1c := labNumber a1cItem
      let tg := labNumber tgItem
      let cardioScore :=
        (if systolic.ge (JsNum.fin 140) || diastolic.ge (JsNum.fin 90) then 2
         else if systolic.ge (JsNum.fin 130) || diastolic.ge (JsNum.fin 80) then 1 else 0) +
        (if bmi.ge (JsNum.fin 30) then 2 else if bmi.ge (JsNum.fin 25) then 1 else 0) +
        (if hr.ge (JsNum.fin 100) || hr.le (JsNum.fin 50) then 1 else 0) +
        (if tg.ge (JsNum.fin 2.3) then 2 else if tg.ge (JsNum.fin 1.7) then 1 else 0)
      let dmScore :=
        (if a1c.ge (JsNum.fin 6.5) then 3 else if a1c.ge (JsNum.fin 5.7) then 1 else 0) +
        (if bmi.ge (JsNum.fin 30) then 2 else if bmi.ge (JsNum.fin 25) then 1 else 0)
      some { cardio := level cardioScore, diabetes := level dmScore }
    | _, _ => none
  | _, _ => none

end PatientDashboard

/-- The vitals object with only a systolic pressure. -/
def vitalsSystolic (x : ℚ) : JsVal := JsVal.obj [("bpSystolic", JsVal.num (JsNum.fin x))]

/-- The vitals object with a systolic pressure and a heart rate. -/
def vitalsSystolicHeart (x hr : ℚ) : JsVal :=
  JsVal.obj [("bpSystolic", JsVal.num (JsNum.fin x)), ("heartRate", JsVal.num (JsNum.fin hr))]

/-! ## Lemmas on numbers and on `normProb` -/

theorem jsNum_gt_fin (a b : ℚ) : (JsNum.fin a).gt (JsNum.fin b) = decide (b < a) := rfl

theorem jsNum_lt_fin (a b : ℚ) : (JsNum.fin a).lt (JsNum.fin b) = decide (a < b) := rfl

theorem jsNum_ge_fin (a b : ℚ) : (JsNum.fin a).ge (JsNum.fin b) = decide (b ≤ a) := by
  simp only [JsNum.ge, JsNum.le, JsNum.lt]
  rw [Bool.eq_iff_iff]
  simp [not_lt]

theorem dashboard_normProb_fin (v : JsVal) (q : ℚ) (h : v.toNumber = JsNum.fin q) :
    Dashboard.normProb v =
      if v.isNullish then JsNum.fin 0 else if 1 < q then JsNum.fin (q / 100) else JsNum.fin q := by
  unfold Dashboard.normProb
  simp only [h, JsNum.isNaN, jsNum_gt_fin, JsNum.divLit]
  split <;> simp

theorem patient_normProb_fin (v : JsVal) (q : ℚ) (h : v.toNumber = JsNum.fin q) :
    PatientController.normProb v =
      if v.isNullish then none else if 1 < q then some (JsNum.fin (q / 100))
      else some (JsNum.fin q) := by
  unfold PatientController.normProb
  simp only [h, JsNum.isNaN, jsNum_gt_fin, JsNum.divLit]
  split <;> simp

theorem riskCard_normProb_eq (v : JsVal) :
    RiskCard.normProb v = PatientController.normProb v := rfl

theorem inUnitInterval_of_percent (q : ℚ) (h0 : 0 ≤ q) (h100 : q ≤ 100) :
    InUnitInterval (if 1 < q then JsNum.fin (q / 100) else JsNum.fin q) := by
  by_cases h1 : 1 < q
  · refine ⟨q / 100, by simp [h1], by positivity, ?_⟩
    rw [div_le_one (by norm_num)]
    exact h100
  · exact ⟨q, by simp [h1], h0, not_lt.mp h1⟩

/-! ## Claims on probability normalisation -/

/-- Claim C2, counterexample: the empty string, a blank string, the empty array
and the booleans are not numeric, yet `normProb` of `patient.controller.js` and
of `RiskCard.jsx` does not return `null` on them: `Number` converts them to 0
or 1, which is returned. -/
theorem normProb_of_non_numeric_not_null :
    PatientController.normProb (JsVal.str "") = some (JsNum.fin 0) ∧
    RiskCard.normProb (JsVal.str "") = some (JsNum.fin 0) ∧
    PatientController.normProb (JsVal.str "  ") = some (JsNum.fin 0) ∧
    RiskCard.normProb (JsVal.str "  ") = some (JsNum.fin 0) ∧
    PatientController.normProb (JsVal.arr []) = some (JsNum.fin 0) ∧
    RiskCard.normProb (JsVal.arr []) = some (JsNum.fin 0) ∧
    PatientController.normProb (JsVal.bool true) = some (JsNum.fin 1) ∧
    RiskCard.normProb (JsVal.bool true) = some (JsNum.fin 1) ∧
    PatientController.normProb (JsVal.bool false) = some (JsNum.fin 0) ∧
    RiskCard.normProb (JsVal.bool false) = some (JsNum.fin 0) := by
  refine ⟨by decide!, by decide!, by decide!, by decide!, by decide!, by decide!, by decide!,
    by decide!, by decide!, by decide!⟩

/-- Claim C2, amended: `normProb` of `patient.controller.js` and of
`RiskCard.jsx` agree; they return `null` for `null`, `undefined` and any value
whose number conversion `Number(raw)` is `NaN`; on any other value, of numeric
value `q`, they return `q / 100` when `q > 1` and `q` itself when `q <= 1` (an
infinite value is returned as it is, which is both `raw / 100` and `raw`).  In
particular a number in `[0, 1)` is returned unchanged and a number in
`(1, 100]` is divided by 100. -/
theorem normProb_contract (v : JsVal) :
    RiskCard.normProb v = PatientController.normProb v ∧
    (v.isNullish = true → PatientController.normProb v = none) ∧
    (v.toNumber = JsNum.nan → PatientController.normProb v = none) ∧
    (∀ q : ℚ, v.isNullish = false → v.toNumber = JsNum.fin q → 1 < q →
      PatientController.normProb v = some (JsNum.fin (q / 100))) ∧
    (∀ q : ℚ, v.isNullish = false → v.toNumber = JsNum.fin q → q ≤ 1 →
      PatientController.normProb v = some (JsNum.fin q)) ∧
    (∀ s : Bool, v.isNullish = false → v.toNumber = JsNum.inf s →
      PatientController.normProb v = some (JsNum.inf s)) ∧
    (∀ x : ℚ, 0 ≤ x → x < 1 →
      PatientController.normProb (JsVal.num (JsNum.fin x)) = some (JsNum.fin x)) ∧
    (∀ x : ℚ, 1 < x → x ≤ 100 →
      PatientController.normProb (JsVal.num (JsNum.fin x)) = some (JsNum.fin (x / 100))) := by
  refine ⟨rfl, ?_, ?_, ?_, ?_, ?_, ?_, ?_⟩
  · intro h
    simp [PatientController.normProb, h]
  · intro h
    simp [PatientController.normProb, h, JsNum.isNaN]
  · intro q hn hq h1
    rw [patient_normProb_fin v q hq]
    simp [hn, h1]
  · intro q hn hq h1
    rw [patient_normProb_fin v q hq]
    simp [hn, not_lt.mpr h1]
  · intro s hn hs
    cases s <;> simp [PatientController.normProb, hn, hs, JsNum.isNaN, JsNum.gt, JsNum.lt,
      JsNum.divLit]
  · intro x _ h1
    rw [patient_normProb_fin (JsVal.num (JsNum.fin x)) x rfl]
    simp [JsVal.isNullish, not_lt.mpr (le_of_lt h1)]
  · intro x h1 _
    rw [patient_normProb_fin (JsVal.num (JsNum.fin x)) x rfl]
    simp [JsVal.isNullish, h1]

/-- Claim C2, amended, instances: `null`, `undefined` and `"abc"` give `null`; a
stored 45 gives 0.45 and a stored `"0.2"` gives 0.2. -/
theorem normProb_contract_witness :
    PatientController.normProb JsVal.null = none ∧
    PatientController.normProb JsVal.undefined = none ∧
    PatientController.normProb (JsVal.str "abc") = none ∧
    PatientController.normProb (JsVal.num (JsNum.fin 45)) = some (JsNum.fin (45 / 100)) ∧
    PatientController.normProb (JsVal.str "0.2") = some (JsNum.fin (2 / 10)) :=
  ⟨(normProb_contract JsVal.null).2.1 rfl,
   (normProb_contract JsVal.undefined).2.1 rfl,
   (normProb_contract (JsVal.str "abc")).2.2.1 (by decide!),
   (normProb_contract (JsVal.num (JsNum.fin 45))).2.2.2.1 45 rfl rfl (by norm_num),
   (normProb_contract (JsVal.str "0.2")).2.2.2.2.1 (2 / 10) rfl (by decide!) (by norm_num)⟩

/-- Claim C3, counterexample: a stored 150 normalises to 1.5 in both
controllers, and the verdict of a record storing it carries `cardioProb = 1.5`,
which is outside `[0, 1]`. -/
theorem normProb_exceeds_unit_interval :
    PatientController.normProb (JsVal.num (JsNum.fin 150)) = some (JsNum.fin (3 / 2)) ∧
    Dashboard.normProb (JsVal.num (JsNum.fin 150)) = JsNum.fin (3 / 2) ∧
    (Dashboard.checkHighRisk (recCardioHigh (JsVal.num (JsNum.fin 150)))).map
      (fun verdict => verdict.cardioProb) = some (JsNum.fin (3 / 2)) ∧
    ¬ InUnitInterval (JsNum.fin (3 / 2)) := by
  refine ⟨by decide!, by decide!, by decide!, ?_⟩
  rintro ⟨r, hr, _, h1⟩
  injection hr with hr
  rw [← hr] at h1
  norm_num at h1

/-- Claim C3, amended: for every raw value whose numeric value lies between 0
and 100, the result of each `normProb` lies in `[0, 1]` (or is `null` in
`patient.controller.js` and `RiskCard.jsx` when the raw value is `null`), and
so do the `cardioProb` and `diabetesProb` of the verdict of every record whose
stored raw probability is such a value. -/
theorem normProb_in_unit_interval (v : JsVal) (hv : PercentOrFraction v) :
    InUnitInterval (Dashboard.normProb v) ∧
    (∀ n : JsNum, PatientController.normProb v = some n → InUnitInterval n) ∧
    (∀ n : JsNum, RiskCard.normProb v = some n → InUnitInterval n) ∧
    (v.isNullish = false → ∃ n : JsNum, PatientController.normProb v = some n) ∧
    (∀ (p : JsVal) (verdict : Verdict), Dashboard.checkHighRisk p = some verdict →
      (Dashboard.cardioRaw p = v → InUnitInterval verdict.cardioProb) ∧
      (Dashboard.diabetesRaw p = v → InUnitInterval verdict.diabetesProb)) := by
  obtain ⟨q, hq, h0, h100⟩ := hv
  have hunit := inUnitInterval_of_percent q h0 h100
  have hd : InUnitInterval (Dashboard.normProb v) := by
    rw [dashboard_normProb_fin v q hq]
    by_cases hn : v.isNullish = true
    · simp only [hn, if_true]
      exact ⟨0, rfl, le_refl 0, by norm_num⟩
    · simpa [hn] using hunit
  have hp : ∀ n : JsNum, PatientController.normProb v = some n → InUnitInterval n := by
    intro n hn
    rw [patient_normProb_fin v q hq] at hn
    by_cases hnull : v.isNullish = true
    · simp [hnull] at hn
    · by_cases h1 : 1 < q
      · simp [hnull, h1] at hn
        rw [← hn]
        simpa [h1] using hunit
      · simp [hnull, h1] at hn
        rw [← hn]
        simpa [h1] using hunit
  refine ⟨hd, hp, hp, ?_, ?_⟩
  · intro hnull
    rw [patient_normProb_fin v q hq]
    by_cases h1 : 1 < q <;> simp [hnull, h1]
  · intro p verdict hverdict
    unfold Dashboard.checkHighRisk at hverdict
    by_cases hnull : p.isNullish = true
    · simp [hnull] at hverdict
    · simp only [hnull, Bool.false_eq_true, if_false] at hverdict
      split at hverdict
      · simp at hverdict
      · simp only [Option.some.injEq] at hverdict
        subst hverdict
        constructor
        · intro hraw
          simpa [hraw] using hd
        · intro hraw
          simpa [hraw] using hd

/-- Claim C3, instance: a stored 45 is a value between 0 and 100 and normalises
into the unit interval. -/
theorem normProb_in_unit_interval_witness :
    PercentOrFraction (JsVal.num (JsNum.fin 45)) ∧
    InUnitInterval (Dashboard.normProb (JsVal.num (JsNum.fin 45))) :=
  ⟨⟨45, rfl, by norm_num, by norm_num⟩,
   (normProb_in_unit_interval (JsVal.num (JsNum.fin 45))
      ⟨45, rfl, by norm_num, by norm_num⟩).1⟩

/-- Claim C4, counterexample: normalising the raw value 150 gives 1.5 and
normalising again gives 0.015. -/
theorem normProb_not_idempotent_above_hundred :
    PatientController.normProb (JsVal.num (JsNum.fin 150)) = some (JsNum.fin (3 / 2)) ∧
    PatientController.normProb
      (JsVal.ofResult (PatientController.normProb (JsVal.num (JsNum.fin 150)))) =
        some (JsNum.fin (3 / 200)) ∧
    PatientController.normProb
      (JsVal.ofResult (PatientController.normProb (JsVal.num (JsNum.fin 150)))) ≠
        PatientController.normProb (JsVal.num (JsNum.fin 150)) ∧
    Dashboard.normProb (JsVal.num (Dashboard.normProb (JsVal.num (JsNum.fin 150)))) ≠
      Dashboard.normProb (JsVal.num (JsNum.fin 150)) := by
  refine ⟨by decide!, by decide!, by decide!, by decide!⟩

/-- Claim C4, amended: for every input that is `null`, `undefined`,
non-numeric, infinite, or numeric and at most 100, normalising twice gives the
same result as normalising once, in each of the three `normProb` helpers. -/
theorem normProb_idempotent (v : JsVal) (hv : AtMostHundred v) :
    PatientController.normProb (JsVal.ofResult (PatientController.normProb v)) =
      PatientController.normProb v ∧
    RiskCard.normProb (JsVal.ofResult (RiskCard.normProb v)) = RiskCard.normProb v ∧
    Dashboard.normProb (JsVal.num (Dashboard.normProb v)) = Dashboard.normProb v := by
  have key : PatientController.normProb (JsVal.ofResult (PatientController.normProb v)) =
      PatientController.normProb v ∧
      Dashboard.normProb (JsVal.num (Dashboard.normProb v)) = Dashboard.normProb v := by
    by_cases hnull : v.isNullish = true
    · have e1 : PatientController.normProb v = none := by
        simp only [PatientController.normProb, hnull, if_true]
      have e2 : Dashboard.normProb v = JsNum.fin 0 := by
        simp only [Dashboard.normProb, hnull, if_true]
      rw [e1, e2]
      exact ⟨by decide!, by decide!⟩
    · cases hn : v.toNumber with
      | nan =>
        have e1 : PatientController.normProb v = none := by
          simp [PatientController.normProb, hnull, hn, JsNum.isNaN]
        have e2 : Dashboard.normProb v = JsNum.fin 0 := by
          simp [Dashboard.normProb, hnull, hn, JsNum.isNaN]
        rw [e1, e2]
        exact ⟨by decide!, by decide!⟩
      | inf s =>
        have e1 : PatientController.normProb v = some (JsNum.inf s) := by
          cases s <;> simp [PatientController.normProb, hnull, hn, JsNum.isNaN, JsNum.gt,
            JsNum.lt, JsNum.divLit]
        have e2 : Dashboard.normProb v = JsNum.inf s := by
          cases s <;> simp [Dashboard.normProb, hnull, hn, JsNum.isNaN, JsNum.gt,
            JsNum.lt, JsNum.divLit]
        rw [e1, e2]
        cases s <;> exact ⟨by decide!, by decide!⟩
      | fin q =>
        have h100 : q ≤ 100 := hv q hn
        have hdiv : ¬ (1 < q / 100) := by
          rw [not_lt, div_le_one (by norm_num)]
          exact h100
        rw [patient_normProb_fin v q hn, dashboard_normProb_fin v q hn]
        simp only [hnull, Bool.false_eq_true, if_false]
        by_cases h1 : 1 < q
        · simp only [h1, if_true, JsVal.ofResult]
          rw [patient_normProb_fin (JsVal.num (JsNum.fin (q / 100))) (q / 100) rfl,
            dashboard_normProb_fin (JsVal.num (JsNum.fin (q / 100))) (q / 100) rfl]
          simp [JsVal.isNullish, hdiv]
        · simp only [h1, if_false, JsVal.ofResult]
          rw [patient_normProb_fin (JsVal.num (JsNum.fin q)) q rfl,
            dashboard_normProb_fin (JsVal.num (JsNum.fin q)) q rfl]
          simp [JsVal.isNullish, h1]
  exact ⟨key.1, key.1, key.2⟩

/-- Claim C4, instance: the raw value 45 is at most 100 and normalising it twice
gives 0.45 both times. -/
theorem normProb_idempotent_witness :
    AtMostHundred (JsVal.num (JsNum.fin 45)) ∧
    PatientController.normProb
      (JsVal.ofResult (PatientController.normProb (JsVal.num (JsNum.fin 45)))) =
        PatientController.normProb (JsVal.num (JsNum.fin 45)) :=
  ⟨fun q hq => by
      have h45 : (45 : ℚ) = q := by
        simpa [JsVal.toNumber] using hq
      rw [← h45]
      norm_num,
   (normProb_idempotent (JsVal.num (JsNum.fin 45)) (fun q hq => by
      have h45 : (45 : ℚ) = q := by
        simpa [JsVal.toNumber] using hq
      rw [← h45]
      norm_num)).1⟩

/-! ## Lemmas on the reasons list of `checkHighRisk` -/

theorem count_pushIf (x r : Reason) (c : Bool) (acc : List Reason) :
    (Dashboard.pushIf c r acc).count x = acc.count x + (if c = true ∧ r = x then 1 else 0) := by
  unfold Dashboard.pushIf
  by_cases hc : c = true
  · by_cases hr : r = x
    · simp [hc, hr]
    · simp [hc, hr, List.count_singleton]
  · simp [hc]

theorem filter_pushIf (f : Reason → Bool) (r : Reason) (c : Bool) (acc : List Reason) :
    (Dashboard.pushIf c r acc).filter f = acc.filter f ++ (if c = true ∧ f r = true then [r] else []) := by
  unfold Dashboard.pushIf
  by_cases hc : c = true
  · by_cases hr : f r = true
    · simp [hc, hr, List.filter_append]
    · simp [hc, hr, List.filter_append]
  · simp [hc]

theorem noteReason_eq_iff (t t1 : ReasonType) (d d1 : Domain) (s s1 : String) :
    Dashboard.noteReason t d s = Dashboard.noteReason t1 d1 s1 ↔ t = t1 ∧ d = d1 ∧ s = s1 := by
  simp [Dashboard.noteReason]

theorem modelReason_ne_noteReason (t : ReasonType) (d d1 : Domain) (n : JsNum) (s : String) :
    (Dashboard.modelReason d n = Dashboard.noteReason t d1 s) ↔ False := by
  simp [Dashboard.noteReason, Dashboard.modelReason]

/-- Two notes whose labels start with different characters are different. -/
theorem label_append_eq (l1 l2 a b : String)
    (h : l1.data.head? ≠ l2.data.head? ∧ l1.data ≠ [] ∧ l2.data ≠ []) :
    (l1 ++ a = l2 ++ b) ↔ False := by
  constructor
  · intro heq
    have hd := congrArg String.data heq
    simp only [String.data_append] at hd
    obtain ⟨h1, h2, h3⟩ := h
    cases hl1 : l1.data with
    | nil => exact h2 hl1
    | cons c1 r1 =>
      cases hl2 : l2.data with
      | nil => exact h3 hl2
      | cons c2 r2 =>
        rw [hl1, hl2] at hd h1
        simp at hd h1
        exact h1 hd.1
  · intro hf
    exact hf.elim

theorem orElse_of_nullish (a b : JsVal) (h : a.isNullish = true) : a.orElse b = b := by
  simp [JsVal.orElse, h]

theorem orElse_of_present (a b : JsVal) (h : a.isNullish = false) : a.orElse b = a := by
  simp [JsVal.orElse, h]

theorem dashboard_normProb_null : Dashboard.normProb JsVal.null = JsNum.fin 0 := by decide!

/-- The evaluation of `checkHighRisk` returns a verdict when `p` is not nullish
and `p.labs` is falsy or an array. -/
theorem checkHighRisk_isSome (p : JsVal) (m : List (String × JsVal))
    (hp : p.isNullish = false) (hm : Dashboard.labsMap p = some m) :
    ∃ verdict, Dashboard.checkHighRisk p = some verdict := by
  simp [Dashboard.checkHighRisk, hp, hm]

/-- Every rule of the clinical table contributes its reason once when it
fires and not at all otherwise. -/
theorem clinical_counts (p : JsVal) (m : List (String × JsVal)) (verdict : Verdict)
    (hp : p.isNullish = false) (hm : Dashboard.labsMap p = some m)
    (hv : Dashboard.checkHighRisk p = some verdict) :
    ∀ rule ∈ clinicalTable p m,
      verdict.reasons.count rule.reason = if rule.fires then 1 else 0 := by
  simp only [Dashboard.checkHighRisk, hp, hm, Bool.false_eq_true, if_false,
    Option.some.injEq] at hv
  subst hv
  intro rule hrule
  simp only [clinicalTable, List.mem_cons, List.mem_singleton, List.not_mem_nil, or_false] at hrule
  rcases hrule with h | h | h | h | h | h | h | h | h | h | h | h | h <;> subst h <;>
    simp (disch := decide) only [count_pushIf, noteReason_eq_iff, modelReason_ne_noteReason,
      label_append_eq, List.count_nil, and_false, false_and, reduceCtorEq, ite_false, if_false,
      Nat.add_zero, Nat.zero_add, true_and, and_true, String.reduceEq, Dashboard.atLeast,
      Dashboard.above, Dashboard.below, ClinicalRule.reason, ClinicalRule.fires,
      Dashboard.RULES.cardio.systolic, Dashboard.RULES.cardio.diastolic,
      Dashboard.RULES.cardio.bmi, Dashboard.RULES.cardio.tc, Dashboard.RULES.cardio.ldl,
      Dashboard.RULES.cardio.hdl, Dashboard.RULES.cardio.creat, Dashboard.RULES.cardio.egfr,
      Dashboard.RULES.cardio.uacr, Dashboard.RULES.diabetes.fasting_glucose,
      Dashboard.RULES.diabetes.hba1c, Dashboard.RULES.diabetes.uacr,
      Dashboard.RULES.diabetes.egfr, JsNum.gt]

theorem filter_cons_append {α : Type} (f : α → Bool) (a : α) (l : List α) :
    (a :: l).filter f = (if f a = true then [a] else []) ++ l.filter f := by
  by_cases h : f a = true <;> simp [List.filter_cons, h]

theorem map_ite_singleton {α β : Type} (g : α → β) (c : Prop) [Decidable c] (a : α) :
    List.map g (if c then [a] else []) = if c then [g a] else [] := by
  by_cases h : c <;> simp [h]

/-- The clinical reasons of a verdict are the reasons of the rules of the
table that fire, in the order of the table. -/
theorem clinical_filter (p : JsVal) (m : List (String × JsVal)) (verdict : Verdict)
    (hp : p.isNullish = false) (hm : Dashboard.labsMap p = some m)
    (hv : Dashboard.checkHighRisk p = some verdict) :
    verdict.reasons.filter (fun r => decide (r.type = ReasonType.clinical)) =
      ((clinicalTable p m).filter (fun rule => rule.fires)).map (fun rule => rule.reason) := by
  simp only [Dashboard.checkHighRisk, hp, hm, Bool.false_eq_true, if_false,
    Option.some.injEq] at hv
  subst hv
  simp only [clinicalTable, filter_pushIf, filter_cons_append, List.filter_nil, List.map_append,
    map_ite_singleton, List.map_nil, List.append_nil, List.nil_append, List.append_assoc,
    Dashboard.noteReason, Dashboard.modelReason, ClinicalRule.reason, ClinicalRule.fires,
    reduceCtorEq, decide_False, decide_True, and_true, and_false, if_false, Bool.false_eq_true,
    Dashboard.atLeast, Dashboard.above, Dashboard.below,
    Dashboard.RULES.cardio.systolic, Dashboard.RULES.cardio.diastolic,
    Dashboard.RULES.cardio.bmi, Dashboard.RULES.cardio.tc, Dashboard.RULES.cardio.ldl,
    Dashboard.RULES.cardio.hdl, Dashboard.RULES.cardio.creat, Dashboard.RULES.cardio.egfr,
    Dashboard.RULES.cardio.uacr, Dashboard.RULES.diabetes.fasting_glucose,
    Dashboard.RULES.diabetes.hba1c, Dashboard.RULES.diabetes.uacr,
    Dashboard.RULES.diabetes.egfr, JsNum.gt]

/-! ## Claims on `checkHighRisk` -/

/-- Claim C1: for every record on which `checkHighRisk` runs, the clinical
reasons of the verdict are exactly the reasons of the rules of the threshold
table that fire on the resolved value of their own field, in table order and
once each, whatever the other fields are.  In particular the systolic reason
is present iff `vitals.bpSystolic >= 160`, and a UACR of exactly 30 gives the
diabetes reason and not the cardio one. -/
theorem clinical_rule_table (p : JsVal) (m : List (String × JsVal))
    (hp : p.isNullish = false) (hm : Dashboard.labsMap p = some m) :
    ∃ verdict, Dashboard.checkHighRisk p = some verdict ∧
      verdict.reasons.filter (fun r => decide (r.type = ReasonType.clinical)) =
        ((clinicalTable p m).filter (fun rule => rule.fires)).map (fun rule => rule.reason) ∧
      (∀ rule ∈ clinicalTable p m,
        verdict.reasons.count rule.reason = if rule.fires then 1 else 0) ∧
      (∀ q : ℚ,
        ((p.get "vitals").lor (JsVal.obj [])).get "bpSystolic" = JsVal.num (JsNum.fin q) →
        (Dashboard.noteReason ReasonType.clinical Domain.cardio
            ("systolic " ++ (JsVal.num (JsNum.fin q)).toStr) ∈ verdict.reasons ↔ 160 ≤ q)) ∧
      (p.get "uacr" = JsVal.num (JsNum.fin 30) →
        Dashboard.noteReason ReasonType.clinical Domain.diabetes "uacr 30" ∈ verdict.reasons ∧
        Dashboard.noteReason ReasonType.clinical Domain.cardio "uacr 30" ∉ verdict.reasons) := by
  obtain ⟨verdict, hv⟩ := checkHighRisk_isSome p m hp hm
  have hcount := clinical_counts p m verdict hp hm hv
  refine ⟨verdict, hv, clinical_filter p m verdict hp hm hv, hcount, ?_, ?_⟩
  · intro q hq
    have h1 := hcount
      { domain := Domain.cardio, label := "systolic ",
        value := ((p.get "vitals").lor (JsVal.obj [])).get "bpSystolic",
        trigger := fun n => n.ge (JsNum.fin 160) } (by simp [clinicalTable])
    simp only [ClinicalRule.reason, ClinicalRule.fires, hq, JsVal.isNullish, JsVal.toNumber,
      jsNum_ge_fin, Bool.not_false, Bool.true_and, decide_eq_true_eq] at h1
    rw [← List.count_pos_iff, h1]
    by_cases h160 : 160 ≤ q <;> simp [h160]
  · intro hu
    have h30 : (JsVal.num (JsNum.fin 30)).toStr = "30" := by decide!
    have h1 := hcount
      { domain := Domain.diabetes, label := "uacr ",
        value := (Dashboard.mkTop p ((p.get "vitals").lor (JsVal.obj [])) m).uacr,
        trigger := fun n => n.ge (JsNum.fin 30) } (by simp [clinicalTable])
    have h2 := hcount
      { domain := Domain.cardio, label := "uacr ",
        value := (Dashboard.mkTop p ((p.get "vitals").lor (JsVal.obj [])) m).uacr,
        trigger := fun n => n.gt (JsNum.fin 30) } (by simp [clinicalTable])
    simp only [ClinicalRule.reason, ClinicalRule.fires, Dashboard.mkTop, hu, JsVal.orElse,
      JsVal.isNullish, JsVal.toNumber, jsNum_ge_fin, jsNum_gt_fin, Bool.not_false, Bool.true_and,
      Bool.false_eq_true, if_false, h30] at h1 h2
    have e : "uacr " ++ "30" = "uacr 30" := by decide
    rw [e] at h1 h2
    constructor
    · rw [← List.count_pos_iff, h1]
      norm_num
    · rw [← List.count_eq_zero, h2]
      norm_num

/-- Claim C1, instance: on `{ vitals: { bpSystolic: 162 }, uacr: 30 }` the
verdict has the systolic reason and the diabetes UACR reason, and no cardio
UACR reason. -/
theorem clinical_rule_table_witness :
    recSystolicUacr.isNullish = false ∧ Dashboard.labsMap recSystolicUacr = some [] ∧
    ∃ verdict, Dashboard.checkHighRisk recSystolicUacr = some verdict ∧
      Dashboard.noteReason ReasonType.clinical Domain.cardio "systolic 162" ∈ verdict.reasons ∧
      Dashboard.noteReason ReasonType.clinical Domain.diabetes "uacr 30" ∈ verdict.reasons ∧
      Dashboard.noteReason ReasonType.clinical Domain.cardio "uacr 30" ∉ verdict.reasons := by
  obtain ⟨verdict, hv, _, _, hsys, huacr⟩ := clinical_rule_table recSystolicUacr [] rfl rfl
  have e : "systolic " ++ (JsVal.num (JsNum.fin 162)).toStr = "systolic 162" := by decide!
  have h162 := (hsys 162 rfl).mpr (by norm_num)
  rw [e] at h162
  exact ⟨rfl, rfl, verdict, hv, h162, (huacr rfl).1, (huacr rfl).2⟩

/-- Claim C5, counterexample: the record `{ vitals: { bpSystolic: 162 } }`
stores no probability and its verdict carries `cardioProb = 0` and
`diabetesProb = 0`, which are numbers and not `null`. -/
theorem missing_probability_not_null :
    Dashboard.checkHighRisk recSystolic162 =
      some (flaggedFor [Dashboard.noteReason ReasonType.clinical Domain.cardio "systolic 162"]) ∧
    (flaggedFor
      [Dashboard.noteReason ReasonType.clinical Domain.cardio "systolic 162"]).cardioProb =
        JsNum.fin 0 ∧
    (flaggedFor
      [Dashboard.noteReason ReasonType.clinical Domain.cardio "systolic 162"]).diabetesProb =
        JsNum.fin 0 ∧
    JsVal.num (JsNum.fin 0) ≠ JsVal.null := by
  refine ⟨by decide!, rfl, rfl, ?_⟩
  intro h
  exact JsVal.noConfusion h

/-- Claim C5, amended: for every record that stores no cardio probability
(neither `risk.cardio.probabilities.High` nor `risk.cardio.High`), the verdict
has `cardioProb = 0`; and likewise `diabetesProb = 0` when neither
`risk.diabetes.probabilities.Yes` nor `risk.diabetes.Yes` is stored. -/
theorem missing_probability_is_zero (p : JsVal) (m : List (String × JsVal))
    (hp : p.isNullish = false) (hm : Dashboard.labsMap p = some m) :
    ∃ verdict, Dashboard.checkHighRisk p = some verdict ∧
      (((((p.get "risk").get "cardio").get "probabilities").get "High").isNullish = true →
        (((p.get "risk").get "cardio").get "High").isNullish = true →
        verdict.cardioProb = JsNum.fin 0) ∧
      (((((p.get "risk").get "diabetes").get "probabilities").get "Yes").isNullish = true →
        (((p.get "risk").get "diabetes").get "Yes").isNullish = true →
        verdict.diabetesProb = JsNum.fin 0) := by
  obtain ⟨verdict, hv⟩ := checkHighRisk_isSome p m hp hm
  refine ⟨verdict, hv, ?_, ?_⟩
  all_goals
    intro h1 h2
    simp only [Dashboard.checkHighRisk, hp, hm, Bool.false_eq_true, if_false,
      Option.some.injEq] at hv
    subst hv
    simp only [Dashboard.cardioRaw, Dashboard.diabetesRaw, orElse_of_nullish _ _ h1,
      orElse_of_nullish _ _ h2, dashboard_normProb_null]

/-- Claim C5, instance: `{ vitals: { bpSystolic: 162 } }` stores no probability
and both probabilities of its verdict are 0. -/
theorem missing_probability_is_zero_witness :
    recSystolic162.isNullish = false ∧ Dashboard.labsMap recSystolic162 = some [] ∧
    ∃ verdict, Dashboard.checkHighRisk recSystolic162 = some verdict ∧
      verdict.cardioProb = JsNum.fin 0 ∧ verdict.diabetesProb = JsNum.fin 0 := by
  obtain ⟨verdict, hv, hc, hd⟩ := missing_probability_is_zero recSystolic162 [] rfl rfl
  exact ⟨rfl, rfl, verdict, hv, hc rfl rfl, hd rfl rfl⟩

/-- The verdict carries the normalised values of the two arguments built by
`checkHighRisk`, and its model reasons for a domain are the single reason
scored with that value when it is strictly greater than 0.35. -/
theorem model_reasons_of_raw (p : JsVal) (m : List (String × JsVal))
    (hp : p.isNullish = false) (hm : Dashboard.labsMap p = some m) :
    ∃ verdict, Dashboard.checkHighRisk p = some verdict ∧
      verdict.cardioProb = Dashboard.normProb (Dashboard.cardioRaw p) ∧
      verdict.diabetesProb = Dashboard.normProb (Dashboard.diabetesRaw p) ∧
      reasonsOf ReasonType.model Domain.cardio verdict =
        (if (Dashboard.normProb (Dashboard.cardioRaw p)).gt (JsNum.fin 0.35) = true then
          [{ type := ReasonType.model, domain := Domain.cardio,
             score := some (Dashboard.normProb (Dashboard.cardioRaw p)), note := none }]
        else []) ∧
      reasonsOf ReasonType.model Domain.diabetes verdict =
        (if (Dashboard.normProb (Dashboard.diabetesRaw p)).gt (JsNum.fin 0.35) = true then
          [{ type := ReasonType.model, domain := Domain.diabetes,
             score := some (Dashboard.normProb (Dashboard.diabetesRaw p)), note := none }]
        else []) ∧
      (∀ q : ℚ, verdict.cardioProb = JsNum.fin q →
        (reasonsOf ReasonType.model Domain.cardio verdict ≠ [] ↔ 0.35 < q)) ∧
      (∀ q : ℚ, verdict.diabetesProb = JsNum.fin q →
        (reasonsOf ReasonType.model Domain.diabetes verdict ≠ [] ↔ 0.35 < q)) := by
  obtain ⟨verdict, hv⟩ := checkHighRisk_isSome p m hp hm
  simp only [Dashboard.checkHighRisk, hp, hm, Bool.false_eq_true, if_false,
    Option.some.injEq] at hv
  have hc : reasonsOf ReasonType.model Domain.cardio verdict =
      (if (Dashboard.normProb (Dashboard.cardioRaw p)).gt (JsNum.fin 0.35) = true then
        [{ type := ReasonType.model, domain := Domain.cardio,
           score := some (Dashboard.normProb (Dashboard.cardioRaw p)), note := none }]
      else []) := by
    subst hv
    simp only [reasonsOf, filter_pushIf, List.filter_nil, List.append_nil, List.nil_append,
      Dashboard.noteReason, Dashboard.modelReason, reduceCtorEq, decide_False, decide_True,
      and_true, and_false, false_and, true_and, if_false, Bool.false_eq_true,
      Dashboard.RULES.probabilityThreshold, and_self]
  have hd : reasonsOf ReasonType.model Domain.diabetes verdict =
      (if (Dashboard.normProb (Dashboard.diabetesRaw p)).gt (JsNum.fin 0.35) = true then
        [{ type := ReasonType.model, domain := Domain.diabetes,
           score := some (Dashboard.normProb (Dashboard.diabetesRaw p)), note := none }]
      else []) := by
    subst hv
    simp only [reasonsOf, filter_pushIf, List.filter_nil, List.append_nil, List.nil_append,
      Dashboard.noteReason, Dashboard.modelReason, reduceCtorEq, decide_False, decide_True,
      and_true, and_false, false_and, true_and, if_false, Bool.false_eq_true,
      Dashboard.RULES.probabilityThreshold, and_self]
  have hcp : verdict.cardioProb = Dashboard.normProb (Dashboard.cardioRaw p) := by
    subst hv
    rfl
  have hdp : verdict.diabetesProb = Dashboard.normProb (Dashboard.diabetesRaw p) := by
    subst hv
    rfl
  refine ⟨verdict, by simp [Dashboard.checkHighRisk, hp, hm, hv], hcp, hdp, hc, hd, ?_, ?_⟩
  · intro q hq
    rw [hc, ← hcp, hq, jsNum_gt_fin]
    by_cases h : (0.35 : ℚ) < q <;> simp [h]
  · intro q hq
    rw [hd, ← hdp, hq, jsNum_gt_fin]
    by_cases h : (0.35 : ℚ) < q <;> simp [h]

theorem dashboard_normProb_orElse_null (a : JsVal) :
    Dashboard.normProb (a.orElse JsVal.null) = Dashboard.normProb a := by
  cases a <;> rfl

/-- Claim C6: the `cardioProb` of the verdict is the normalised value of
`risk.cardio.probabilities.High`, falling back to `risk.cardio.High`, and the
cardio model reasons of the verdict are the single reason scored with it when
it is strictly greater than 0.35, and none otherwise; likewise `diabetesProb`
and the diabetes model reasons with `risk.diabetes.probabilities.Yes`, falling
back to `risk.diabetes.Yes`. -/
theorem model_reason_iff_above_threshold (p : JsVal) (m : List (String × JsVal))
    (hp : p.isNullish = false) (hm : Dashboard.labsMap p = some m) :
    ∃ verdict, Dashboard.checkHighRisk p = some verdict ∧
      verdict.cardioProb =
        Dashboard.normProb
          ((((p.get "risk").get "cardio").get "probabilities").get "High" |>.orElse
            (((p.get "risk").get "cardio").get "High")) ∧
      verdict.diabetesProb =
        Dashboard.normProb
          ((((p.get "risk").get "diabetes").get "probabilities").get "Yes" |>.orElse
            (((p.get "risk").get "diabetes").get "Yes")) ∧
      reasonsOf ReasonType.model Domain.cardio verdict =
        (if verdict.cardioProb.gt (JsNum.fin 0.35) = true then
          [{ type := ReasonType.model, domain := Domain.cardio,
             score := some verdict.cardioProb, note := none }]
        else []) ∧
      reasonsOf ReasonType.model Domain.diabetes verdict =
        (if verdict.diabetesProb.gt (JsNum.fin 0.35) = true then
          [{ type := ReasonType.model, domain := Domain.diabetes,
             score := some verdict.diabetesProb, note := none }]
        else []) ∧
      (∀ q : ℚ, verdict.cardioProb = JsNum.fin q →
        (reasonsOf ReasonType.model Domain.cardio verdict ≠ [] ↔ 0.35 < q)) ∧
      (∀ q : ℚ, verdict.diabetesProb = JsNum.fin q →
        (reasonsOf ReasonType.model Domain.diabetes verdict ≠ [] ↔ 0.35 < q)) := by
  obtain ⟨verdict, hv, hcp, hdp, hc, hd, hcq, hdq⟩ := model_reasons_of_raw p m hp hm
  refine ⟨verdict, hv, ?_, ?_, ?_, ?_, hcq, hdq⟩
  · rw [hcp, Dashboard.cardioRaw, dashboard_normProb_orElse_null]
  · rw [hdp, Dashboard.diabetesRaw, dashboard_normProb_orElse_null]
  · rw [hc, ← hcp]
  · rw [hd, ← hdp]

/-- Claim C6, instance: a stored `risk.cardio.probabilities.High` of 45 and a
stored `risk.diabetes.Yes` of 0.5 give `cardioProb = 0.45`, `diabetesProb = 0.5`
and one model reason for each domain; a stored `risk.cardio.High` of 0.2 and
`risk.diabetes.probabilities.Yes` of 36 give one diabetes model reason of score
0.36 and no cardio model reason; `probabilities.High` is read before `High`. -/
theorem model_reason_iff_above_threshold_witness :
    (recRisk (recProbs "High" (JsVal.num (JsNum.fin 45)))
      (JsVal.obj [("Yes", JsVal.num (JsNum.fin 0.5))])).isNullish = false ∧
    Dashboard.labsMap (recRisk (recProbs "High" (JsVal.num (JsNum.fin 45)))
      (JsVal.obj [("Yes", JsVal.num (JsNum.fin 0.5))])) = some [] ∧
    (∃ verdict, Dashboard.checkHighRisk (recRisk (recProbs "High" (JsVal.num (JsNum.fin 45)))
        (JsVal.obj [("Yes", JsVal.num (JsNum.fin 0.5))])) = some verdict ∧
      verdict.cardioProb = JsNum.fin (45 / 100) ∧
      verdict.diabetesProb = JsNum.fin (1 / 2) ∧
      reasonsOf ReasonType.model Domain.cardio verdict =
        [{ type := ReasonType.model, domain := Domain.cardio,
           score := some (JsNum.fin (45 / 100)), note := none }] ∧
      reasonsOf ReasonType.model Domain.diabetes verdict =
        [{ type := ReasonType.model, domain := Domain.diabetes,
           score := some (JsNum.fin (1 / 2)), note := none }]) ∧
    Dashboard.checkHighRisk (recRisk (JsVal.obj [("High", JsVal.num (JsNum.fin 0.2))])
        (recProbs "Yes" (JsVal.num (JsNum.fin 36)))) =
      some { isHigh := true,
             reasons := [{ type := ReasonType.model, domain := Domain.diabetes,
                           score := some (JsNum.fin (36 / 100)), note := none }],
             cardioProb := JsNum.fin (2 / 10), diabetesProb := JsNum.fin (36 / 100) } ∧
    Dashboard.checkHighRisk (recRisk
        (JsVal.obj [("probabilities", JsVal.obj [("High", JsVal.num (JsNum.fin 0.1))]),
          ("High", JsVal.num (JsNum.fin 0.9))])
        (JsVal.obj [("probabilities", JsVal.obj [("Yes", JsVal.num (JsNum.fin 0.1))]),
          ("Yes", JsVal.num (JsNum.fin 0.9))])) =
      some { isHigh := false, reasons := [], cardioProb := JsNum.fin (1 / 10),
             diabetesProb := JsNum.fin (1 / 10) } ∧
    Dashboard.checkHighRisk (recCardioHigh (JsVal.num (JsNum.fin 45))) =
      some { isHigh := true,
             reasons := [{ type := ReasonType.model, domain := Domain.cardio,
                           score := some (JsNum.fin (45 / 100)), note := none }],
             cardioProb := JsNum.fin (45 / 100), diabetesProb := JsNum.fin 0 } := by
  obtain ⟨verdict, hv, hcp, hdp, hc, hd, _, _⟩ :=
    model_reason_iff_above_threshold (recRisk (recProbs "High" (JsVal.num (JsNum.fin 45)))
      (JsVal.obj [("Yes", JsVal.num (JsNum.fin 0.5))])) [] rfl rfl
  have e1 : Dashboard.normProb
      ((((((recRisk (recProbs "High" (JsVal.num (JsNum.fin 45)))
        (JsVal.obj [("Yes", JsVal.num (JsNum.fin 0.5))])).get "risk").get "cardio").get
          "probabilities").get "High").orElse
        ((((recRisk (recProbs "High" (JsVal.num (JsNum.fin 45)))
        (JsVal.obj [("Yes", JsVal.num (JsNum.fin 0.5))])).get "risk").get "cardio").get "High")) =
      JsNum.fin (45 / 100) := by decide!
  have e2 : Dashboard.normProb
      ((((((recRisk (recProbs "High" (JsVal.num (JsNum.fin 45)))
        (JsVal.obj [("Yes", JsVal.num (JsNum.fin 0.5))])).get "risk").get "diabetes").get
          "probabilities").get "Yes").orElse
        ((((recRisk (recProbs "High" (JsVal.num (JsNum.fin 45)))
        (JsVal.obj [("Yes", JsVal.num (JsNum.fin 0.5))])).get "risk").get "diabetes").get "Yes")) =
      JsNum.fin (1 / 2) := by decide!
  have g1 : (JsNum.fin (45 / 100)).gt (JsNum.fin 0.35) = true := by decide!
  have g2 : (JsNum.fin (1 / 2)).gt (JsNum.fin 0.35) = true := by decide!
  rw [e1] at hcp
  rw [e2] at hdp
  rw [hcp] at hc
  rw [hdp] at hd
  simp only [g1, g2, if_true] at hc hd
  exact ⟨rfl, rfl, ⟨verdict, hv, hcp, hdp, hc, hd⟩, by decide!, by decide!, by decide!⟩

/-- Claim C7, evaluation at the failing inputs: the four history checks accept
different encodings.  `htn: "true"` and `fam_cad: "true"` give no reason while
`smoker: "true"` and `dm: "true"` do; `"yes"` is accepted for `fam_cad` only;
`"TRUE"` and the number 1 are accepted for no flag. -/
theorem history_flag_encodings_differ :
    Dashboard.checkHighRisk (recField "htn" (JsVal.str "true")) = some noReasons ∧
    Dashboard.checkHighRisk (recField "fam_cad" (JsVal.str "true")) = some noReasons ∧
    Dashboard.checkHighRisk (recField "smoker" (JsVal.str "true")) =
      some (flaggedFor [Dashboard.noteReason ReasonType.history Domain.cardio "smoker"]) ∧
    Dashboard.checkHighRisk (recField "dm" (JsVal.str "true")) =
      some (flaggedFor [Dashboard.noteReason ReasonType.history Domain.diabetes "diabetes"]) ∧
    Dashboard.checkHighRisk (recField "smoker" (JsVal.str "yes")) = some noReasons ∧
    Dashboard.checkHighRisk (recField "dm" (JsVal.str "yes")) = some noReasons ∧
    Dashboard.checkHighRisk (recField "htn" (JsVal.str "yes")) = some noReasons ∧
    Dashboard.checkHighRisk (recField "fam_cad" (JsVal.str "yes")) =
      some (flaggedFor [Dashboard.noteReason ReasonType.history Domain.cardio "family CAD"]) ∧
    Dashboard.checkHighRisk (recField "smoker" (JsVal.str "TRUE")) = some noReasons ∧
    Dashboard.checkHighRisk (recField "smoker" (JsVal.num (JsNum.fin 1))) = some noReasons ∧
    Dashboard.checkHighRisk (recField "htn" (JsVal.str "1")) =
      some (flaggedFor [Dashboard.noteReason ReasonType.history Domain.cardio "hypertension"]) ∧
    Dashboard.checkHighRisk (recField "htn" (JsVal.bool true)) =
      some (flaggedFor [Dashboard.noteReason ReasonType.history Domain.cardio "hypertension"]) := by
  refine ⟨by decide!, by decide!, by decide!, by decide!, by decide!, by decide!, by decide!,
    by decide!, by decide!, by decide!, by decide!, by decide!⟩

/-- Claim C8, counterexample: with a top-level `hba1c` of 5 and a labs entry
`HbA1c` of 9 the verdict has no reason, although the labs entry alone gives the
HbA1c reason: the threshold is evaluated on the top-level value. -/
theorem labs_entry_does_not_win :
    Dashboard.checkHighRisk
      (recTopAndLab "hba1c" (JsVal.num (JsNum.fin 5)) "HbA1c" (JsVal.num (JsNum.fin 9))) =
        some noReasons ∧
    Dashboard.checkHighRisk (recLab "HbA1c" (JsVal.num (JsNum.fin 9))) =
      some (flaggedFor [Dashboard.noteReason ReasonType.clinical Domain.diabetes "hba1c 9"]) ∧
    Dashboard.checkHighRisk
      (recTopAndLab "hba1c" (JsVal.num (JsNum.fin 9)) "HbA1c" (JsVal.num (JsNum.fin 5))) =
        some (flaggedFor [Dashboard.noteReason ReasonType.clinical Domain.diabetes "hba1c 9"]) := by
  refine ⟨by decide!, by decide!, by decide!⟩

/-- Claim C8, amended: for each of `hba1c`, `tc`, `ldl`, `hdl`, `creat` and
`glucose`, when the top-level field is present (not `null` or `undefined`) the
threshold is evaluated on the top-level value, whatever the labs list holds;
the value of the labs map is used only when the top-level field is absent. -/
theorem top_level_lab_field_wins (p : JsVal) (m : List (String × JsVal))
    (hp : p.isNullish = false) (hm : Dashboard.labsMap p = some m) :
    ∃ verdict, Dashboard.checkHighRisk p = some verdict ∧
      ((p.get "hba1c").isNullish = false →
        verdict.reasons.count (Dashboard.noteReason ReasonType.clinical Domain.diabetes
          ("hba1c " ++ (p.get "hba1c").toStr)) =
          if (p.get "hba1c").toNumber.ge (JsNum.fin 6.5) = true then 1 else 0) ∧
      ((p.get "tc").isNullish = false →
        verdict.reasons.count (Dashboard.noteReason ReasonType.clinical Domain.cardio
          ("tc " ++ (p.get "tc").toStr)) =
          if (p.get "tc").toNumber.gt (JsNum.fin 6.2) = true then 1 else 0) ∧
      ((p.get "ldl").isNullish = false →
        verdict.reasons.count (Dashboard.noteReason ReasonType.clinical Domain.cardio
          ("ldl " ++ (p.get "ldl").toStr)) =
          if (p.get "ldl").toNumber.gt (JsNum.fin 3.4) = true then 1 else 0) ∧
      ((p.get "hdl").isNullish = false →
        verdict.reasons.count (Dashboard.noteReason ReasonType.clinical Domain.cardio
          ("hdl " ++ (p.get "hdl").toStr)) =
          if (p.get "hdl").toNumber.lt (JsNum.fin 1.0) = true then 1 else 0) ∧
      ((p.get "creat").isNullish = false →
        verdict.reasons.count (Dashboard.noteReason ReasonType.clinical Domain.cardio
          ("creat " ++ (p.get "creat").toStr)) =
          if (p.get "creat").toNumber.gt (JsNum.fin 1.5) = true then 1 else 0) ∧
      ((p.get "glucose").isNullish = false →
        verdict.reasons.count (Dashboard.noteReason ReasonType.clinical Domain.diabetes
          ("glucose " ++ (p.get "glucose").toStr)) =
          if (p.get "glucose").toNumber.ge (JsNum.fin 7.0) = true then 1 else 0) ∧
      (∀ v : JsVal,
        ((p.get "hba1c").isNullish = true → (Dashboard.mkTop p v m).hba1c =
          ((JsVal.lookup "hba1c" m).orElse (JsVal.lookup "hba-1c" m)).orElse JsVal.null) ∧
        ((p.get "tc").isNullish = true → (Dashboard.mkTop p v m).tc =
          ((JsVal.lookup "total cholesterol" m).orElse (JsVal.lookup "tc" m)).orElse
            JsVal.null) ∧
        ((p.get "ldl").isNullish = true →
          (Dashboard.mkTop p v m).ldl = (JsVal.lookup "ldl" m).orElse JsVal.null) ∧
        ((p.get "hdl").isNullish = true →
          (Dashboard.mkTop p v m).hdl = (JsVal.lookup "hdl" m).orElse JsVal.null) ∧
        ((p.get "creat").isNullish = true →
          (Dashboard.mkTop p v m).creat = (JsVal.lookup "creatinine" m).orElse JsVal.null) ∧
        ((p.get "glucose").isNullish = true →
          (Dashboard.mkTop p v m).glucose = (JsVal.lookup "glucose" m).orElse JsVal.null)) := by
  obtain ⟨verdict, hv⟩ := checkHighRisk_isSome p m hp hm
  have hcount := clinical_counts p m verdict hp hm hv
  refine ⟨verdict, hv, ?_, ?_, ?_, ?_, ?_, ?_, ?_⟩
  · intro h
    have h1 := hcount
      { domain := Domain.diabetes, label := "hba1c ",
        value := (Dashboard.mkTop p ((p.get "vitals").lor (JsVal.obj [])) m).hba1c,
        trigger := fun n => n.ge (JsNum.fin 6.5) } (by simp [clinicalTable])
    simpa only [ClinicalRule.reason, ClinicalRule.fires, Dashboard.mkTop,
      orElse_of_present _ _ h, h, Bool.not_false, Bool.true_and] using h1
  · intro h
    have h1 := hcount
      { domain := Domain.cardio, label := "tc ",
        value := (Dashboard.mkTop p ((p.get "vitals").lor (JsVal.obj [])) m).tc,
        trigger := fun n => n.gt (JsNum.fin 6.2) } (by simp [clinicalTable])
    simpa only [ClinicalRule.reason, ClinicalRule.fires, Dashboard.mkTop,
      orElse_of_present _ _ h, h, Bool.not_false, Bool.true_and] using h1
  · intro h
    have h1 := hcount
      { domain := Domain.cardio, label := "ldl ",
        value := (Dashboard.mkTop p ((p.get "vitals").lor (JsVal.obj [])) m).ldl,
        trigger := fun n => n.gt (JsNum.fin 3.4) } (by simp [clinicalTable])
    simpa only [ClinicalRule.reason, ClinicalRule.fires, Dashboard.mkTop,
      orElse_of_present _ _ h, h, Bool.not_false, Bool.true_and] using h1
  · intro h
    have h1 := hcount
      { domain := Domain.cardio, label := "hdl ",
        value := (Dashboard.mkTop p ((p.get "vitals").lor (JsVal.obj [])) m).hdl,
        trigger := fun n => n.lt (JsNum.fin 1.0) } (by simp [clinicalTable])
    simpa only [ClinicalRule.reason, ClinicalRule.fires, Dashboard.mkTop,
      orElse_of_present _ _ h, h, Bool.not_false, Bool.true_and] using h1
  · intro h
    have h1 := hcount
      { domain := Domain.cardio, label := "creat ",
        value := (Dashboard.mkTop p ((p.get "vitals").lor (JsVal.obj [])) m).creat,
        trigger := fun n => n.gt (JsNum.fin 1.5) } (by simp [clinicalTable])
    simpa only [ClinicalRule.reason, ClinicalRule.fires, Dashboard.mkTop,
      orElse_of_present _ _ h, h, Bool.not_false, Bool.true_and] using h1
  · intro h
    have h1 := hcount
      { domain := Domain.diabetes, label := "glucose ",
        value := (Dashboard.mkTop p ((p.get "vitals").lor (JsVal.obj [])) m).glucose,
        trigger := fun n => n.ge (JsNum.fin 7.0) } (by simp [clinicalTable])
    simpa only [ClinicalRule.reason, ClinicalRule.fires, Dashboard.mkTop,
      orElse_of_present _ _ h, h, Bool.not_false, Bool.true_and] using h1
  · intro v
    refine ⟨?_, ?_, ?_, ?_, ?_, ?_⟩ <;> intro h <;>
      simp only [Dashboard.mkTop, orElse_of_nullish _ _ h]

/-- Claim C8, instance: with a top-level `hba1c` of 9 and a labs entry `HbA1c`
of 5 the verdict has the reason `hba1c 9`. -/
theorem top_level_lab_field_wins_witness :
    (recTopAndLab "hba1c" (JsVal.num (JsNum.fin 9)) "HbA1c"
      (JsVal.num (JsNum.fin 5))).isNullish = false ∧
    Dashboard.labsMap
      (recTopAndLab "hba1c" (JsVal.num (JsNum.fin 9)) "HbA1c" (JsVal.num (JsNum.fin 5))) =
        some [("hba1c", JsVal.num (JsNum.fin 5))] ∧
    ∃ verdict, Dashboard.checkHighRisk
        (recTopAndLab "hba1c" (JsVal.num (JsNum.fin 9)) "HbA1c" (JsVal.num (JsNum.fin 5))) =
          some verdict ∧
      verdict.reasons.count
        (Dashboard.noteReason ReasonType.clinical Domain.diabetes "hba1c 9") = 1 := by
  obtain ⟨verdict, hv, h, _⟩ := top_level_lab_field_wins
    (recTopAndLab "hba1c" (JsVal.num (JsNum.fin 9)) "HbA1c" (JsVal.num (JsNum.fin 5)))
    [("hba1c", JsVal.num (JsNum.fin 5))] rfl rfl
  have e : "hba1c " ++ ((recTopAndLab "hba1c" (JsVal.num (JsNum.fin 9)) "HbA1c"
      (JsVal.num (JsNum.fin 5))).get "hba1c").toStr = "hba1c 9" := by decide!
  have g : ((recTopAndLab "hba1c" (JsVal.num (JsNum.fin 9)) "HbA1c"
      (JsVal.num (JsNum.fin 5))).get "hba1c").toNumber.ge (JsNum.fin 6.5) = true := by decide!
  have h1 := h rfl
  rw [e, g] at h1
  exact ⟨rfl, rfl, verdict, hv, by simpa using h1⟩

/-- Claim C9, evaluation at the failing inputs: an eGFR of 45 or a UACR of 50
supplied only as a labs entry gives no reason, while the same values as
top-level fields give the eGFR and UACR reasons and a labs entry `HbA1c` of 9
gives the HbA1c reason. -/
theorem egfr_uacr_lab_entries_ignored :
    Dashboard.checkHighRisk (recLab "eGFR" (JsVal.num (JsNum.fin 45))) = some noReasons ∧
    Dashboard.checkHighRisk (recLab "UACR" (JsVal.num (JsNum.fin 50))) = some noReasons ∧
    Dashboard.checkHighRisk (recField "egfr" (JsVal.num (JsNum.fin 45))) =
      some (flaggedFor [Dashboard.noteReason ReasonType.clinical Domain.cardio "egfr 45",
        Dashboard.noteReason ReasonType.clinical Domain.diabetes "egfr 45"]) ∧
    Dashboard.checkHighRisk (recField "uacr" (JsVal.num (JsNum.fin 50))) =
      some (flaggedFor [Dashboard.noteReason ReasonType.clinical Domain.cardio "uacr 50",
        Dashboard.noteReason ReasonType.clinical Domain.diabetes "uacr 50"]) ∧
    Dashboard.checkHighRisk (recLab "HbA1c" (JsVal.num (JsNum.fin 9))) =
      some (flaggedFor [Dashboard.noteReason ReasonType.clinical Domain.diabetes "hba1c 9"]) := by
  refine ⟨by decide!, by decide!, by decide!, by decide!, by decide!⟩

/-- Claim C10, evaluation at the failing input: a labs entry `HDL` whose value
is the empty string converts to the number 0 and gives the reason `hdl `, and
an empty top-level `egfr` gives both eGFR reasons; a non-numeric string and
`null` give no reason. -/
theorem empty_string_counts_as_zero :
    Dashboard.checkHighRisk (recLab "HDL" (JsVal.str "")) =
      some (flaggedFor [Dashboard.noteReason ReasonType.clinical Domain.cardio "hdl "]) ∧
    Dashboard.checkHighRisk (recField "egfr" (JsVal.str "")) =
      some (flaggedFor [Dashboard.noteReason ReasonType.clinical Domain.cardio "egfr ",
        Dashboard.noteReason ReasonType.clinical Domain.diabetes "egfr "]) ∧
    Dashboard.checkHighRisk (recLab "HDL" (JsVal.str "abc")) = some noReasons ∧
    Dashboard.checkHighRisk (recLab "HDL" JsVal.null) = some noReasons ∧
    (JsVal.str "").toNumber = JsNum.fin 0 := by
  refine ⟨by decide!, by decide!, by decide!, by decide!, by decide!⟩

/-! ## Lemmas on rounding to doubles -/

theorem bitsFuel_spec : ∀ (fuel n : Nat), 0 < n → n < 2 ^ fuel →
    2 ^ JsNum.bitsFuel fuel n ≤ n ∧ n < 2 ^ (JsNum.bitsFuel fuel n + 1) := by
  intro fuel
  induction fuel with
  | zero => intro n h0 h1; simp at h1; omega
  | succ fuel ih =>
    intro n h0 h1
    unfold JsNum.bitsFuel
    by_cases h2 : n < 2
    · simp only [h2, if_true]
      constructor <;> simp <;> omega
    · simp only [h2, if_false]
      have hpos : 0 < n / 2 := by omega
      have hlt : n / 2 < 2 ^ fuel := by
        rw [pow_succ] at h1
        omega
      obtain ⟨ha, hb⟩ := ih (n / 2) hpos hlt
      constructor
      · rw [pow_succ]; omega
      · rw [pow_succ]; omega

theorem log2_spec (n : Nat) (h : 0 < n) :
    2 ^ JsNum.log2 n ≤ n ∧ n < 2 ^ (JsNum.log2 n + 1) :=
  bitsFuel_spec n n h (Nat.lt_two_pow n)

theorem log2_spec_rat (n : Nat) (h : 0 < n) :
    (2 : ℚ) ^ (JsNum.log2 n : ℤ) ≤ (n : ℚ) ∧ (n : ℚ) < 2 ^ ((JsNum.log2 n : ℤ) + 1) := by
  obtain ⟨ha, hb⟩ := log2_spec n h
  constructor
  · rw [zpow_natCast]
    exact_mod_cast ha
  · have : ((JsNum.log2 n : ℤ) + 1) = ((JsNum.log2 n + 1 : ℕ) : ℤ) := by push_cast; ring
    rw [this, zpow_natCast]
    exact_mod_cast hb

theorem binade_spec (x : ℚ) (hx : 0 < x) :
    (2 : ℚ) ^ JsNum.binade x ≤ x ∧ x < 2 ^ (JsNum.binade x + 1) := by
  have hnum : 0 < x.num := Rat.num_pos.mpr hx
  have hp : 0 < x.num.natAbs := Int.natAbs_pos.mpr (ne_of_gt hnum)
  have hd : 0 < x.den := x.den_pos
  obtain ⟨hp1, hp2⟩ := log2_spec_rat _ hp
  obtain ⟨hd1, hd2⟩ := log2_spec_rat _ hd
  have hdq : (0 : ℚ) < (x.den : ℚ) := by exact_mod_cast hd
  have hcast : ((x.num.natAbs : ℕ) : ℚ) = (x.num : ℚ) := by
    rw [Nat.cast_natAbs, abs_of_pos hnum]
  have hxe : x * (x.den : ℚ) = (x.num.natAbs : ℚ) := by
    rw [hcast]
    exact Rat.mul_den_eq_num x
  have h2pos : ∀ k : ℤ, (0 : ℚ) < 2 ^ k := fun k => zpow_pos (by norm_num) k
  unfold JsNum.binade
  simp only []
  generalize JsNum.log2 x.num.natAbs = lp at hp1 hp2
  generalize JsNum.log2 x.den = ld at hd1 hd2
  generalize (x.num.natAbs : ℚ) = p at hp1 hp2 hxe
  generalize (x.den : ℚ) = d at hd1 hd2 hxe hdq
  by_cases hk : (2 : ℚ) ^ ((lp : ℤ) - (ld : ℤ)) ≤ x
  · simp only [hk, if_true, true_and]
    have e : ((lp : ℤ) - (ld : ℤ) + 1) = ((lp : ℤ) + 1) - (ld : ℤ) := by ring
    rw [e, zpow_sub₀ (by norm_num : (2 : ℚ) ≠ 0), lt_div_iff₀ (h2pos _)]
    calc x * 2 ^ (ld : ℤ) ≤ x * d := mul_le_mul_of_nonneg_left hd1 (le_of_lt hx)
      _ = p := hxe
      _ < 2 ^ ((lp : ℤ) + 1) := hp2
  · simp only [hk, if_false]
    refine ⟨?_, ?_⟩
    · have e : ((lp : ℤ) - (ld : ℤ) - 1) = (lp : ℤ) - ((ld : ℤ) + 1) := by ring
      rw [e, zpow_sub₀ (by norm_num : (2 : ℚ) ≠ 0), div_le_iff₀ (h2pos _)]
      calc (2 : ℚ) ^ (lp : ℤ) ≤ p := hp1
        _ = x * d := hxe.symm
        _ ≤ x * 2 ^ ((ld : ℤ) + 1) := mul_le_mul_of_nonneg_left (le_of_lt hd2) (le_of_lt hx)
    · have e : ((lp : ℤ) - (ld : ℤ) - 1 + 1) = (lp : ℤ) - (ld : ℤ) := by ring
      rw [e]
      exact lt_of_not_le hk

theorem binade_mono (x y : ℚ) (hx : 0 < x) (hxy : x ≤ y) : JsNum.binade x ≤ JsNum.binade y := by
  have hy : 0 < y := lt_of_lt_of_le hx hxy
  obtain ⟨hx1, _⟩ := binade_spec x hx
  obtain ⟨_, hy2⟩ := binade_spec y hy
  have h : (2 : ℚ) ^ JsNum.binade x < 2 ^ (JsNum.binade y + 1) :=
    lt_of_le_of_lt (le_trans hx1 hxy) hy2
  have := (zpow_lt_zpow_iff_right₀ (by norm_num : (1 : ℚ) < 2)).mp h
  omega

theorem roundHalfEven_floor_le (m : ℚ) : ⌊m⌋ ≤ JsNum.roundHalfEven m := by
  unfold JsNum.roundHalfEven
  split_ifs <;> omega

theorem roundHalfEven_le_floor_succ (m : ℚ) : JsNum.roundHalfEven m ≤ ⌊m⌋ + 1 := by
  unfold JsNum.roundHalfEven
  split_ifs <;> omega

theorem roundHalfEven_intCast (z : ℤ) : JsNum.roundHalfEven (z : ℚ) = z := by
  unfold JsNum.roundHalfEven
  simp

theorem roundHalfEven_mono (m n : ℚ) (h : m ≤ n) :
    JsNum.roundHalfEven m ≤ JsNum.roundHalfEven n := by
  have hf : ⌊m⌋ ≤ ⌊n⌋ := Int.floor_le_floor h
  rcases lt_or_eq_of_le hf with hlt | heq
  · calc JsNum.roundHalfEven m ≤ ⌊m⌋ + 1 := roundHalfEven_le_floor_succ m
      _ ≤ ⌊n⌋ := hlt
      _ ≤ JsNum.roundHalfEven n := roundHalfEven_floor_le n
  · have hr : m - ⌊m⌋ ≤ n - ⌊n⌋ := by rw [heq]; linarith
    unfold JsNum.roundHalfEven
    rw [heq] at hr ⊢
    generalize m - (⌊n⌋ : ℚ) = r at hr
    generalize n - (⌊n⌋ : ℚ) = s at hr
    split_ifs <;> first | omega | (exfalso; linarith)

theorem roundPos_bounds (x : ℚ) (hx : 0 < x) :
    (2 : ℚ) ^ JsNum.binade x ≤ JsNum.roundPos x ∧ JsNum.roundPos x ≤ 2 ^ (JsNum.binade x + 1) := by
  obtain ⟨h1, h2⟩ := binade_spec x hx
  have hu : (0 : ℚ) < 2 ^ (JsNum.binade x - 52) := zpow_pos (by norm_num) _
  have e1 : (2 : ℚ) ^ JsNum.binade x = 2 ^ (52 : ℕ) * 2 ^ (JsNum.binade x - 52) := by
    rw [← zpow_natCast, ← zpow_add₀ (by norm_num : (2 : ℚ) ≠ 0)]
    congr 1
    push_cast
    ring
  have e2 : (2 : ℚ) ^ (JsNum.binade x + 1) = 2 ^ (53 : ℕ) * 2 ^ (JsNum.binade x - 52) := by
    rw [← zpow_natCast, ← zpow_add₀ (by norm_num : (2 : ℚ) ≠ 0)]
    congr 1
    push_cast
    ring
  have c52 : (((2 : ℤ) ^ (52 : ℕ) : ℤ) : ℚ) = (2 : ℚ) ^ (52 : ℕ) := by norm_num
  have c53 : (((2 : ℤ) ^ (53 : ℕ) : ℤ) : ℚ) = (2 : ℚ) ^ (53 : ℕ) := by norm_num
  have hm1 : (((2 : ℤ) ^ (52 : ℕ) : ℤ) : ℚ) ≤ x / 2 ^ (JsNum.binade x - 52) := by
    rw [c52, le_div_iff₀ hu, ← e1]
    exact h1
  have hm2 : x / 2 ^ (JsNum.binade x - 52) < (((2 : ℤ) ^ (53 : ℕ) : ℤ) : ℚ) := by
    rw [c53, div_lt_iff₀ hu, ← e2]
    exact h2
  have hr1 : ((2 : ℤ) ^ (52 : ℕ) : ℤ) ≤ JsNum.roundHalfEven (x / 2 ^ (JsNum.binade x - 52)) :=
    le_trans (Int.le_floor.mpr hm1) (roundHalfEven_floor_le _)
  have hr2 : JsNum.roundHalfEven (x / 2 ^ (JsNum.binade x - 52)) ≤ ((2 : ℤ) ^ (53 : ℕ) : ℤ) := by
    have := Int.floor_lt.mpr hm2
    have h3 := roundHalfEven_le_floor_succ (x / 2 ^ (JsNum.binade x - 52))
    omega
  unfold JsNum.roundPos
  rw [e1, e2]
  constructor
  · apply mul_le_mul_of_nonneg_right _ (le_of_lt hu)
    rw [← c52]
    exact_mod_cast hr1
  · apply mul_le_mul_of_nonneg_right _ (le_of_lt hu)
    rw [← c53]
    exact_mod_cast hr2

theorem roundPos_pos (x : ℚ) (hx : 0 < x) : 0 < JsNum.roundPos x :=
  lt_of_lt_of_le (zpow_pos (by norm_num) _) (roundPos_bounds x hx).1

theorem roundPos_mono (x y : ℚ) (hx : 0 < x) (hxy : x ≤ y) :
    JsNum.roundPos x ≤ JsNum.roundPos y := by
  have hy : 0 < y := lt_of_lt_of_le hx hxy
  rcases lt_or_eq_of_le (binade_mono x y hx hxy) with hlt | heq
  · calc JsNum.roundPos x ≤ 2 ^ (JsNum.binade x + 1) := (roundPos_bounds x hx).2
      _ ≤ 2 ^ JsNum.binade y :=
        (zpow_le_zpow_iff_right₀ (by norm_num : (1 : ℚ) < 2)).mpr (by omega)
      _ ≤ JsNum.roundPos y := (roundPos_bounds y hy).1
  · unfold JsNum.roundPos
    rw [heq]
    have hu : (0 : ℚ) < 2 ^ (JsNum.binade y - 52) := zpow_pos (by norm_num) _
    apply mul_le_mul_of_nonneg_right _ (le_of_lt hu)
    have : x / 2 ^ (JsNum.binade y - 52) ≤ y / 2 ^ (JsNum.binade y - 52) :=
      div_le_div_of_nonneg_right hxy (le_of_lt hu)
    exact_mod_cast roundHalfEven_mono _ _ this

theorem toDouble_pos (x : ℚ) (hx : 0 < x) : 0 < JsNum.toDouble x := by
  unfold JsNum.toDouble
  simp only [ne_of_gt hx, if_false, hx, if_true]
  exact roundPos_pos x hx

theorem toDouble_neg_of_neg (x : ℚ) (hx : x < 0) : JsNum.toDouble x < 0 := by
  unfold JsNum.toDouble
  simp only [ne_of_lt hx, if_false, not_lt_of_gt hx]
  have := roundPos_pos (-x) (by linarith)
  linarith

theorem toDouble_zero : JsNum.toDouble 0 = 0 := by
  simp [JsNum.toDouble]

theorem toDouble_pos_iff (x : ℚ) : 0 < JsNum.toDouble x ↔ 0 < x := by
  constructor
  · intro h
    by_contra hx
    rcases lt_or_eq_of_le (not_lt.mp hx) with hlt | heq
    · have := toDouble_neg_of_neg x hlt
      linarith
    · rw [heq, toDouble_zero] at h
      exact lt_irrefl _ h
  · exact toDouble_pos x

theorem toDouble_mono (x y : ℚ) (hxy : x ≤ y) : JsNum.toDouble x ≤ JsNum.toDouble y := by
  rcases lt_trichotomy x 0 with hx | hx | hx
  · rcases lt_trichotomy y 0 with hy | hy | hy
    · unfold JsNum.toDouble
      simp only [ne_of_lt hx, ne_of_lt hy, if_false, not_lt_of_gt hx, not_lt_of_gt hy]
      have := roundPos_mono (-y) (-x) (by linarith) (by linarith)
      linarith
    · rw [hy, toDouble_zero]
      exact le_of_lt (toDouble_neg_of_neg x hx)
    · exact le_of_lt (lt_trans (toDouble_neg_of_neg x hx) (toDouble_pos y hy))
  · rw [hx, toDouble_zero]
    rcases lt_or_eq_of_le (hx ▸ hxy) with hy | hy
    · exact le_of_lt (toDouble_pos y hy)
    · rw [← hy, toDouble_zero]
  · have hy : 0 < y := lt_of_lt_of_le hx hxy
    unfold JsNum.toDouble
    simp only [ne_of_gt hx, ne_of_gt hy, if_false, hx, hy, if_true]
    exact roundPos_mono x y hx hxy

theorem toDouble_natCast (n : ℕ) (hn : n < 2 ^ 53) : JsNum.toDouble (n : ℚ) = n := by
  rcases Nat.eq_zero_or_pos n with h0 | hpos
  · subst h0
    simp [JsNum.toDouble]
  · have hx : (0 : ℚ) < n := by exact_mod_cast hpos
    unfold JsNum.toDouble
    simp only [ne_of_gt hx, if_false, hx, if_true]
    obtain ⟨h1, _⟩ := binade_spec (n : ℚ) hx
    have hlt : (2 : ℚ) ^ JsNum.binade (n : ℚ) < 2 ^ (53 : ℤ) := by
      refine lt_of_le_of_lt h1 ?_
      have : ((2 : ℚ) ^ (53 : ℤ)) = ((2 ^ 53 : ℕ) : ℚ) := by norm_num
      rw [this]
      exact_mod_cast hn
    have he : JsNum.binade (n : ℚ) < 53 :=
      (zpow_lt_zpow_iff_right₀ (by norm_num : (1 : ℚ) < 2)).mp hlt
    obtain ⟨k, hk⟩ : ∃ k : ℕ, (k : ℤ) = 52 - JsNum.binade (n : ℚ) :=
      ⟨(52 - JsNum.binade (n : ℚ)).toNat, Int.toNat_of_nonneg (by omega)⟩
    have hb : JsNum.binade (n : ℚ) - 52 = -(k : ℤ) := by omega
    unfold JsNum.roundPos
    rw [hb, zpow_neg, zpow_natCast, div_inv_eq_mul]
    have hcast : ((n : ℚ) * 2 ^ k) = (((n * 2 ^ k : ℕ) : ℤ) : ℚ) := by push_cast; ring
    rw [hcast, roundHalfEven_intCast]
    push_cast
    field_simp

/-! ## Lemmas on the comparator and on the sort -/

theorem jsNum_sub_gt_zero (a b : JsNum) : (a.sub b).gt (JsNum.fin 0) = b.lt a := by
  cases a with
  | nan => cases b <;> simp [JsNum.sub, JsNum.add, JsNum.neg, JsNum.gt, JsNum.lt]
  | inf s =>
    cases b with
    | nan => simp [JsNum.sub, JsNum.add, JsNum.neg, JsNum.gt, JsNum.lt]
    | inf t => cases s <;> cases t <;> simp [JsNum.sub, JsNum.add, JsNum.neg, JsNum.gt, JsNum.lt]
    | fin q => cases s <;> simp [JsNum.sub, JsNum.add, JsNum.neg, JsNum.gt, JsNum.lt]
  | fin p =>
    cases b with
    | nan => simp [JsNum.sub, JsNum.add, JsNum.neg, JsNum.gt, JsNum.lt]
    | inf t => cases t <;> simp [JsNum.sub, JsNum.add, JsNum.neg, JsNum.gt, JsNum.lt]
    | fin q =>
      simp only [JsNum.sub, JsNum.add, JsNum.neg, JsNum.gt, JsNum.lt]
      rw [Bool.eq_iff_iff]
      simp only [decide_eq_true_eq, toDouble_pos_iff]
      constructor <;> intro h <;> linarith

theorem jsNum_lt_ne (a b : JsNum) (h : a.lt b = true) : a ≠ b := by
  intro e
  subst e
  cases a with
  | nan => simp [JsNum.lt] at h
  | inf s => cases s <;> simp [JsNum.lt] at h
  | fin q => simp [JsNum.lt] at h

theorem jsNum_lt_asymm (a b : JsNum) (h : a.lt b = true) : b.lt a = false := by
  cases a with
  | nan => simp [JsNum.lt] at h
  | inf s =>
    cases b with
    | nan => cases s <;> simp [JsNum.lt] at h
    | inf t => cases s <;> cases t <;> simp [JsNum.lt] at h ⊢
    | fin q => cases s <;> simp [JsNum.lt] at h ⊢
  | fin p =>
    cases b with
    | nan => simp [JsNum.lt] at h
    | inf t => cases t <;> simp [JsNum.lt] at h ⊢
    | fin q =>
      simp only [JsNum.lt, decide_eq_true_eq, decide_eq_false_iff_not, not_lt] at h ⊢
      exact le_of_lt h

/-- On numbers other than `NaN`, "not less than" is transitive. -/
theorem jsNum_not_lt_trans (a b c : JsNum) (hb : b.isNaN = false)
    (h1 : a.lt b = false) (h2 : b.lt c = false) : a.lt c = false := by
  cases b with
  | nan => simp [JsNum.isNaN] at hb
  | inf t =>
    cases a with
    | nan => cases c <;> simp [JsNum.lt]
    | inf s =>
      cases c with
      | nan => cases s <;> simp [JsNum.lt]
      | inf u => cases s <;> cases t <;> cases u <;> simp [JsNum.lt] at h1 h2 ⊢
      | fin r => cases s <;> cases t <;> simp [JsNum.lt] at h1 h2 ⊢
    | fin p =>
      cases c with
      | nan => simp [JsNum.lt]
      | inf u => cases t <;> cases u <;> simp [JsNum.lt] at h1 h2 ⊢
      | fin r => cases t <;> simp [JsNum.lt] at h1 h2 ⊢
  | fin q =>
    cases a with
    | nan => cases c <;> simp [JsNum.lt]
    | inf s =>
      cases c with
      | nan => cases s <;> simp [JsNum.lt]
      | inf u => cases s <;> cases u <;> simp [JsNum.lt] at h1 h2 ⊢
      | fin r => cases s <;> simp [JsNum.lt] at h1 h2 ⊢
    | fin p =>
      cases c with
      | nan => simp [JsNum.lt]
      | inf u => cases u <;> simp [JsNum.lt] at h1 h2 ⊢
      | fin r =>
        simp only [JsNum.lt, decide_eq_false_iff_not, not_lt] at h1 h2 ⊢
        exact le_trans h2 h1

/-- On numbers other than `NaN`, `a >= b` is the negation of `a < b`. -/
theorem jsNum_ge_of_not_lt (a b : JsNum) (ha : a.isNaN = false) (hb : b.isNaN = false)
    (h : a.lt b = false) : a.ge b = true := by
  cases a with
  | nan => simp [JsNum.isNaN] at ha
  | inf s =>
    cases b with
    | nan => simp [JsNum.isNaN] at hb
    | inf t => simp [JsNum.ge, JsNum.le, h]
    | fin q => simp [JsNum.ge, JsNum.le, h]
  | fin p =>
    cases b with
    | nan => simp [JsNum.isNaN] at hb
    | inf t => simp [JsNum.ge, JsNum.le, h]
    | fin q => simp [JsNum.ge, JsNum.le, h]

theorem compareFn_pos (x y : Dashboard.Flagged) :
    (Dashboard.compareFn x y).gt (JsNum.fin 0) = (Dashboard.score x).lt (Dashboard.score y) := by
  unfold Dashboard.compareFn
  exact jsNum_sub_gt_zero _ _

theorem sortInsert_perm (cmp : Dashboard.Flagged → Dashboard.Flagged → JsNum)
    (x : Dashboard.Flagged) (ys : List Dashboard.Flagged) :
    (Dashboard.sortInsert cmp x ys).Perm (x :: ys) := by
  induction ys with
  | nil => simp [Dashboard.sortInsert]
  | cons y ys ih =>
    unfold Dashboard.sortInsert
    split
    · exact (List.Perm.cons y ih).trans (List.Perm.swap x y ys)
    · exact List.Perm.refl _

theorem jsSort_perm (cmp : Dashboard.Flagged → Dashboard.Flagged → JsNum)
    (l : List Dashboard.Flagged) : (Dashboard.jsSort cmp l).Perm l := by
  induction l with
  | nil => simp [Dashboard.jsSort]
  | cons x xs ih =>
    unfold Dashboard.jsSort
    exact (sortInsert_perm cmp x _).trans (List.Perm.cons x ih)

/-- The order that the sort establishes: no entry is followed by one of greater score. -/
theorem sortInsert_sorted (x : Dashboard.Flagged) (ys : List Dashboard.Flagged)
    (hys : ∀ y ∈ ys, (Dashboard.score y).isNaN = false)
    (h : ys.Pairwise (fun a b => (Dashboard.score a).lt (Dashboard.score b) = false)) :
    (Dashboard.sortInsert Dashboard.compareFn x ys).Pairwise
      (fun a b => (Dashboard.score a).lt (Dashboard.score b) = false) := by
  induction ys with
  | nil => simp [Dashboard.sortInsert]
  | cons y ys ih =>
    unfold Dashboard.sortInsert
    rw [compareFn_pos]
    rw [List.pairwise_cons] at h
    by_cases hxy : (Dashboard.score x).lt (Dashboard.score y) = true
    · simp only [hxy, if_true]
      rw [List.pairwise_cons]
      refine ⟨?_, ih (fun z hz => hys z (List.mem_cons_of_mem y hz)) h.2⟩
      intro z hz
      have hz' := (sortInsert_perm Dashboard.compareFn x ys).mem_iff.mp hz
      rcases List.mem_cons.mp hz' with hzx | hzys
      · rw [hzx]
        exact jsNum_lt_asymm _ _ hxy
      · exact h.1 z hzys
    · have hxy' : (Dashboard.score x).lt (Dashboard.score y) = false := by
        simpa using hxy
      simp only [hxy', Bool.false_eq_true, if_false]
      rw [List.pairwise_cons]
      refine ⟨?_, List.pairwise_cons.mpr h⟩
      intro z hz
      rcases List.mem_cons.mp hz with hzy | hzys
      · rw [hzy]
        exact hxy'
      · exact jsNum_not_lt_trans _ _ _ (hys y (List.mem_cons_self y ys)) hxy' (h.1 z hzys)

theorem jsSort_sorted (l : List Dashboard.Flagged)
    (hl : ∀ x ∈ l, (Dashboard.score x).isNaN = false) :
    (Dashboard.jsSort Dashboard.compareFn l).Pairwise
      (fun a b => (Dashboard.score a).lt (Dashboard.score b) = false) := by
  induction l with
  | nil => simp [Dashboard.jsSort]
  | cons x xs ih =>
    unfold Dashboard.jsSort
    have hxs : ∀ y ∈ xs, (Dashboard.score y).isNaN = false :=
      fun y hy => hl y (List.mem_cons_of_mem x hy)
    refine sortInsert_sorted x _ ?_ (ih hxs)
    intro y hy
    exact hxs y ((jsSort_perm Dashboard.compareFn xs).mem_iff.mp hy)

/-- Stability: the sort keeps the entries of each score in their order. -/
theorem sortInsert_filter (s : JsNum) (x : Dashboard.Flagged) (ys : List Dashboard.Flagged) :
    (Dashboard.sortInsert Dashboard.compareFn x ys).filter
        (fun a => decide (Dashboard.score a = s)) =
      (x :: ys).filter (fun a => decide (Dashboard.score a = s)) := by
  induction ys with
  | nil => simp [Dashboard.sortInsert]
  | cons y ys ih =>
    unfold Dashboard.sortInsert
    rw [compareFn_pos]
    by_cases hxy : (Dashboard.score x).lt (Dashboard.score y) = true
    · simp only [hxy, if_true]
      have hne := jsNum_lt_ne _ _ hxy
      by_cases hx : Dashboard.score x = s
      · have hy : ¬ Dashboard.score y = s := fun e => hne (hx.trans e.symm)
        rw [List.filter_cons, ih]
        simp [List.filter_cons, hx, hy]
      · rw [List.filter_cons, ih]
        simp [List.filter_cons, hx]
    · simp only [hxy, Bool.false_eq_true, if_false]

theorem jsSort_filter (s : JsNum) (l : List Dashboard.Flagged) :
    (Dashboard.jsSort Dashboard.compareFn l).filter (fun a => decide (Dashboard.score a = s)) =
      l.filter (fun a => decide (Dashboard.score a = s)) := by
  induction l with
  | nil => simp [Dashboard.jsSort]
  | cons x xs ih =>
    unfold Dashboard.jsSort
    rw [sortInsert_filter, List.filter_cons, List.filter_cons, ih]

theorem collectFlagged_eq (ps : List JsVal) (acc : List Dashboard.Flagged)
    (hok : ∀ p ∈ ps, Dashboard.checkHighRisk p ≠ none) :
    Dashboard.collectFlagged ps acc = some (acc ++ ps.filterMap flaggedEntry) := by
  induction ps generalizing acc with
  | nil => simp [Dashboard.collectFlagged]
  | cons p ps ih =>
    have hps : ∀ q ∈ ps, Dashboard.checkHighRisk q ≠ none :=
      fun q hq => hok q (List.mem_cons_of_mem p hq)
    cases hv : Dashboard.checkHighRisk p with
    | none => exact absurd hv (hok p (List.mem_cons_self p ps))
    | some verdict =>
      by_cases hh : verdict.isHigh = true
      · simp [Dashboard.collectFlagged, hv, hh, ih _ hps, flaggedEntry, List.filterMap_cons]
      · simp [Dashboard.collectFlagged, hv, hh, ih _ hps, flaggedEntry, List.filterMap_cons]

theorem getHighRiskPatients_eq (patients : List JsVal)
    (hok : ∀ p ∈ patients, Dashboard.checkHighRisk p ≠ none) :
    Dashboard.getHighRiskPatients patients =
      Dashboard.Response.json
        ((Dashboard.jsSort Dashboard.compareFn (patients.filterMap flaggedEntry)).take 10) := by
  simp [Dashboard.getHighRiskPatients, collectFlagged_eq patients [] hok]

theorem mem_flagged (patients : List JsVal) (x : Dashboard.Flagged)
    (hx : x ∈ patients.filterMap flaggedEntry) :
    ∃ p ∈ patients, ∃ verdict, Dashboard.checkHighRisk p = some verdict ∧
      verdict.isHigh = true ∧ x = Dashboard.mkFlagged p verdict := by
  rw [List.mem_filterMap] at hx
  obtain ⟨p, hp, hpx⟩ := hx
  refine ⟨p, hp, ?_⟩
  unfold flaggedEntry at hpx
  cases hv : Dashboard.checkHighRisk p with
  | none => simp [hv] at hpx
  | some verdict =>
    by_cases hh : verdict.isHigh = true
    · simp [hv, hh] at hpx
      exact ⟨verdict, rfl, hh, hpx.symm⟩
    · simp [hv, hh] at hpx

theorem isHigh_eq (p : JsVal) (verdict : Verdict)
    (h : Dashboard.checkHighRisk p = some verdict) :
    verdict.isHigh = decide (verdict.reasons.length > 0) := by
  unfold Dashboard.checkHighRisk at h
  by_cases hnull : p.isNullish = true
  · simp [hnull] at h
  · simp only [hnull, Bool.false_eq_true, if_false] at h
    split at h
    · simp at h
    · simp only [Option.some.injEq] at h
      subst h
      rfl

theorem score_fin (x : Dashboard.Flagged) (c d : ℚ)
    (hc : x.cardioProb = JsNum.fin c) (hd : x.diabetesProb = JsNum.fin d) :
    Dashboard.score x =
      JsNum.fin (JsNum.toDouble (JsNum.toDouble ((x.reasons.length : ℚ) + c) + d)) := by
  have orZero_fin : ∀ q : ℚ, (JsNum.fin q).orZero = JsNum.fin q := by
    intro q
    by_cases hq : q = 0 <;> simp [JsNum.orZero, hq]
  simp only [Dashboard.score, hc, hd, orZero_fin, JsNum.add]

/-- In a list without a later entry of greater score, an entry of greater
score stands before an entry of smaller score. -/
theorem sublist_of_score_lt (l : List Dashboard.Flagged) (a b : Dashboard.Flagged)
    (hl : l.Pairwise (fun x y => (Dashboard.score x).lt (Dashboard.score y) = false))
    (ha : a ∈ l) (hb : b ∈ l) (hlt : (Dashboard.score b).lt (Dashboard.score a) = true) :
    List.Sublist [a, b] l := by
  induction l with
  | nil => simp at ha
  | cons c t ih =>
    rw [List.pairwise_cons] at hl
    rcases List.mem_cons.mp hb with hbc | hbt
    · rcases List.mem_cons.mp ha with hac | hat
      · exact absurd (hbc.trans hac.symm) (jsNum_lt_ne _ _ hlt ∘ congrArg Dashboard.score)
      · have := hl.1 a hat
        rw [← hbc, hlt] at this
        exact absurd this (by simp)
    · rcases List.mem_cons.mp ha with hac | hat
      · rw [hac]
        exact List.Sublist.cons₂ c (List.singleton_sublist.mpr hbt)
      · exact List.Sublist.cons c (ih hl.2 hat hbt)

/-! ## Claims on the verdict flag and on the ranking -/

/-- Claim C11: in every verdict returned by `checkHighRisk`, `isHigh` is true
exactly when the reasons list is not empty. -/
theorem isHigh_iff_reasons_nonempty (p : JsVal) (verdict : Verdict)
    (h : Dashboard.checkHighRisk p = some verdict) :
    (verdict.isHigh = true ↔ verdict.reasons ≠ []) ∧
    verdict.isHigh = decide (verdict.reasons.length > 0) := by
  have e := isHigh_eq p verdict h
  refine ⟨?_, e⟩
  rw [e]
  simp [List.length_pos]

/-- Claim C11, instances: the verdict of `{ vitals: { bpSystolic: 162 } }` has one
reason and `isHigh = true`; the verdict of the empty record has no reason and
`isHigh = false`. -/
theorem isHigh_iff_reasons_nonempty_witness :
    Dashboard.checkHighRisk recSystolic162 =
      some (flaggedFor [Dashboard.noteReason ReasonType.clinical Domain.cardio "systolic 162"]) ∧
    Dashboard.checkHighRisk (JsVal.obj []) = some noReasons ∧
    ((flaggedFor
        [Dashboard.noteReason ReasonType.clinical Domain.cardio "systolic 162"]).isHigh = true ↔
      (flaggedFor
        [Dashboard.noteReason ReasonType.clinical Domain.cardio "systolic 162"]).reasons ≠ []) ∧
    (noReasons.isHigh = true ↔ noReasons.reasons ≠ []) :=
  ⟨by decide!, by decide!,
   (isHigh_iff_reasons_nonempty recSystolic162 _ (by decide!)).1,
   (isHigh_iff_reasons_nonempty (JsVal.obj []) _ (by decide!)).1⟩

/-- Claim C12: when no evaluation throws and no score is `NaN`, the list
answered by `getHighRiskPatients` is ordered by non-increasing score, and the
score of an entry with numeric probabilities is the number of its reasons plus
its two probabilities, added from left to right in double arithmetic. -/
theorem ranking_by_score (patients : List JsVal)
    (hok : ∀ p ∈ patients, Dashboard.checkHighRisk p ≠ none)
    (hs : ∀ x ∈ patients.filterMap flaggedEntry, (Dashboard.score x).isNaN = false) :
    ∃ out, Dashboard.getHighRiskPatients patients = Dashboard.Response.json out ∧
      out.Pairwise (fun x y => (Dashboard.score x).ge (Dashboard.score y) = true) ∧
      (∀ (x : Dashboard.Flagged) (c d : ℚ),
        x.cardioProb = JsNum.fin c → x.diabetesProb = JsNum.fin d →
        Dashboard.score x =
          JsNum.fin (JsNum.toDouble (JsNum.toDouble ((x.reasons.length : ℚ) + c) + d))) := by
  refine ⟨_, getHighRiskPatients_eq patients hok, ?_, score_fin⟩
  have hsorted := jsSort_sorted (patients.filterMap flaggedEntry) hs
  have hmem : ∀ x ∈ Dashboard.jsSort Dashboard.compareFn (patients.filterMap flaggedEntry),
      (Dashboard.score x).isNaN = false :=
    fun x hx => hs x ((jsSort_perm Dashboard.compareFn _).mem_iff.mp hx)
  have htake := List.Pairwise.sublist (List.take_sublist 10 _) hsorted
  refine List.Pairwise.imp_of_mem ?_ htake
  intro a b ha hb hab
  exact jsNum_ge_of_not_lt _ _ (hmem a (List.mem_of_mem_take ha))
    (hmem b (List.mem_of_mem_take hb)) hab

/-- Claim C12, instance: for A with two reasons and no probability and B with
two reasons and `cardioProb = 0.5`, given as `[A, B]`, the answer is `[B, A]`. -/
theorem ranking_by_score_witness :
    (∀ p ∈ [recTwoHistory "A", recHistoryAndModel "B"], Dashboard.checkHighRisk p ≠ none) ∧
    (∀ x ∈ [recTwoHistory "A", recHistoryAndModel "B"].filterMap flaggedEntry,
      (Dashboard.score x).isNaN = false) ∧
    (∃ out, Dashboard.getHighRiskPatients [recTwoHistory "A", recHistoryAndModel "B"] =
        Dashboard.Response.json out ∧
      out.Pairwise (fun x y => (Dashboard.score x).ge (Dashboard.score y) = true)) ∧
    responseViews (Dashboard.getHighRiskPatients [recTwoHistory "A", recHistoryAndModel "B"]) =
      some [("B", 2, JsNum.fin 0.5, JsNum.fin 0), ("A", 2, JsNum.fin 0, JsNum.fin 0)] := by
  have h1 : ∀ p ∈ [recTwoHistory "A", recHistoryAndModel "B"],
      Dashboard.checkHighRisk p ≠ none := by decide!
  have h2 : ∀ x ∈ [recTwoHistory "A", recHistoryAndModel "B"].filterMap flaggedEntry,
      (Dashboard.score x).isNaN = false := by decide!
  obtain ⟨out, hout, hsorted, _⟩ :=
    ranking_by_score [recTwoHistory "A", recHistoryAndModel "B"] h1 h2
  exact ⟨h1, h2, ⟨out, hout, hsorted⟩, by decide!⟩

/-- Claim C13, counterexample: A has three reasons and no probability, B has
two reasons and both probabilities 0.9; given as `[A, B]` the answer is
`[B, A]`: the patient with fewer reasons comes first (score 3.8 against 3). -/
theorem reason_count_does_not_dominate :
    responseViews (Dashboard.getHighRiskPatients [recThreeClinical "A", recTwoModel "B"]) =
      some [("B", 2, JsNum.fin 0.9, JsNum.fin 0.9), ("A", 3, JsNum.fin 0, JsNum.fin 0)] := by
  decide!

theorem length_pushIf_le (c : Bool) (r : Reason) (l : List Reason) (n : Nat)
    (h : l.length ≤ n) : (Dashboard.pushIf c r l).length ≤ n + 1 := by
  unfold Dashboard.pushIf
  cases c <;> simp <;> omega

/-- A verdict has at most 21 reasons, one for each test of `checkHighRisk`. -/
theorem reasons_length_le (p : JsVal) (verdict : Verdict)
    (h : Dashboard.checkHighRisk p = some verdict) : verdict.reasons.length ≤ 21 := by
  unfold Dashboard.checkHighRisk at h
  by_cases hnull : p.isNullish = true
  · simp [hnull] at h
  · simp only [hnull, Bool.false_eq_true, if_false] at h
    split at h
    · simp at h
    · simp only [Option.some.injEq] at h
      subst h
      repeat apply length_pushIf_le
      exact Nat.le_refl 0

theorem score_bounds (x : Dashboard.Flagged) (c d : ℚ)
    (hc : x.cardioProb = JsNum.fin c) (hd : x.diabetesProb = JsNum.fin d)
    (hlen : x.reasons.length ≤ 21) (hc0 : 0 ≤ c) (hc1 : c ≤ 1) (hd0 : 0 ≤ d) (hd1 : d ≤ 1) :
    ∃ s : ℚ, Dashboard.score x = JsNum.fin s ∧ (x.reasons.length : ℚ) ≤ s ∧
      s ≤ (x.reasons.length : ℚ) + 2 := by
  refine ⟨_, score_fin x c d hc hd, ?_, ?_⟩
  · have h1 : JsNum.toDouble ((x.reasons.length : ℕ) : ℚ) = x.reasons.length :=
      toDouble_natCast _ (by omega)
    have h2 : (x.reasons.length : ℚ) ≤ JsNum.toDouble ((x.reasons.length : ℚ) + c) := by
      calc (x.reasons.length : ℚ) = JsNum.toDouble ((x.reasons.length : ℕ) : ℚ) := h1.symm
        _ ≤ JsNum.toDouble ((x.reasons.length : ℚ) + c) := toDouble_mono _ _ (by linarith)
    calc (x.reasons.length : ℚ) = JsNum.toDouble ((x.reasons.length : ℕ) : ℚ) := h1.symm
      _ ≤ JsNum.toDouble (JsNum.toDouble ((x.reasons.length : ℚ) + c) + d) :=
        toDouble_mono _ _ (by linarith)
  · have h1 : JsNum.toDouble (((x.reasons.length + 1 : ℕ)) : ℚ) = (x.reasons.length + 1 : ℕ) :=
      toDouble_natCast _ (by omega)
    have h2 : JsNum.toDouble (((x.reasons.length + 2 : ℕ)) : ℚ) = (x.reasons.length + 2 : ℕ) :=
      toDouble_natCast _ (by omega)
    have h3 : JsNum.toDouble ((x.reasons.length : ℚ) + c) ≤ (x.reasons.length : ℚ) + 1 := by
      calc JsNum.toDouble ((x.reasons.length : ℚ) + c)
          ≤ JsNum.toDouble (((x.reasons.length + 1 : ℕ)) : ℚ) :=
            toDouble_mono _ _ (by push_cast; linarith)
        _ = (x.reasons.length : ℚ) + 1 := by rw [h1]; push_cast; ring
    calc JsNum.toDouble (JsNum.toDouble ((x.reasons.length : ℚ) + c) + d)
        ≤ JsNum.toDouble (((x.reasons.length + 2 : ℕ)) : ℚ) :=
          toDouble_mono _ _ (by push_cast; linarith)
      _ = (x.reasons.length : ℚ) + 2 := by rw [h2]; push_cast; ring

/-- Claim C13, amended: the order is decided by the score, the sum
`(reasons + cardioProb) + diabetesProb` in double arithmetic.  Of two entries
of the answer, the one with the strictly greater score stands first, whatever
the reason counts are; the entry with more reasons stands first when all
probabilities lie in `[0, 1]` and the counts differ by more than two. -/
theorem ranking_by_count_and_probabilities (patients : List JsVal)
    (hok : ∀ p ∈ patients, Dashboard.checkHighRisk p ≠ none)
    (hs : ∀ x ∈ patients.filterMap flaggedEntry, (Dashboard.score x).isNaN = false) :
    ∃ out, Dashboard.getHighRiskPatients patients = Dashboard.Response.json out ∧
      (∀ (a b : Dashboard.Flagged) (ca da cb db : ℚ), a ∈ out → b ∈ out →
        a.cardioProb = JsNum.fin ca → a.diabetesProb = JsNum.fin da →
        b.cardioProb = JsNum.fin cb → b.diabetesProb = JsNum.fin db →
        JsNum.toDouble (JsNum.toDouble ((b.reasons.length : ℚ) + cb) + db) <
          JsNum.toDouble (JsNum.toDouble ((a.reasons.length : ℚ) + ca) + da) →
        List.Sublist [a, b] out) ∧
      (∀ (a b : Dashboard.Flagged), a ∈ out → b ∈ out →
        InUnitInterval a.cardioProb → InUnitInterval a.diabetesProb →
        InUnitInterval b.cardioProb → InUnitInterval b.diabetesProb →
        b.reasons.length + 2 < a.reasons.length →
        List.Sublist [a, b] out) := by
  have hsorted := jsSort_sorted (patients.filterMap flaggedEntry) hs
  have htake := List.Pairwise.sublist (List.take_sublist 10 _) hsorted
  have main : ∀ (a b : Dashboard.Flagged) (ca da cb db : ℚ),
      a ∈ (Dashboard.jsSort Dashboard.compareFn (patients.filterMap flaggedEntry)).take 10 →
      b ∈ (Dashboard.jsSort Dashboard.compareFn (patients.filterMap flaggedEntry)).take 10 →
      a.cardioProb = JsNum.fin ca → a.diabetesProb = JsNum.fin da →
      b.cardioProb = JsNum.fin cb → b.diabetesProb = JsNum.fin db →
      JsNum.toDouble (JsNum.toDouble ((b.reasons.length : ℚ) + cb) + db) <
        JsNum.toDouble (JsNum.toDouble ((a.reasons.length : ℚ) + ca) + da) →
      List.Sublist [a, b]
        ((Dashboard.jsSort Dashboard.compareFn (patients.filterMap flaggedEntry)).take 10) := by
    intro a b ca da cb db ha hb hca hda hcb hdb hlt
    refine sublist_of_score_lt _ a b htake ha hb ?_
    rw [score_fin a ca da hca hda, score_fin b cb db hcb hdb, jsNum_lt_fin]
    simpa only [decide_eq_true_eq] using hlt
  have hlen : ∀ x ∈ (Dashboard.jsSort Dashboard.compareFn
      (patients.filterMap flaggedEntry)).take 10, x.reasons.length ≤ 21 := by
    intro x hx
    have hx1 := (jsSort_perm Dashboard.compareFn _).mem_iff.mp (List.mem_of_mem_take hx)
    obtain ⟨p, _, verdict, hv, _, hxe⟩ := mem_flagged patients x hx1
    rw [hxe]
    exact reasons_length_le p verdict hv
  refine ⟨_, getHighRiskPatients_eq patients hok, main, ?_⟩
  intro a b ha hb hac had hbc hbd hcount
  obtain ⟨ca, hca, hca0, hca1⟩ := hac
  obtain ⟨da, hda, hda0, hda1⟩ := had
  obtain ⟨cb, hcb, hcb0, hcb1⟩ := hbc
  obtain ⟨db, hdb, hdb0, hdb1⟩ := hbd
  refine main a b ca da cb db ha hb hca hda hcb hdb ?_
  obtain ⟨sa, hsa, hsa1, _⟩ := score_bounds a ca da hca hda (hlen a ha) hca0 hca1 hda0 hda1
  obtain ⟨sb, hsb, _, hsb2⟩ := score_bounds b cb db hcb hdb (hlen b hb) hcb0 hcb1 hdb0 hdb1
  rw [score_fin a ca da hca hda] at hsa
  rw [score_fin b cb db hcb hdb] at hsb
  rw [JsNum.fin.injEq] at hsa hsb
  rw [hsa, hsb]
  have hcount' : ((b.reasons.length : ℚ) + 2) < (a.reasons.length : ℚ) := by
    exact_mod_cast hcount
  linarith

/-- Claim C13, instance: A with three reasons and no probability stands before B
with one reason and `cardioProb = 0.9`.  With one reason each, A with
probabilities 0.01 and 0.14 stands behind B with 0.04 and 0.11: the sums
`(1 + 0.01) + 0.14` and `(1 + 0.04) + 0.11` round to different doubles. -/
theorem ranking_by_count_and_probabilities_witness :
    (∀ p ∈ [recThreeClinical "A", recOneModel "B"], Dashboard.checkHighRisk p ≠ none) ∧
    (∀ x ∈ [recThreeClinical "A", recOneModel "B"].filterMap flaggedEntry,
      (Dashboard.score x).isNaN = false) ∧
    (∃ out, Dashboard.getHighRiskPatients [recThreeClinical "A", recOneModel "B"] =
      Dashboard.Response.json out) ∧
    responseViews (Dashboard.getHighRiskPatients [recThreeClinical "A", recOneModel "B"]) =
      some [("A", 3, JsNum.fin 0, JsNum.fin 0), ("B", 1, JsNum.fin 0.9, JsNum.fin 0)] ∧
    responseViews (Dashboard.getHighRiskPatients
        [recSmokerProbs "A" 0.01 0.14, recSmokerProbs "B" 0.04 0.11]) =
      some [("B", 1, JsNum.fin 0.04, JsNum.fin 0.11), ("A", 1, JsNum.fin 0.01, JsNum.fin 0.14)] ∧
    (flaggedEntry (recSmokerProbs "A" 0.01 0.14)).map Dashboard.score =
      some (JsNum.fin (2589569785738035 / 2251799813685248)) ∧
    (flaggedEntry (recSmokerProbs "B" 0.04 0.11)).map Dashboard.score =
      some (JsNum.fin (5179139571476071 / 4503599627370496)) := by
  have h1 : ∀ p ∈ [recThreeClinical "A", recOneModel "B"],
      Dashboard.checkHighRisk p ≠ none := by decide!
  have h2 : ∀ x ∈ [recThreeClinical "A", recOneModel "B"].filterMap flaggedEntry,
      (Dashboard.score x).isNaN = false := by decide!
  obtain ⟨out, hout, _⟩ :=
    ranking_by_count_and_probabilities [recThreeClinical "A", recOneModel "B"] h1 h2
  exact ⟨h1, h2, ⟨out, hout⟩, by decide!, by decide!, by decide!, by decide!⟩

/-- Claim C14: when no evaluation throws, every entry of the answer of
`getHighRiskPatients` comes from a patient whose verdict has `isHigh = true`
and carries a non-empty reasons list; a patient whose verdict has
`isHigh = false` has no entry in the answer. -/
theorem only_high_risk_listed (patients : List JsVal)
    (hok : ∀ p ∈ patients, Dashboard.checkHighRisk p ≠ none) :
    ∃ out, Dashboard.getHighRiskPatients patients = Dashboard.Response.json out ∧
      (∀ x ∈ out, x.reasons ≠ [] ∧
        ∃ p ∈ patients, ∃ verdict, Dashboard.checkHighRisk p = some verdict ∧
          verdict.isHigh = true ∧ x = Dashboard.mkFlagged p verdict) ∧
      (∀ p ∈ patients, ∀ verdict, Dashboard.checkHighRisk p = some verdict →
        verdict.isHigh = false → Dashboard.mkFlagged p verdict ∉ out) := by
  have hmem : ∀ x ∈ (Dashboard.jsSort Dashboard.compareFn
      (patients.filterMap flaggedEntry)).take 10, x.reasons ≠ [] ∧
        ∃ p ∈ patients, ∃ verdict, Dashboard.checkHighRisk p = some verdict ∧
          verdict.isHigh = true ∧ x = Dashboard.mkFlagged p verdict := by
    intro x hx
    have hx' : x ∈ patients.filterMap flaggedEntry :=
      (jsSort_perm Dashboard.compareFn _).mem_iff.mp (List.mem_of_mem_take hx)
    obtain ⟨p, hp, verdict, hv, hh, hxe⟩ := mem_flagged patients x hx'
    refine ⟨?_, p, hp, verdict, hv, hh, hxe⟩
    have e := isHigh_eq p verdict hv
    rw [hh] at e
    have hpos : verdict.reasons.length > 0 := by simpa using e.symm
    rw [hxe]
    exact List.length_pos.mp hpos
  refine ⟨_, getHighRiskPatients_eq patients hok, hmem, ?_⟩
  intro p _ verdict hv hh hin
  have e := isHigh_eq p verdict hv
  rw [hh] at e
  have hnil : verdict.reasons = [] := by
    have : ¬ verdict.reasons.length > 0 := by simpa using e.symm
    exact List.length_eq_zero.mp (Nat.eq_zero_of_not_pos this)
  exact (hmem _ hin).1 hnil

/-- Claim C14, instance: a record whose only data is
`risk.cardio.probabilities.High = 0.10` has no reason and is not listed, also
next to a listed patient. -/
theorem only_high_risk_listed_witness :
    (∀ p ∈ [recCardioHigh (JsVal.num (JsNum.fin 0.10)), recTwoHistory "A"],
      Dashboard.checkHighRisk p ≠ none) ∧
    (∃ out, Dashboard.getHighRiskPatients
        [recCardioHigh (JsVal.num (JsNum.fin 0.10)), recTwoHistory "A"] =
          Dashboard.Response.json out ∧
      ∀ x ∈ out, x.reasons ≠ []) ∧
    Dashboard.checkHighRisk (recCardioHigh (JsVal.num (JsNum.fin 0.10))) =
      some { isHigh := false, reasons := [], cardioProb := JsNum.fin 0.10,
             diabetesProb := JsNum.fin 0 } ∧
    responseViews (Dashboard.getHighRiskPatients
      [recCardioHigh (JsVal.num (JsNum.fin 0.10))]) = some [] ∧
    responseViews (Dashboard.getHighRiskPatients
      [recCardioHigh (JsVal.num (JsNum.fin 0.10)), recTwoHistory "A"]) =
        some [("A", 2, JsNum.fin 0, JsNum.fin 0)] := by
  have h1 : ∀ p ∈ [recCardioHigh (JsVal.num (JsNum.fin 0.10)), recTwoHistory "A"],
      Dashboard.checkHighRisk p ≠ none := by decide!
  obtain ⟨out, hout, hres, _⟩ :=
    only_high_risk_listed [recCardioHigh (JsVal.num (JsNum.fin 0.10)), recTwoHistory "A"] h1
  exact ⟨h1, ⟨out, hout, fun x hx => (hres x hx).1⟩, by decide!, by decide!, by decide!⟩

/-- Claim C15: when no evaluation throws and no score is `NaN`, the answer of
`getHighRiskPatients` has `min 10 n` entries, where `n` is the number of
flagged patients, and it is a selection of the best: together with the
flagged entries left out it is a rearrangement of the flagged list, and every
entry left out has a score less than or equal to that of every entry kept. -/
theorem top_ten_selection (patients : List JsVal)
    (hok : ∀ p ∈ patients, Dashboard.checkHighRisk p ≠ none)
    (hs : ∀ x ∈ patients.filterMap flaggedEntry, (Dashboard.score x).isNaN = false) :
    ∃ out, Dashboard.getHighRiskPatients patients = Dashboard.Response.json out ∧
      out.length = min 10 (patients.filterMap flaggedEntry).length ∧
      ∃ rest, (out ++ rest).Perm (patients.filterMap flaggedEntry) ∧
        ∀ x ∈ rest, ∀ y ∈ out, (Dashboard.score x).le (Dashboard.score y) = true := by
  have hperm := jsSort_perm Dashboard.compareFn (patients.filterMap flaggedEntry)
  have hsorted := jsSort_sorted (patients.filterMap flaggedEntry) hs
  refine ⟨_, getHighRiskPatients_eq patients hok, ?_,
    (Dashboard.jsSort Dashboard.compareFn (patients.filterMap flaggedEntry)).drop 10, ?_, ?_⟩
  · rw [List.length_take, hperm.length_eq]
  · rw [List.take_append_drop]
    exact hperm
  · intro x hx y hy
    rw [← List.take_append_drop 10
      (Dashboard.jsSort Dashboard.compareFn (patients.filterMap flaggedEntry)),
      List.pairwise_append] at hsorted
    have hxy := hsorted.2.2 y hy x hx
    have hy' := hs y (hperm.mem_iff.mp (List.mem_of_mem_take hy))
    have hx' := hs x (hperm.mem_iff.mp (List.mem_of_mem_drop hx))
    exact jsNum_ge_of_not_lt _ _ hy' hx' hxy

/-- Claim C15, instance: of eleven flagged patients, ten with two reasons and a
last one with three, the answer keeps ten, the patient with three reasons
first. -/
theorem top_ten_selection_witness :
    (∀ p ∈ List.replicate 10 (recTwoHistory "A") ++ [recThreeClinical "C"],
      Dashboard.checkHighRisk p ≠ none) ∧
    (∀ x ∈ (List.replicate 10 (recTwoHistory "A") ++ [recThreeClinical "C"]).filterMap
      flaggedEntry, (Dashboard.score x).isNaN = false) ∧
    (∃ out, Dashboard.getHighRiskPatients
        (List.replicate 10 (recTwoHistory "A") ++ [recThreeClinical "C"]) =
          Dashboard.Response.json out ∧ out.length = 10) ∧
    responseViews (Dashboard.getHighRiskPatients
      (List.replicate 10 (recTwoHistory "A") ++ [recThreeClinical "C"])) =
        some (("C", 3, JsNum.fin 0, JsNum.fin 0) ::
          List.replicate 9 ("A", 2, JsNum.fin 0, JsNum.fin 0)) := by
  have h1 : ∀ p ∈ List.replicate 10 (recTwoHistory "A") ++ [recThreeClinical "C"],
      Dashboard.checkHighRisk p ≠ none := by decide!
  have h2 : ∀ x ∈ (List.replicate 10 (recTwoHistory "A") ++ [recThreeClinical "C"]).filterMap
      flaggedEntry, (Dashboard.score x).isNaN = false := by decide!
  have h3 : ((List.replicate 10 (recTwoHistory "A") ++ [recThreeClinical "C"]).filterMap
      flaggedEntry).length = 11 := by decide!
  obtain ⟨out, hout, hlen, _⟩ :=
    top_ten_selection (List.replicate 10 (recTwoHistory "A") ++ [recThreeClinical "C"]) h1 h2
  rw [h3] at hlen
  exact ⟨h1, h2, ⟨out, hout, hlen⟩, by decide!⟩

/-- Claim C16: when no evaluation throws, the entries of the answer that share
a score are an initial segment of the flagged entries with that score, taken
in the order of the input patient list: equal scores keep their input order,
and truncation keeps the earlier ones. -/
theorem ranking_ties_stable (patients : List JsVal)
    (hok : ∀ p ∈ patients, Dashboard.checkHighRisk p ≠ none) :
    ∃ out, Dashboard.getHighRiskPatients patients = Dashboard.Response.json out ∧
      ∀ s : JsNum, out.filter (fun x => decide (Dashboard.score x = s)) <+:
        (patients.filterMap flaggedEntry).filter (fun x => decide (Dashboard.score x = s)) := by
  refine ⟨_, getHighRiskPatients_eq patients hok, ?_⟩
  intro s
  rw [← jsSort_filter s (patients.filterMap flaggedEntry)]
  exact List.IsPrefix.filter _ (List.take_prefix 10 _)

/-- Claim C16, instance: of the patients A, B, C, D where only C has three
reasons and the others two, the answer is C, A, B, D. -/
theorem ranking_ties_stable_witness :
    (∀ p ∈ [recTwoHistory "A", recTwoHistory "B", recThreeClinical "C", recTwoHistory "D"],
      Dashboard.checkHighRisk p ≠ none) ∧
    (∃ out, Dashboard.getHighRiskPatients
        [recTwoHistory "A", recTwoHistory "B", recThreeClinical "C", recTwoHistory "D"] =
          Dashboard.Response.json out ∧
      out.filter (fun x => decide (Dashboard.score x = JsNum.fin 2)) <+:
        ([recTwoHistory "A", recTwoHistory "B", recThreeClinical "C",
          recTwoHistory "D"].filterMap flaggedEntry).filter
            (fun x => decide (Dashboard.score x = JsNum.fin 2))) ∧
    responseViews (Dashboard.getHighRiskPatients
      [recTwoHistory "A", recTwoHistory "B", recThreeClinical "C", recTwoHistory "D"]) =
        some [("C", 3, JsNum.fin 0, JsNum.fin 0), ("A", 2, JsNum.fin 0, JsNum.fin 0),
          ("B", 2, JsNum.fin 0, JsNum.fin 0), ("D", 2, JsNum.fin 0, JsNum.fin 0)] := by
  have h1 : ∀ p ∈ [recTwoHistory "A", recTwoHistory "B", recThreeClinical "C",
      recTwoHistory "D"], Dashboard.checkHighRisk p ≠ none := by decide!
  obtain ⟨out, hout, hpre⟩ := ranking_ties_stable
    [recTwoHistory "A", recTwoHistory "B", recThreeClinical "C", recTwoHistory "D"] h1
  exact ⟨h1, ⟨out, hout, hpre (JsNum.fin 2)⟩, by decide!⟩

/-! ## Claims on flag reasons, history reasons, order and totality -/

theorem includes_high_of_falsy (x : JsVal) (h : x.truthy = false) :
    includes (toLowerCase x.toStr) "high" = false := by
  cases x with
  | undefined => decide
  | null => decide
  | bool b =>
    cases b
    · decide
    · simp [JsVal.truthy] at h
  | num n =>
    cases n with
    | nan => decide
    | inf s => simp [JsVal.truthy] at h
    | fin q =>
      have hq : q = 0 := by simpa [JsVal.truthy] using h
      subst hq
      decide!
  | str s =>
    have hs : s = "" := by
      apply String.ext
      simpa [JsVal.truthy] using h
    subst hs
    decide
  | arr xs => simp [JsVal.truthy] at h
  | obj fs => simp [JsVal.truthy] at h

/-- The test `(x || "").toString().toLowerCase().includes("high")` tells
whether the text of `x` contains `high` ignoring case. -/
theorem saysHigh_eq (x : JsVal) :
    Dashboard.saysHigh x = includes (toLowerCase x.toStr) "high" := by
  unfold Dashboard.saysHigh JsVal.lor
  by_cases h : x.truthy = true
  · simp [h]
  · have h' : x.truthy = false := by simpa using h
    rw [includes_high_of_falsy x h']
    simp only [h', Bool.false_eq_true, if_false]
    decide

/-- Claim C17: the flag reasons of a domain are the single reason noted
`cardio_label/predicted_risk` (respectively `diabetes_label/prediction`) when
the label is the number 1 or the text of the predicted risk (respectively of
the prediction) contains `high` ignoring case, and none otherwise. -/
theorem flag_reason_iff_label_or_text (p : JsVal) (m : List (String × JsVal))
    (hp : p.isNullish = false) (hm : Dashboard.labsMap p = some m) :
    ∃ verdict, Dashboard.checkHighRisk p = some verdict ∧
      reasonsOf ReasonType.flag Domain.cardio verdict =
        (if (p.get "cardio_label").isNum 1 = true ∨
            includes (toLowerCase (((p.get "risk").get "cardio").get "predicted_risk").toStr)
              "high" = true then
          [{ type := ReasonType.flag, domain := Domain.cardio, score := none,
             note := some "cardio_label/predicted_risk" }]
        else []) ∧
      reasonsOf ReasonType.flag Domain.diabetes verdict =
        (if (p.get "diabetes_label").isNum 1 = true ∨
            includes (toLowerCase (((p.get "risk").get "diabetes").get "prediction").toStr)
              "high" = true then
          [{ type := ReasonType.flag, domain := Domain.diabetes, score := none,
             note := some "diabetes_label/prediction" }]
        else []) := by
  obtain ⟨verdict, hv⟩ := checkHighRisk_isSome p m hp hm
  refine ⟨verdict, hv, ?_, ?_⟩
  all_goals
    simp only [Dashboard.checkHighRisk, hp, hm, Bool.false_eq_true, if_false,
      Option.some.injEq] at hv
    subst hv
    simp only [reasonsOf, filter_pushIf, List.filter_nil, List.append_nil, List.nil_append,
      Dashboard.noteReason, Dashboard.modelReason, reduceCtorEq, decide_False, decide_True,
      and_true, and_false, false_and, true_and, if_false, Bool.false_eq_true, and_self,
      saysHigh_eq, Bool.or_eq_true]

/-- Claim C17, instance: a `predicted_risk` of `"High Risk"` gives the cardio
flag reason, and so does a `cardio_label` of 1; a `predicted_risk` of `"Low"`
gives none. -/
theorem flag_reason_iff_label_or_text_witness :
    (recField "cardio_label" (JsVal.num (JsNum.fin 1))).isNullish = false ∧
    Dashboard.labsMap (recField "cardio_label" (JsVal.num (JsNum.fin 1))) = some [] ∧
    (∃ verdict, Dashboard.checkHighRisk (recField "cardio_label" (JsVal.num (JsNum.fin 1))) =
        some verdict ∧
      reasonsOf ReasonType.flag Domain.cardio verdict =
        [{ type := ReasonType.flag, domain := Domain.cardio, score := none,
           note := some "cardio_label/predicted_risk" }]) ∧
    Dashboard.checkHighRisk (JsVal.obj [("risk", JsVal.obj [("cardio",
        JsVal.obj [("predicted_risk", JsVal.str "High Risk")])])]) =
      some (flaggedFor [Dashboard.noteReason ReasonType.flag Domain.cardio
        "cardio_label/predicted_risk"]) ∧
    Dashboard.checkHighRisk (JsVal.obj [("risk", JsVal.obj [("cardio",
        JsVal.obj [("predicted_risk", JsVal.str "Low")])])]) = some noReasons := by
  obtain ⟨verdict, hv, hc, _⟩ :=
    flag_reason_iff_label_or_text (recField "cardio_label" (JsVal.num (JsNum.fin 1))) [] rfl rfl
  have g : ((recField "cardio_label" (JsVal.num (JsNum.fin 1))).get "cardio_label").isNum 1 =
      true := by decide!
  simp only [g, true_or, if_true] at hc
  exact ⟨rfl, rfl, ⟨verdict, hv, hc⟩, by decide!, by decide!⟩

theorem boolOrAbsent_checks (x : JsVal) (h : BoolOrAbsent x) :
    x.isStr "1" = false ∧ decide (x.toStr = "true") = x.isTrue ∧
      decide (toLowerCase x.toStr = "yes") = false := by
  rcases h with h | ⟨b, hb⟩
  · cases x with
    | undefined => exact ⟨rfl, by decide, by decide⟩
    | null => exact ⟨rfl, by decide, by decide⟩
    | bool b => simp [JsVal.isNullish] at h
    | num n => simp [JsVal.isNullish] at h
    | str s => simp [JsVal.isNullish] at h
    | arr xs => simp [JsVal.isNullish] at h
    | obj fs => simp [JsVal.isNullish] at h
  · subst hb
    cases b
    · exact ⟨rfl, by decide, by decide⟩
    · exact ⟨rfl, by decide, by decide⟩

/-- The history reasons of a verdict, with the four checks as the source writes them. -/
theorem history_filter (p : JsVal) (m : List (String × JsVal)) (verdict : Verdict)
    (hp : p.isNullish = false) (hm : Dashboard.labsMap p = some m)
    (hv : Dashboard.checkHighRisk p = some verdict) :
    reasonsOfType ReasonType.history verdict =
      (if ((p.get "smoker").isTrue || (p.get "smoker").isStr "1" ||
            decide ((p.get "smoker").toStr = "true")) = true then
          [Dashboard.noteReason ReasonType.history Domain.cardio "smoker"] else []) ++
      ((if ((p.get "dm").isTrue || (p.get "dm").isStr "1" ||
            decide ((p.get "dm").toStr = "true") || (p.get "diabetes").isTrue) = true then
          [Dashboard.noteReason ReasonType.history Domain.diabetes "diabetes"] else []) ++
      ((if ((p.get "htn").isTrue || (p.get "htn").isStr "1" ||
            (p.get "hypertension").isTrue) = true then
          [Dashboard.noteReason ReasonType.history Domain.cardio "hypertension"] else []) ++
      (if ((p.get "fam_cad").isTrue || (p.get "fam_cad").isStr "1" ||
            (p.get "familyHistoryCad").isTrue ||
            decide (toLowerCase (p.get "fam_cad").toStr = "yes")) = true then
          [Dashboard.noteReason ReasonType.history Domain.cardio "family CAD"] else []))) := by
  simp only [Dashboard.checkHighRisk, hp, hm, Bool.false_eq_true, if_false,
    Option.some.injEq] at hv
  subst hv
  simp only [reasonsOfType, filter_pushIf, List.filter_nil, List.append_nil, List.nil_append,
    List.append_assoc, Dashboard.noteReason, Dashboard.modelReason, reduceCtorEq, decide_False,
    decide_True, and_true, and_false, if_false, Bool.false_eq_true]

/-- Claim C18, counterexample: the record `{ dm: false, diabetes: true }` has a
boolean `dm` flag that is false and still gets the diabetes history reason,
through the alias field `diabetes`. -/
theorem history_reason_for_false_flag :
    Dashboard.checkHighRisk recDiabetesAlias =
      some (flaggedFor [Dashboard.noteReason ReasonType.history Domain.diabetes "diabetes"]) ∧
    (recDiabetesAlias.get "dm").isTrue = false ∧ BoolOrAbsent (recDiabetesAlias.get "dm") := by
  refine ⟨by decide!, rfl, Or.inr ⟨false, rfl⟩⟩

/-- Claim C18, amended: for every record whose four history flags are booleans
or absent, the history reasons of the verdict are, in this order, one cardio
reason for `smoker` when it is true, one diabetes reason when `dm` or its
alias `diabetes` is true, one cardio reason when `htn` or its alias
`hypertension` is true, one cardio reason when `fam_cad` or its alias
`familyHistoryCad` is true, and no other.  The record
`{ smoker: "1", htn: true }` gets exactly the two cardio history reasons. -/
theorem history_reasons_of_boolean_flags (p : JsVal) (m : List (String × JsVal))
    (hp : p.isNullish = false) (hm : Dashboard.labsMap p = some m)
    (hsmoker : BoolOrAbsent (p.get "smoker")) (hdm : BoolOrAbsent (p.get "dm"))
    (hhtn : BoolOrAbsent (p.get "htn")) (hfam : BoolOrAbsent (p.get "fam_cad")) :
    (∃ verdict, Dashboard.checkHighRisk p = some verdict ∧
      reasonsOfType ReasonType.history verdict =
        (if (p.get "smoker").isTrue = true then
            [{ type := ReasonType.history, domain := Domain.cardio, score := none,
               note := some "smoker" }] else []) ++
        ((if (p.get "dm").isTrue = true ∨ (p.get "diabetes").isTrue = true then
            [{ type := ReasonType.history, domain := Domain.diabetes, score := none,
               note := some "diabetes" }] else []) ++
        ((if (p.get "htn").isTrue = true ∨ (p.get "hypertension").isTrue = true then
            [{ type := ReasonType.history, domain := Domain.cardio, score := none,
               note := some "hypertension" }] else []) ++
        (if (p.get "fam_cad").isTrue = true ∨ (p.get "familyHistoryCad").isTrue = true then
            [{ type := ReasonType.history, domain := Domain.cardio, score := none,
               note := some "family CAD" }] else [])))) ∧
    Dashboard.checkHighRisk recSmokerHtn =
      some (flaggedFor [Dashboard.noteReason ReasonType.history Domain.cardio "smoker",
        Dashboard.noteReason ReasonType.history Domain.cardio "hypertension"]) := by
  refine ⟨?_, by decide!⟩
  obtain ⟨verdict, hv⟩ := checkHighRisk_isSome p m hp hm
  refine ⟨verdict, hv, ?_⟩
  rw [history_filter p m verdict hp hm hv]
  obtain ⟨s1, s2, _⟩ := boolOrAbsent_checks _ hsmoker
  obtain ⟨d1, d2, _⟩ := boolOrAbsent_checks _ hdm
  obtain ⟨t1, _, _⟩ := boolOrAbsent_checks _ hhtn
  obtain ⟨f1, _, f3⟩ := boolOrAbsent_checks _ hfam
  simp only [s1, s2, d1, d2, t1, f1, f3, Bool.or_false, Bool.or_self, Bool.or_eq_true,
    Dashboard.noteReason]

/-- Claim C18, instance: the record `{ name, smoker: true, htn: true }` has
boolean flags and gets the smoker and the hypertension reasons. -/
theorem history_reasons_of_boolean_flags_witness :
    (recTwoHistory "A").isNullish = false ∧ Dashboard.labsMap (recTwoHistory "A") = some [] ∧
    BoolOrAbsent ((recTwoHistory "A").get "smoker") ∧
    BoolOrAbsent ((recTwoHistory "A").get "dm") ∧
    BoolOrAbsent ((recTwoHistory "A").get "htn") ∧
    BoolOrAbsent ((recTwoHistory "A").get "fam_cad") ∧
    ∃ verdict, Dashboard.checkHighRisk (recTwoHistory "A") = some verdict ∧
      reasonsOfType ReasonType.history verdict =
        [{ type := ReasonType.history, domain := Domain.cardio, score := none,
           note := some "smoker" },
         { type := ReasonType.history, domain := Domain.cardio, score := none,
           note := some "hypertension" }] := by
  have h1 : BoolOrAbsent ((recTwoHistory "A").get "smoker") := Or.inr ⟨true, rfl⟩
  have h2 : BoolOrAbsent ((recTwoHistory "A").get "dm") := Or.inl rfl
  have h3 : BoolOrAbsent ((recTwoHistory "A").get "htn") := Or.inr ⟨true, rfl⟩
  have h4 : BoolOrAbsent ((recTwoHistory "A").get "fam_cad") := Or.inl rfl
  obtain ⟨⟨verdict, hv, hh⟩, _⟩ :=
    history_reasons_of_boolean_flags (recTwoHistory "A") [] rfl rfl h1 h2 h3 h4
  have e1 : ((recTwoHistory "A").get "smoker").isTrue = true := rfl
  have e2 : ((recTwoHistory "A").get "dm").isTrue = false := rfl
  have e3 : ((recTwoHistory "A").get "diabetes").isTrue = false := rfl
  have e4 : ((recTwoHistory "A").get "htn").isTrue = true := rfl
  have e5 : ((recTwoHistory "A").get "fam_cad").isTrue = false := rfl
  have e6 : ((recTwoHistory "A").get "familyHistoryCad").isTrue = false := rfl
  simp only [e1, e2, e3, e4, e5, e6, true_or, or_self, Bool.false_eq_true, if_true, if_false,
    List.append_nil, List.singleton_append] at hh
  exact ⟨rfl, rfl, h1, h2, h3, h4, verdict, hv, hh⟩

theorem pushIf_eq_append (c : Bool) (r : Reason) (acc : List Reason) :
    Dashboard.pushIf c r acc = acc ++ (if c = true then [r] else []) := by
  unfold Dashboard.pushIf
  by_cases hc : c = true <;> simp [hc]

theorem filter_ite_singleton (f : Reason → Bool) (c : Prop) [Decidable c] (r : Reason) :
    List.filter f (if c then [r] else []) = if c ∧ f r = true then [r] else [] := by
  by_cases hc : c
  · by_cases hr : f r = true <;> simp [hc, hr]
  · simp [hc]

/-- Claim C19, counterexample: for `{ smoker: true, glucose: 8 }` the reasons
list is the history reason `smoker` followed by the clinical reason
`glucose 8`: a history reason stands before a clinical one. -/
theorem history_before_diabetes_clinical :
    Dashboard.checkHighRisk recSmokerGlucose =
      some (flaggedFor [Dashboard.noteReason ReasonType.history Domain.cardio "smoker",
        Dashboard.noteReason ReasonType.clinical Domain.diabetes "glucose 8"]) := by
  decide!

/-- Claim C19, amended: the reasons list of every verdict is made of, in this
order, its model reasons, its flag reasons, its cardio clinical reasons, its
history reasons and its diabetes clinical reasons. -/
theorem reasons_in_rule_order (p : JsVal) (m : List (String × JsVal))
    (hp : p.isNullish = false) (hm : Dashboard.labsMap p = some m) :
    ∃ verdict, Dashboard.checkHighRisk p = some verdict ∧
      verdict.reasons =
        reasonsOfType ReasonType.model verdict ++
        (reasonsOfType ReasonType.flag verdict ++
        (reasonsOf ReasonType.clinical Domain.cardio verdict ++
        (reasonsOfType ReasonType.history verdict ++
        reasonsOf ReasonType.clinical Domain.diabetes verdict))) := by
  obtain ⟨verdict, hv⟩ := checkHighRisk_isSome p m hp hm
  refine ⟨verdict, hv, ?_⟩
  simp only [Dashboard.checkHighRisk, hp, hm, Bool.false_eq_true, if_false,
    Option.some.injEq] at hv
  subst hv
  simp only [reasonsOfType, reasonsOf, pushIf_eq_append, List.filter_append,
    filter_ite_singleton, List.filter_nil, List.append_nil, List.nil_append, List.append_assoc,
    Dashboard.noteReason, Dashboard.modelReason, reduceCtorEq, decide_False, decide_True,
    and_true, and_false, and_self, if_false, Bool.false_eq_true]

/-- Claim C19, instance: for `{ smoker: true, glucose: 8 }` the model, flag and
cardio clinical parts are empty, and the list is the history part followed by
the diabetes clinical part. -/
theorem reasons_in_rule_order_witness :
    recSmokerGlucose.isNullish = false ∧ Dashboard.labsMap recSmokerGlucose = some [] ∧
    ∃ verdict, Dashboard.checkHighRisk recSmokerGlucose = some verdict ∧
      verdict.reasons =
        reasonsOfType ReasonType.model verdict ++
        (reasonsOfType ReasonType.flag verdict ++
        (reasonsOf ReasonType.clinical Domain.cardio verdict ++
        (reasonsOfType ReasonType.history verdict ++
        reasonsOf ReasonType.clinical Domain.diabetes verdict))) :=
  ⟨rfl, rfl, reasons_in_rule_order recSmokerGlucose [] rfl rfl⟩

theorem labsMap_isSome (p : JsVal) :
    (∃ m, Dashboard.labsMap p = some m) ↔
      ((p.get "labs").truthy = false ∨ ∃ items, p.get "labs" = JsVal.arr items) := by
  unfold Dashboard.labsMap JsVal.lor
  by_cases ht : (p.get "labs").truthy = true
  · simp only [ht, if_true, Bool.true_eq_false, false_or]
    generalize p.get "labs" = x
    cases x <;> simp
  · have ht' : (p.get "labs").truthy = false := by simpa using ht
    simp [ht']

/-- Claim C20: on every record (a keyed object) whose `labs` field is absent,
falsy or an array, `checkHighRisk` returns a verdict, whatever other fields are
absent; the empty record gets the verdict without reasons.  The evaluation
throws only when `p` is `null` or `undefined` or when `p.labs` is truthy and
not an array. -/
theorem checkHighRisk_total (fields : List (String × JsVal))
    (hlabs : (JsVal.lookup "labs" fields).truthy = false ∨
      ∃ items, JsVal.lookup "labs" fields = JsVal.arr items) :
    (∃ verdict, Dashboard.checkHighRisk (JsVal.obj fields) = some verdict) ∧
    Dashboard.checkHighRisk (JsVal.obj []) = some noReasons ∧
    (∀ p : JsVal, (∃ verdict, Dashboard.checkHighRisk p = some verdict) ↔
      (p.isNullish = false ∧
        ((p.get "labs").truthy = false ∨ ∃ items, p.get "labs" = JsVal.arr items))) := by
  refine ⟨?_, by decide!, ?_⟩
  · obtain ⟨m, hm⟩ := (labsMap_isSome (JsVal.obj fields)).mpr hlabs
    exact checkHighRisk_isSome (JsVal.obj fields) m rfl hm
  · intro p
    constructor
    · rintro ⟨verdict, hv⟩
      unfold Dashboard.checkHighRisk at hv
      by_cases hnull : p.isNullish = true
      · simp [hnull] at hv
      · have hnull' : p.isNullish = false := by simpa using hnull
        refine ⟨hnull', (labsMap_isSome p).mp ?_⟩
        simp only [hnull', Bool.false_eq_true, if_false] at hv
        cases hm : Dashboard.labsMap p with
        | none => simp [hm] at hv
        | some m => exact ⟨m, rfl⟩
    · rintro ⟨hnull, hl⟩
      obtain ⟨m, hm⟩ := (labsMap_isSome p).mpr hl
      exact checkHighRisk_isSome p m hnull hm

/-- Claim C20, instances: the record with only `vitals.bpSystolic` has an absent
`labs` field and gets a verdict; so does a record whose `labs` is an array with
a `null` entry and an entry without name. -/
theorem checkHighRisk_total_witness :
    (JsVal.lookup "labs"
      [("vitals", JsVal.obj [("bpSystolic", JsVal.num (JsNum.fin 162))])]).truthy = false ∧
    (∃ verdict, Dashboard.checkHighRisk recSystolic162 = some verdict) ∧
    (∃ verdict, Dashboard.checkHighRisk (JsVal.obj [("labs",
      JsVal.arr [JsVal.null, JsVal.obj [("value", JsVal.num (JsNum.fin 3))]])]) =
        some verdict) :=
  ⟨rfl,
   (checkHighRisk_total
      [("vitals", JsVal.obj [("bpSystolic", JsVal.num (JsNum.fin 162))])] (Or.inl rfl)).1,
   (checkHighRisk_total
      [("labs", JsVal.arr [JsVal.null, JsVal.obj [("value", JsVal.num (JsNum.fin 3))]])]
      (Or.inr ⟨_, rfl⟩)).1⟩

/-! ## Claims on the labs map -/

/-- Two accumulators with the same prototype whose own properties read alike
stay so along the reduction. -/
theorem lookup_foldl_congr (items : List JsVal) (acc1 acc2 : Dashboard.LabsObject)
    (hproto : acc1.proto = acc2.proto)
    (h : ∀ k rest, JsVal.lookup k (acc1.own ++ rest) = JsVal.lookup k (acc2.own ++ rest)) :
    (items.foldl Dashboard.labsStep acc1).proto = (items.foldl Dashboard.labsStep acc2).proto ∧
    ∀ k rest, JsVal.lookup k ((items.foldl Dashboard.labsStep acc1).own ++ rest) =
      JsVal.lookup k ((items.foldl Dashboard.labsStep acc2).own ++ rest) := by
  induction items generalizing acc1 acc2 with
  | nil => exact ⟨hproto, h⟩
  | cons it items ih =>
    simp only [List.foldl_cons]
    apply ih
    · unfold Dashboard.labsStep Dashboard.LabsObject.assign
      by_cases hn : (it.get "name").truthy = true
      · simp only [hn, if_true]
        by_cases hk : toLowerCase (it.get "name").toStr = "__proto__"
        · simp only [hk, if_true]
          cases it.get "value" <;> simp [hproto]
        · simp only [hk, if_false, hproto]
      · simp only [hn, Bool.false_eq_true, if_false, hproto]
    · intro k rest
      unfold Dashboard.labsStep Dashboard.LabsObject.assign
      by_cases hn : (it.get "name").truthy = true
      · simp only [hn, if_true]
        by_cases hk : toLowerCase (it.get "name").toStr = "__proto__"
        · simp only [hk, if_true]
          cases it.get "value" <;> simp [h k rest]
        · simp only [hk, if_false, List.cons_append, JsVal.lookup, h k rest]
      · simp only [hn, Bool.false_eq_true, if_false, h k rest]

theorem table_foldl_congr (items : List JsVal) (acc1 acc2 : Dashboard.LabsObject)
    (hproto : acc1.proto = acc2.proto)
    (h : ∀ k rest, JsVal.lookup k (acc1.own ++ rest) = JsVal.lookup k (acc2.own ++ rest)) :
    ∀ k, JsVal.lookup k (items.foldl Dashboard.labsStep acc1).table =
      JsVal.lookup k (items.foldl Dashboard.labsStep acc2).table := by
  intro k
  obtain ⟨h1, h2⟩ := lookup_foldl_congr items acc1 acc2 hproto h
  unfold Dashboard.LabsObject.table
  rw [h1]
  exact h2 k _

theorem foldl_labsStep_filter (items : List JsVal) (acc : Dashboard.LabsObject) :
    (items.filter (fun it => !nameless it)).foldl Dashboard.labsStep acc =
      items.foldl Dashboard.labsStep acc := by
  induction items generalizing acc with
  | nil => rfl
  | cons it items ih =>
    by_cases hn : nameless it = true
    · have hf : (it.get "name").truthy = false := by
        unfold nameless at hn
        cases hname : it.get "name" with
        | undefined => rfl
        | null => rfl
        | bool b => simp [hname] at hn
        | num n => simp [hname] at hn
        | str s =>
          rw [hname] at hn
          simpa [JsVal.truthy] using hn
        | arr xs => simp [hname] at hn
        | obj fs => simp [hname] at hn
      simp only [List.filter_cons, hn, Bool.not_true, Bool.false_eq_true, if_false,
        List.foldl_cons, Dashboard.labsStep, hf]
      exact ih acc
    · simp only [List.filter_cons, hn, Bool.not_false, if_true, List.foldl_cons]
      exact ih _

/-- The verdict depends on the record only through the fields that
`checkHighRisk` reads and through the values read in the labs map. -/
theorem checkHighRisk_congr (p q : JsVal) (m n : List (String × JsVal))
    (hp : p.isNullish = false) (hq : q.isNullish = false)
    (hm : Dashboard.labsMap p = some m) (hn : Dashboard.labsMap q = some n)
    (hget : ∀ k : String, k ≠ "labs" → q.get k = p.get k)
    (hlook : ∀ k, JsVal.lookup k n = JsVal.lookup k m) :
    Dashboard.checkHighRisk q = Dashboard.checkHighRisk p := by
  simp (disch := decide) only [Dashboard.checkHighRisk, hp, hq, hm, hn, Dashboard.cardioRaw,
    Dashboard.diabetesRaw, Dashboard.mkTop, hlook, hget]

theorem labsMap_of_arr (p : JsVal) (items : List JsVal) (h : p.get "labs" = JsVal.arr items) :
    Dashboard.labsMap p =
      some (items.foldl Dashboard.labsStep { own := [], proto := [] }).table := by
  simp [Dashboard.labsMap, JsVal.lor, h, JsVal.truthy]

theorem get_setField_labs (fields : List (String × JsVal)) (v : JsVal) :
    ((JsVal.obj fields).setField "labs" v).get "labs" = v ∧
    ∀ k : String, k ≠ "labs" →
      ((JsVal.obj fields).setField "labs" v).get k = (JsVal.obj fields).get k := by
  constructor
  · simp [JsVal.setField, JsVal.get, JsVal.lookup]
  · intro k hk
    simp [JsVal.setField, JsVal.get, JsVal.lookup, Ne.symm hk]

/-- Replacing the labs list of a record by a list whose map reads the same
values leaves the verdict unchanged. -/
theorem checkHighRisk_setLabs (p : JsVal) (items items1 : List JsVal)
    (hlabs : p.get "labs" = JsVal.arr items)
    (hlook : ∀ k,
      JsVal.lookup k (items1.foldl Dashboard.labsStep { own := [], proto := [] }).table =
      JsVal.lookup k (items.foldl Dashboard.labsStep { own := [], proto := [] }).table) :
    Dashboard.checkHighRisk (p.setField "labs" (JsVal.arr items1)) =
      Dashboard.checkHighRisk p := by
  cases p with
  | obj fields =>
    obtain ⟨h1, h2⟩ := get_setField_labs fields (JsVal.arr items1)
    exact checkHighRisk_congr _ _ _ _ rfl rfl (labsMap_of_arr _ items hlabs)
      (labsMap_of_arr _ items1 h1) h2 hlook
  | undefined => simp [JsVal.get] at hlabs
  | null => simp [JsVal.get] at hlabs
  | bool b => simp [JsVal.get] at hlabs
  | num n => simp [JsVal.get] at hlabs
  | str s => simp [JsVal.get] at hlabs
  | arr xs => simp [JsVal.get] at hlabs

/-- Claim C21: for every record whose `labs` is an array, the verdict of
`checkHighRisk` equals the verdict of the same record with all lab entries
without a name (name `undefined`, `null` or empty) removed from the array. -/
theorem nameless_lab_entries_skipped (p : JsVal) (items : List JsVal)
    (hlabs : p.get "labs" = JsVal.arr items) :
    Dashboard.checkHighRisk
        (p.setField "labs" (JsVal.arr (items.filter (fun it => !nameless it)))) =
      Dashboard.checkHighRisk p ∧
    ∃ verdict, Dashboard.checkHighRisk p = some verdict := by
  refine ⟨checkHighRisk_setLabs p items _ hlabs ?_, ?_⟩
  · intro k
    rw [foldl_labsStep_filter]
  · have hp : p.isNullish = false := by
      cases p <;> first | rfl | simp [JsVal.get] at hlabs
    exact checkHighRisk_isSome p _ hp (labsMap_of_arr p items hlabs)

/-- Claim C21, instance: with a nameless entry, an entry with an empty name and
a `null` entry next to an `HbA1c` entry of 9, the verdict is the one of the
record with the `HbA1c` entry alone. -/
theorem nameless_lab_entries_skipped_witness :
    (JsVal.obj [("labs", JsVal.arr [JsVal.obj [("value", JsVal.num (JsNum.fin 0.2))],
        JsVal.obj [("name", JsVal.str ""), ("value", JsVal.num (JsNum.fin 0.3))], JsVal.null,
        JsVal.obj [("name", JsVal.str "HbA1c"), ("value", JsVal.num (JsNum.fin 9))]])]).get
      "labs" =
      JsVal.arr [JsVal.obj [("value", JsVal.num (JsNum.fin 0.2))],
        JsVal.obj [("name", JsVal.str ""), ("value", JsVal.num (JsNum.fin 0.3))], JsVal.null,
        JsVal.obj [("name", JsVal.str "HbA1c"), ("value", JsVal.num (JsNum.fin 9))]] ∧
    Dashboard.checkHighRisk
      (JsVal.obj [("labs", JsVal.arr [JsVal.obj [("value", JsVal.num (JsNum.fin 0.2))],
        JsVal.obj [("name", JsVal.str ""), ("value", JsVal.num (JsNum.fin 0.3))], JsVal.null,
        JsVal.obj [("name", JsVal.str "HbA1c"), ("value", JsVal.num (JsNum.fin 9))]])]) =
      Dashboard.checkHighRisk (recLab "HbA1c" (JsVal.num (JsNum.fin 9))) ∧
    Dashboard.checkHighRisk (recLab "HbA1c" (JsVal.num (JsNum.fin 9))) =
      some (flaggedFor [Dashboard.noteReason ReasonType.clinical Domain.diabetes "hba1c 9"]) := by
  have h := (nameless_lab_entries_skipped
    (JsVal.obj [("labs", JsVal.arr [JsVal.obj [("value", JsVal.num (JsNum.fin 0.2))],
        JsVal.obj [("name", JsVal.str ""), ("value", JsVal.num (JsNum.fin 0.3))], JsVal.null,
        JsVal.obj [("name", JsVal.str "HbA1c"), ("value", JsVal.num (JsNum.fin 9))]])])
    [JsVal.obj [("value", JsVal.num (JsNum.fin 0.2))],
        JsVal.obj [("name", JsVal.str ""), ("value", JsVal.num (JsNum.fin 0.3))], JsVal.null,
        JsVal.obj [("name", JsVal.str "HbA1c"), ("value", JsVal.num (JsNum.fin 9))]] rfl).1
  refine ⟨rfl, ?_, by decide!⟩
  rw [← h]
  decide!


theorem lookup_foldl_of_no_key (post : List JsVal) (acc : Dashboard.LabsObject) (k : String)
    (h : ∀ x ∈ post, (x.get "name").truthy = true → labKey x ≠ k) :
    ∀ rest, JsVal.lookup k ((post.foldl Dashboard.labsStep acc).own ++ rest) =
      JsVal.lookup k (acc.own ++ rest) := by
  induction post generalizing acc with
  | nil => intro rest; rfl
  | cons x post ih =>
    intro rest
    simp only [List.foldl_cons]
    rw [ih _ (fun y hy => h y (List.mem_cons_of_mem x hy))]
    unfold Dashboard.labsStep Dashboard.LabsObject.assign
    by_cases hn : (x.get "name").truthy = true
    · have hk := h x (List.mem_cons_self x post) hn
      unfold labKey at hk
      simp only [hn, if_true]
      by_cases hp : toLowerCase (x.get "name").toStr = "__proto__"
      · simp only [hp, if_true]
        cases x.get "value" <;> rfl
      · simp only [hp, if_false, List.cons_append, JsVal.lookup, hk]
    · simp only [hn, Bool.false_eq_true, if_false]

theorem step_preserves_off_key (x : JsVal) (acc1 acc2 : Dashboard.LabsObject) (key : String)
    (hproto : acc1.proto = acc2.proto)
    (hacc : ∀ k rest, k ≠ key →
      JsVal.lookup k (acc1.own ++ rest) = JsVal.lookup k (acc2.own ++ rest)) :
    (Dashboard.labsStep acc1 x).proto = (Dashboard.labsStep acc2 x).proto ∧
    ∀ k rest, k ≠ key →
      JsVal.lookup k ((Dashboard.labsStep acc1 x).own ++ rest) =
        JsVal.lookup k ((Dashboard.labsStep acc2 x).own ++ rest) := by
  unfold Dashboard.labsStep Dashboard.LabsObject.assign
  by_cases hn : (x.get "name").truthy = true
  · simp only [hn, if_true]
    by_cases hp : toLowerCase (x.get "name").toStr = "__proto__"
    · simp only [hp, if_true]
      cases x.get "value" <;> exact ⟨by first | rfl | exact hproto, hacc⟩
    · simp only [hp, if_false, List.cons_append, JsVal.lookup]
      refine ⟨hproto, ?_⟩
      intro k rest hk
      rw [hacc k rest hk]
  · simp only [hn, Bool.false_eq_true, if_false]
    exact ⟨hproto, hacc⟩

theorem lookup_foldl_shadowed (post : List JsVal) (acc : Dashboard.LabsObject) (e later : JsVal)
    (hlater : later ∈ post) (hnamed : (later.get "name").truthy = true)
    (hkey : labKey later = labKey e) (hproto : labKey e ≠ "__proto__") :
    ∀ k, JsVal.lookup k (post.foldl Dashboard.labsStep (Dashboard.labsStep acc e)).table =
      JsVal.lookup k (post.foldl Dashboard.labsStep acc).table := by
  suffices h : ∀ (acc1 acc2 : Dashboard.LabsObject), acc1.proto = acc2.proto →
      (∀ k rest, k ≠ labKey e →
        JsVal.lookup k (acc1.own ++ rest) = JsVal.lookup k (acc2.own ++ rest)) →
      ∀ k, JsVal.lookup k (post.foldl Dashboard.labsStep acc1).table =
        JsVal.lookup k (post.foldl Dashboard.labsStep acc2).table by
    apply h
    · unfold Dashboard.labsStep Dashboard.LabsObject.assign
      unfold labKey at hproto
      by_cases hn : (e.get "name").truthy = true
      · simp only [hn, if_true, hproto, if_false]
      · simp only [hn, Bool.false_eq_true, if_false]
    · intro k rest hk
      unfold Dashboard.labsStep Dashboard.LabsObject.assign
      unfold labKey at hproto hk
      by_cases hn : (e.get "name").truthy = true
      · simp only [hn, if_true, hproto, if_false, List.cons_append, JsVal.lookup, Ne.symm hk]
      · simp only [hn, Bool.false_eq_true, if_false]
  induction post with
  | nil => simp at hlater
  | cons x post ih =>
    intro acc1 acc2 hp hacc
    simp only [List.foldl_cons]
    by_cases hx : (x.get "name").truthy = true ∧ labKey x = labKey e
    · apply table_foldl_congr
      · unfold Dashboard.labsStep Dashboard.LabsObject.assign
        have hxp : toLowerCase (x.get "name").toStr ≠ "__proto__" := by
          have := hx.2
          unfold labKey at this
          rw [this]
          exact hproto
        simp only [hx.1, if_true, hxp, if_false, hp]
      · intro k rest
        unfold Dashboard.labsStep Dashboard.LabsObject.assign
        have hxp : toLowerCase (x.get "name").toStr ≠ "__proto__" := by
          have := hx.2
          unfold labKey at this
          rw [this]
          exact hproto
        simp only [hx.1, if_true, hxp, if_false, List.cons_append, JsVal.lookup]
        by_cases hk : toLowerCase (x.get "name").toStr = k
        · simp only [hk, if_true]
        · simp only [hk, if_false]
          apply hacc
          intro hke
          apply hk
          rw [hke]
          exact hx.2
    · have hmem : later ∈ post := by
        rcases List.mem_cons.mp hlater with hl | hl
        · exact absurd ⟨hl ▸ hnamed, hl ▸ hkey⟩ hx
        · exact hl
      obtain ⟨h1, h2⟩ := step_preserves_off_key x acc1 acc2 (labKey e) hp hacc
      exact ih hmem _ _ h1 h2

/-- Claim C30, counterexample: of two entries named `__proto__` the first, whose
value is the object `{ hdl: 0.5 }`, decides the verdict: it becomes the
prototype of the map, the value 5 of the last entry is ignored, and
`labsMap["hdl"]` reads 0.5.  The record with the last entry alone has no
reason. -/
theorem proto_named_entry_changes_verdict :
    Dashboard.checkHighRisk
      (recTwoLabs "__proto__" (JsVal.obj [("hdl", JsVal.num (JsNum.fin 0.5))])
        "__proto__" (JsVal.num (JsNum.fin 5))) =
      some (flaggedFor [Dashboard.noteReason ReasonType.clinical Domain.cardio "hdl 0.5"]) ∧
    Dashboard.checkHighRisk (recLab "__proto__" (JsVal.num (JsNum.fin 5))) = some noReasons ∧
    labKey (JsVal.obj [("name", JsVal.str "__proto__"),
      ("value", JsVal.obj [("hdl", JsVal.num (JsNum.fin 0.5))])]) =
      labKey (JsVal.obj [("name", JsVal.str "__proto__"), ("value", JsVal.num (JsNum.fin 5))]) := by
  refine ⟨by decide!, by decide!, by decide⟩

/-- Claim C30, amended: in a record whose `labs` is an array, for an entry
whose name in lower case is not `__proto__`, the value read in the labs map
under that name is the value of the last entry with that name (ignoring
case), and an entry that is followed by an entry of the same name ignoring
case has no effect: the verdict is the one of the record without it.  The
value read is used for `ldl`, `hdl`, `creat` and `glucose` when the top-level
field is absent. -/
theorem last_lab_entry_wins (p : JsVal) (items : List JsVal)
    (hlabs : p.get "labs" = JsVal.arr items) :
    (∀ (pre post : List JsVal) (e later : JsVal), items = pre ++ e :: post →
      labKey e ≠ "__proto__" →
      later ∈ post → (later.get "name").truthy = true → labKey later = labKey e →
      Dashboard.checkHighRisk (p.setField "labs" (JsVal.arr (pre ++ post))) =
        Dashboard.checkHighRisk p) ∧
    (∀ (pre post : List JsVal) (e : JsVal), items = pre ++ e :: post →
      labKey e ≠ "__proto__" →
      (e.get "name").truthy = true →
      (∀ x ∈ post, (x.get "name").truthy = true → labKey x ≠ labKey e) →
      ∃ m, Dashboard.labsMap p = some m ∧ JsVal.lookup (labKey e) m = e.get "value" ∧
        ∀ v : JsVal,
          (labKey e = "ldl" → (p.get "ldl").isNullish = true →
            (Dashboard.mkTop p v m).ldl = (e.get "value").orElse JsVal.null) ∧
          (labKey e = "hdl" → (p.get "hdl").isNullish = true →
            (Dashboard.mkTop p v m).hdl = (e.get "value").orElse JsVal.null) ∧
          (labKey e = "creatinine" → (p.get "creat").isNullish = true →
            (Dashboard.mkTop p v m).creat = (e.get "value").orElse JsVal.null) ∧
          (labKey e = "glucose" → (p.get "glucose").isNullish = true →
            (Dashboard.mkTop p v m).glucose = (e.get "value").orElse JsVal.null)) := by
  constructor
  · intro pre post e later hitems hproto hlater hnamed hkey
    subst hitems
    apply checkHighRisk_setLabs p _ _ hlabs
    intro k
    simp only [List.foldl_append, List.foldl_cons]
    exact (lookup_foldl_shadowed post _ e later hlater hnamed hkey hproto k).symm
  · intro pre post e hitems hproto hnamed hlast
    subst hitems
    have hlook : JsVal.lookup (labKey e)
        ((pre ++ e :: post).foldl Dashboard.labsStep { own := [], proto := [] }).table =
          e.get "value" := by
      simp only [List.foldl_append, List.foldl_cons]
      unfold Dashboard.LabsObject.table
      rw [lookup_foldl_of_no_key post _ (labKey e) hlast]
      unfold labKey at hproto
      simp [Dashboard.labsStep, Dashboard.LabsObject.assign, hnamed, JsVal.lookup, labKey, hproto]
    refine ⟨_, labsMap_of_arr p _ hlabs, hlook, ?_⟩
    intro v
    refine ⟨?_, ?_, ?_, ?_⟩ <;> intro hk habs <;> rw [hk] at hlook <;>
      simp only [Dashboard.mkTop, orElse_of_nullish _ _ habs, hlook]

/-- Claim C30, instance: of the entries `HDL` 0.5 and `hdl` 1.5 the second is
read: the verdict is the one of the record with `hdl` 1.5 alone and has no
reason; in the other order the reason `hdl 0.5` is given. -/
theorem last_lab_entry_wins_witness :
    (recTwoLabs "HDL" (JsVal.num (JsNum.fin 0.5)) "hdl" (JsVal.num (JsNum.fin 1.5))).get "labs" =
      JsVal.arr [JsVal.obj [("name", JsVal.str "HDL"), ("value", JsVal.num (JsNum.fin 0.5))],
        JsVal.obj [("name", JsVal.str "hdl"), ("value", JsVal.num (JsNum.fin 1.5))]] ∧
    labKey (JsVal.obj [("name", JsVal.str "HDL"), ("value", JsVal.num (JsNum.fin 0.5))]) ≠
      "__proto__" ∧
    Dashboard.checkHighRisk
      (recTwoLabs "HDL" (JsVal.num (JsNum.fin 0.5)) "hdl" (JsVal.num (JsNum.fin 1.5))) =
        Dashboard.checkHighRisk (recLab "hdl" (JsVal.num (JsNum.fin 1.5))) ∧
    Dashboard.checkHighRisk
      (recTwoLabs "HDL" (JsVal.num (JsNum.fin 0.5)) "hdl" (JsVal.num (JsNum.fin 1.5))) =
        some noReasons ∧
    Dashboard.checkHighRisk
      (recTwoLabs "HDL" (JsVal.num (JsNum.fin 1.5)) "hdl" (JsVal.num (JsNum.fin 0.5))) =
        some (flaggedFor [Dashboard.noteReason ReasonType.clinical Domain.cardio "hdl 0.5"]) := by
  have h := (last_lab_entry_wins
    (recTwoLabs "HDL" (JsVal.num (JsNum.fin 0.5)) "hdl" (JsVal.num (JsNum.fin 1.5)))
    [JsVal.obj [("name", JsVal.str "HDL"), ("value", JsVal.num (JsNum.fin 0.5))],
      JsVal.obj [("name", JsVal.str "hdl"), ("value", JsVal.num (JsNum.fin 1.5))]] rfl).1
    [] [JsVal.obj [("name", JsVal.str "hdl"), ("value", JsVal.num (JsNum.fin 1.5))]]
    (JsVal.obj [("name", JsVal.str "HDL"), ("value", JsVal.num (JsNum.fin 0.5))])
    (JsVal.obj [("name", JsVal.str "hdl"), ("value", JsVal.num (JsNum.fin 1.5))])
    rfl (by decide) (List.mem_singleton.mpr rfl) rfl (by decide)
  refine ⟨rfl, by decide, ?_, by decide!, by decide!⟩
  rw [← h]
  decide!

/-! ## Claims on the availability slots -/

theorem mem_dedupFirst (xs : List String) (x : String) :
    x ∈ DoctorAvailability.dedupFirst xs ↔ x ∈ xs := by
  induction xs with
  | nil => simp [DoctorAvailability.dedupFirst]
  | cons y ys ih =>
    simp only [DoctorAvailability.dedupFirst, List.mem_cons, List.mem_filter, ih,
      decide_eq_true_eq]
    constructor
    · rintro (h | ⟨h, _⟩)
      · exact Or.inl h
      · exact Or.inr h
    · intro h
      by_cases hxy : x = y
      · exact Or.inl hxy
      · rcases h with h | h
        · exact Or.inl h
        · exact Or.inr ⟨h, hxy⟩

theorem nodup_dedupFirst (xs : List String) : (DoctorAvailability.dedupFirst xs).Nodup := by
  induction xs with
  | nil => simp [DoctorAvailability.dedupFirst]
  | cons y ys ih =>
    simp only [DoctorAvailability.dedupFirst, List.nodup_cons, List.mem_filter,
      decide_eq_true_eq]
    exact ⟨fun h => h.2 rfl, ih.filter _⟩

theorem mem_sortDefault (xs : List String) (x : String) :
    x ∈ DoctorAvailability.sortDefault xs ↔ x ∈ xs :=
  (List.perm_insertionSort _ xs).mem_iff

theorem char_lt_iff_toNat (a b : Char) : a < b ↔ a.toNat < b.toNat := by
  rw [Char.lt_def]
  exact Iff.rfl

theorem char_eq_iff_toNat (a b : Char) : a = b ↔ a.toNat = b.toNat := by
  constructor
  · intro h
    rw [h]
  · intro h
    rw [← Char.ofNat_toNat a, ← Char.ofNat_toNat b, h]

theorem isDigit_iff (c : Char) : c.isDigit = true ↔ 48 ≤ c.toNat ∧ c.toNat ≤ 57 := by
  simp [Char.isDigit, Char.toNat, UInt32.le_def, Fin.le_def]
  rfl

theorem list_lt_cons_cons (a b : Char) (l1 l2 : List Char) :
    (a :: l1) < (b :: l2) ↔ a.toNat < b.toNat ∨ (a.toNat = b.toNat ∧ l1 < l2) := by
  constructor
  · intro h
    cases h with
    | rel h => exact Or.inl ((char_lt_iff_toNat a b).mp h)
    | cons h => exact Or.inr ⟨rfl, h⟩
  · rintro (h | ⟨h, hl⟩)
    · exact List.Lex.rel ((char_lt_iff_toNat a b).mpr h)
    · have hab : a = b := (char_eq_iff_toNat a b).mpr h
      subst hab
      exact List.Lex.cons hl

theorem list_nil_not_lt_nil : ¬ (([] : List Char) < []) := by
  intro h
  cases h

theorem isHHMM_data (x : String) (hx : DoctorAvailability.isHHMM (JsVal.str x) = true) :
    ∃ a b c d : Char, x.data = [a, b, ':', c, d] ∧ a.isDigit = true ∧ b.isDigit = true ∧
      c.isDigit = true ∧ d.isDigit = true := by
  unfold DoctorAvailability.isHHMM at hx
  simp only at hx
  split at hx
  · next a b c d hd =>
    simp only [Bool.and_eq_true] at hx
    exact ⟨a, b, c, d, hd, hx.1.1.1, hx.1.1.2, hx.1.2, hx.2⟩
  · simp at hx

/-- For two strings `HH:MM` with minutes below 60 the order of the strings is
the order of the times. -/
theorem hhmm_lt_iff (x y : String)
    (hx : DoctorAvailability.isHHMM (JsVal.str x) = true)
    (hy : DoctorAvailability.isHHMM (JsVal.str y) = true)
    (hmx : minutePart x < 60) (hmy : minutePart y < 60) :
    x < y ↔ minutesOf x < minutesOf y := by
  obtain ⟨a, b, c, d, hxd, ha, hb, hc, hd⟩ := isHHMM_data x hx
  obtain ⟨a1, b1, c1, d1, hyd, ha1, hb1, hc1, hd1⟩ := isHHMM_data y hy
  rw [String.lt_iff_toList_lt]
  have e1 : x.toList = [a, b, ':', c, d] := hxd
  have e2 : y.toList = [a1, b1, ':', c1, d1] := hyd
  rw [e1, e2]
  simp only [minutesOf, minutePart, hxd, hyd] at hmx hmy ⊢
  rw [isDigit_iff] at ha hb hc hd ha1 hb1 hc1 hd1
  simp only [list_lt_cons_cons, list_nil_not_lt_nil, and_false, or_false, lt_self_iff_false,
    true_and, false_or]
  omega

theorem isHHMM_iff (x : String) :
    DoctorAvailability.isHHMM (JsVal.str x) = true ↔ TwoDigitsColonTwoDigits x := by
  constructor
  · intro h
    obtain ⟨a, b, c, d, hd, ha, hb, hc, hdd⟩ := isHHMM_data x h
    exact ⟨a, b, c, d, ha, hb, hc, hdd, hd⟩
  · rintro ⟨a, b, c, d, ha, hb, hc, hd, hx⟩
    unfold DoctorAvailability.isHHMM
    simp only [hx, ha, hb, hc, hd, Bool.and_self]

theorem isJsWhite_of_isDigit (c : Char) (h : c.isDigit = true) : StrNum.isJsWhite c = false := by
  obtain ⟨h1, h2⟩ := (isDigit_iff c).mp h
  unfold StrNum.isJsWhite
  simp only [Bool.or_eq_false_iff, Bool.and_eq_false_iff, decide_eq_false_iff_not]
  omega

theorem dropWhile_append_white (pre l : List Char)
    (h : ∀ c ∈ pre, StrNum.isJsWhite c = true) :
    (pre ++ l).dropWhile StrNum.isJsWhite = l.dropWhile StrNum.isJsWhite := by
  induction pre with
  | nil => rfl
  | cons c pre ih =>
    rw [List.cons_append, List.dropWhile_cons_of_pos (h c (List.mem_cons_self c pre))]
    exact ih (fun x hx => h x (List.mem_cons_of_mem c hx))

/-- Trimming a text of five characters with white space around it, whose first
and last characters are not white space, gives back the text. -/
theorem trim_padded (pre post : List Char) (a b c d e : Char)
    (ha : StrNum.isJsWhite a = false) (he : StrNum.isJsWhite e = false)
    (hpre : ∀ x ∈ pre, StrNum.isJsWhite x = true)
    (hpost : ∀ x ∈ post, StrNum.isJsWhite x = true) :
    StrNum.trim (pre ++ [a, b, c, d, e] ++ post) = [a, b, c, d, e] := by
  unfold StrNum.trim
  rw [List.append_assoc, dropWhile_append_white _ _ hpre]
  have h1 : ([a, b, c, d, e] ++ post).dropWhile StrNum.isJsWhite = [a, b, c, d, e] ++ post := by
    rw [List.cons_append, List.dropWhile_cons_of_neg (by simp [ha])]
  rw [h1]
  have h2 : ([a, b, c, d, e] ++ post).reverse = post.reverse ++ [e, d, c, b, a] := by simp
  rw [h2, dropWhile_append_white _ _ (fun x hx => hpost x (List.mem_reverse.mp hx))]
  rw [List.dropWhile_cons_of_neg (by simp [he])]
  rfl

/-- A text is its trimmed text between two runs of white space. -/
theorem trim_decompose (cs : List Char) :
    ∃ pre post : List Char, cs = pre ++ StrNum.trim cs ++ post ∧
      (∀ c ∈ pre, StrNum.isJsWhite c = true) ∧ (∀ c ∈ post, StrNum.isJsWhite c = true) := by
  refine ⟨cs.takeWhile StrNum.isJsWhite,
    (((cs.dropWhile StrNum.isJsWhite).reverse).takeWhile StrNum.isJsWhite).reverse, ?_,
    fun c hc => List.mem_takeWhile_imp hc,
    fun c hc => List.mem_takeWhile_imp (List.mem_reverse.mp hc)⟩
  unfold StrNum.trim
  rw [List.append_assoc, ← List.reverse_append, List.takeWhile_append_dropWhile,
    List.reverse_reverse, List.takeWhile_append_dropWhile]

/-- Claim C22, counterexample: the texts `10:00` and `09:75` both match two
digits, a colon and two digits, and are written in ascending order as `09:75`,
`10:00`; read as hours and minutes the first is 615 minutes after midnight and
the second 600, so the order written is not chronological. -/
theorem ascending_slots_not_chronological :
    writtenSlots (DoctorAvailability.setAvailability someDoctor
      (slotsBody [JsVal.str "10:00", JsVal.str "09:75"])) = some ["09:75", "10:00"] ∧
    DoctorAvailability.isHHMM (JsVal.str "09:75") = true ∧
    minutesOf "09:75" = 615 ∧ minutesOf "10:00" = 600 := by
  refine ⟨by decide!, by decide, by decide, by decide⟩

/-- Claim C22, amended: for a request of an authenticated doctor with a valid
date and an array of slots, the normal path of `setAvailability` writes the
list `cleaned`: its members are exactly the texts of two digits, a colon and
two digits that are the text of an input slot without the white space around
it; it has no duplicates and is strictly ascending as a list of strings, and
between written times with minutes below 60 this order is the order of the
times of day. -/
theorem cleaned_slots_normalized (user body : JsVal) (slots : List JsVal)
    (huser : (user.get "id").truthy = true)
    (hdate : DoctorAvailability.isYMD (body.get "date") = true)
    (hslots : body.get "slots" = JsVal.arr slots) :
    DoctorAvailability.setAvailability user body =
      DoctorAvailability.Step.setSlots (user.get "id") (body.get "date")
        (DoctorAvailability.cleaned slots) ∧
    (∀ x : String, x ∈ DoctorAvailability.cleaned slots ↔
      TwoDigitsColonTwoDigits x ∧ ∃ s ∈ slots, PaddingOf s.toStr x) ∧
    (DoctorAvailability.cleaned slots).Nodup ∧
    (DoctorAvailability.cleaned slots).Sorted (fun a b => a < b) ∧
    (∀ x ∈ DoctorAvailability.cleaned slots, ∀ y ∈ DoctorAvailability.cleaned slots,
      minutePart x < 60 → minutePart y < 60 → (x < y ↔ minutesOf x < minutesOf y)) := by
  have hmem0 : ∀ x : String, x ∈ DoctorAvailability.cleaned slots ↔
      ∃ s ∈ slots, x = DoctorAvailability.jsTrim s.toStr ∧
        DoctorAvailability.isHHMM (JsVal.str x) = true := by
    intro x
    unfold DoctorAvailability.cleaned
    rw [mem_sortDefault, mem_dedupFirst, List.mem_filter, List.mem_map]
    constructor
    · rintro ⟨⟨s, hs, hsx⟩, hx⟩
      simp only [Bool.and_eq_true] at hx
      exact ⟨s, hs, hsx.symm, hx.2⟩
    · rintro ⟨s, hs, hsx, hx⟩
      refine ⟨⟨s, hs, hsx.symm⟩, ?_⟩
      simp only [Bool.and_eq_true, hx, and_true]
      obtain ⟨a, b, c, d, hd, _⟩ := isHHMM_data x hx
      simp [hd]
  have hmem : ∀ x : String, x ∈ DoctorAvailability.cleaned slots ↔
      TwoDigitsColonTwoDigits x ∧ ∃ s ∈ slots, PaddingOf s.toStr x := by
    intro x
    rw [hmem0]
    constructor
    · rintro ⟨s, hs, hsx, hx⟩
      refine ⟨(isHHMM_iff x).mp hx, s, hs, ?_⟩
      obtain ⟨pre, post, hcs, hpre, hpost⟩ := trim_decompose s.toStr.data
      refine ⟨pre, post, ?_, hpre, hpost⟩
      rw [hsx]
      exact hcs
    · rintro ⟨hx, s, hs, pre, post, hcs, hpre, hpost⟩
      refine ⟨s, hs, ?_, (isHHMM_iff x).mpr hx⟩
      obtain ⟨a, b, c, d, ha, _, _, hd, hdata⟩ := hx
      have htrim : StrNum.trim s.toStr.data = x.data := by
        rw [hcs, hdata]
        exact trim_padded pre post a b ':' c d (isJsWhite_of_isDigit a ha)
          (isJsWhite_of_isDigit d hd) hpre hpost
      unfold DoctorAvailability.jsTrim
      rw [htrim]
  have hnodup : (DoctorAvailability.cleaned slots).Nodup := by
    unfold DoctorAvailability.cleaned DoctorAvailability.sortDefault
    exact (List.perm_insertionSort _ _).nodup_iff.mpr (nodup_dedupFirst _)
  have hsorted : (DoctorAvailability.cleaned slots).Sorted (fun a b => a ≤ b) := by
    unfold DoctorAvailability.cleaned DoctorAvailability.sortDefault
    exact List.sorted_insertionSort _ _
  refine ⟨?_, hmem, hnodup, hsorted.lt_of_le hnodup, ?_⟩
  · simp [DoctorAvailability.setAvailability, huser, hdate, hslots]
  · intro x hx y hy hmx hmy
    exact hhmm_lt_iff x y ((hmem0 x).mp hx).choose_spec.2.2 ((hmem0 y).mp hy).choose_spec.2.2
      hmx hmy

/-- Claim C22, amended, instance: the slots `" 10:30 "`, `"09:00"`, `"abc"`, the
text `09:00` between a tab and a line feed, the number 5 and `"9:00"` are
written as `09:00`, `10:30`; the slot `10:30` is only given with white space
around it. -/
theorem cleaned_slots_normalized_witness :
    (someDoctor.get "id").truthy = true ∧
    DoctorAvailability.isYMD ((slotsBody [JsVal.str " 10:30 ", JsVal.str "09:00",
      JsVal.str "abc", JsVal.str "\t09:00\n", JsVal.num (JsNum.fin 5), JsVal.str "9:00"]).get
        "date") = true ∧
    writtenSlots (DoctorAvailability.setAvailability someDoctor
      (slotsBody [JsVal.str " 10:30 ", JsVal.str "09:00", JsVal.str "abc",
        JsVal.str "\t09:00\n", JsVal.num (JsNum.fin 5), JsVal.str "9:00"])) =
      some ["09:00", "10:30"] ∧
    writtenSlots (DoctorAvailability.setAvailability someDoctor
      (slotsBody [JsVal.str " 10:30 "])) = some ["10:30"] := by
  have h := (cleaned_slots_normalized someDoctor
    (slotsBody [JsVal.str " 10:30 ", JsVal.str "09:00", JsVal.str "abc",
      JsVal.str "\t09:00\n", JsVal.num (JsNum.fin 5), JsVal.str "9:00"])
    [JsVal.str " 10:30 ", JsVal.str "09:00", JsVal.str "abc", JsVal.str "\t09:00\n",
      JsVal.num (JsNum.fin 5), JsVal.str "9:00"] (by decide) (by decide) rfl).1
  refine ⟨by decide, by decide, ?_, by decide!⟩
  rw [h]
  decide!

/-- Claim C27, evaluation at the failing input: for the slots `" 09:00 "`,
`"abc"`, `"09:00"` the normal path writes `09:00` alone, and the retry writes
the three texts as they are, untrimmed and unfiltered. -/
theorem retry_slots_not_normalized :
    writtenSlots (DoctorAvailability.setAvailability someDoctor
      (slotsBody [JsVal.str " 09:00 ", JsVal.str "abc", JsVal.str "09:00"])) =
        some ["09:00"] ∧
    (DoctorAvailability.setAvailabilityRetry someDoctor
      (slotsBody [JsVal.str " 09:00 ", JsVal.str "abc", JsVal.str "09:00"])).bind
        (fun step => writtenSlots step) = some [" 09:00 ", "09:00", "abc"] ∧
    DoctorAvailability.isHHMM (JsVal.str " 09:00 ") = false ∧
    DoctorAvailability.isHHMM (JsVal.str "abc") = false := by
  refine ⟨by decide!, by decide!, by decide, by decide⟩

/-! ## Claims on the predictor payload and on the stored labels -/

/-- Claim C23, evaluation at the failing input: for the stored gender `"1"`
the payload of `addPatientWithRisk` has gender `"0"` and the payload of
`computePatientRisk` has gender `"1"`; the two agree on `"male"` and `"female"`,
and on every other gender value and every flag value. -/
theorem gender_codes_differ :
    payloadText (PatientController.addPatientWithRiskPayload
      (recField "gender" (JsVal.str "1"))) "gender" = "0" ∧
    payloadText (PatientController.computePatientRiskPayload
      (recField "gender" (JsVal.str "1"))) "gender" = "1" ∧
    payloadText (PatientController.addPatientWithRiskPayload
      (recField "gender" (JsVal.str "male"))) "gender" = "1" ∧
    payloadText (PatientController.computePatientRiskPayload
      (recField "gender" (JsVal.str "male"))) "gender" = "1" ∧
    payloadText (PatientController.addPatientWithRiskPayload
      (recField "gender" (JsVal.str "female"))) "gender" = "0" ∧
    payloadText (PatientController.computePatientRiskPayload
      (recField "gender" (JsVal.str "female"))) "gender" = "0" ∧
    (∀ p : JsVal, (p.get "gender").isStr "1" = false →
      payloadText (PatientController.addPatientWithRiskPayload p) "gender" =
        payloadText (PatientController.computePatientRiskPayload p) "gender") ∧
    (∀ p : JsVal, ∀ key ∈ ["smoker", "dm", "htn", "fam_cad"],
      payloadText (PatientController.addPatientWithRiskPayload p) key =
        payloadText (PatientController.computePatientRiskPayload p) key) := by
  refine ⟨by decide, by decide, by decide, by decide, by decide, by decide, ?_, ?_⟩
  · intro p h
    have hadd : payloadText (PatientController.addPatientWithRiskPayload p) "gender" =
        (if (p.get "gender").isStr "male" then "1" else "0") := rfl
    have hcomp : payloadText (PatientController.computePatientRiskPayload p) "gender" =
        (if (p.get "gender").isStr "male" || (p.get "gender").isStr "1" then "1" else "0") := rfl
    rw [hadd, hcomp, h, Bool.or_false]
  · intro p key hkey
    simp only [List.mem_cons, List.mem_singleton, List.not_mem_nil, or_false] at hkey
    rcases hkey with h | h | h | h <;> subst h <;> rfl

/-- Claim C26, evaluation at the failing input: a submitted `smoker: "0"`, the
value of the option `No` of the form, is encoded as `"1"`; so is `"false"`.
The values `true`, 1 and `"1"` give `"1"`, and `false`, 0 and a missing value
give `"0"`; `checkHighRisk` reads the stored `"0"` as no. -/
theorem flag_zero_string_encoded_as_one :
    payloadText (PatientController.addPatientWithRiskPayload
      (recField "smoker" (JsVal.str "0"))) "smoker" = "1" ∧
    payloadText (PatientController.addPatientWithRiskPayload
      (recField "fam_cad" (JsVal.str "0"))) "fam_cad" = "1" ∧
    payloadText (PatientController.addPatientWithRiskPayload
      (recField "smoker" (JsVal.str "false"))) "smoker" = "1" ∧
    payloadText (PatientController.addPatientWithRiskPayload
      (recField "smoker" (JsVal.str "1"))) "smoker" = "1" ∧
    payloadText (PatientController.addPatientWithRiskPayload
      (recField "smoker" (JsVal.bool true))) "smoker" = "1" ∧
    payloadText (PatientController.addPatientWithRiskPayload
      (recField "smoker" (JsVal.num (JsNum.fin 1)))) "smoker" = "1" ∧
    payloadText (PatientController.addPatientWithRiskPayload
      (recField "smoker" (JsVal.bool false))) "smoker" = "0" ∧
    payloadText (PatientController.addPatientWithRiskPayload
      (recField "smoker" (JsVal.num (JsNum.fin 0)))) "smoker" = "0" ∧
    payloadText (PatientController.addPatientWithRiskPayload (JsVal.obj [])) "smoker" = "0" ∧
    (Dashboard.checkHighRisk (recField "smoker" (JsVal.str "0"))).map
      (reasonsOf ReasonType.history Domain.cardio) = some [] := by
  refine ⟨by decide, by decide, by decide, by decide, by decide, by decide!, by decide,
    by decide!, by decide, by decide!⟩

/-- Claim C25, evaluation at the failing input: for a predictor probability of
exactly 0.35 (or 35, in percent) the stored `cardio_label` is 1, while the
verdict of `checkHighRisk` on the record storing that risk data has no model
reason, also when the record stores the label; the two agree on 0.36 and on
0.34. -/
theorem label_and_model_reason_differ_at_threshold :
    PatientController.cardio_label (riskCardioHigh (JsVal.num (JsNum.fin 0.35))) = 1 ∧
    Dashboard.checkHighRisk (JsVal.obj [("risk", riskCardioHigh (JsVal.num (JsNum.fin 0.35)))]) =
      some { isHigh := false, reasons := [], cardioProb := JsNum.fin 0.35,
             diabetesProb := JsNum.fin 0 } ∧
    (Dashboard.checkHighRisk
      (JsVal.obj [("cardio_label", JsVal.num (JsNum.fin 1)),
        ("risk", riskCardioHigh (JsVal.num (JsNum.fin 0.35)))])).map
        (reasonsOf ReasonType.model Domain.cardio) = some [] ∧
    PatientController.cardio_label (riskCardioHigh (JsVal.num (JsNum.fin 35))) = 1 ∧
    (Dashboard.checkHighRisk
      (JsVal.obj [("risk", riskCardioHigh (JsVal.num (JsNum.fin 35)))])).map
        (reasonsOf ReasonType.model Domain.cardio) = some [] ∧
    PatientController.cardio_label (riskCardioHigh (JsVal.num (JsNum.fin 0.36))) = 1 ∧
    (Dashboard.checkHighRisk
      (JsVal.obj [("risk", riskCardioHigh (JsVal.num (JsNum.fin 0.36)))])).map
        (reasonsOf ReasonType.model Domain.cardio) =
          some [Dashboard.modelReason Domain.cardio (JsNum.fin 0.36)] ∧
    PatientController.cardio_label (riskCardioHigh (JsVal.num (JsNum.fin 0.34))) = 0 ∧
    (Dashboard.checkHighRisk
      (JsVal.obj [("risk", riskCardioHigh (JsVal.num (JsNum.fin 0.34)))])).map
        (reasonsOf ReasonType.model Domain.cardio) = some [] ∧
    PatientController.cardio_label (JsVal.obj []) = 0 := by
  refine ⟨by decide!, by decide!, by decide!, by decide!, by decide!, by decide!, by decide!,
    by decide!, by decide!, by decide!⟩

/-! ## Claim on `addMedicationToPatient` -/

theorem sameName_iff_lowerOf (lower : String → String) (a b : JsVal) :
    SameName lower a b ↔
      ∃ x, DoctorController.lowerOf lower a = some x ∧
        DoctorController.lowerOf lower b = some x := by
  constructor
  · rintro ⟨s, t, rfl, rfl, h⟩
    exact ⟨lower s, rfl, by simp [DoctorController.lowerOf, h]⟩
  · rintro ⟨x, ha, hb⟩
    cases a <;> simp [DoctorController.lowerOf] at ha
    cases b <;> simp [DoctorController.lowerOf] at hb
    exact ⟨_, _, rfl, rfl, ha.trans hb.symm⟩

theorem findExisting_found (lower : String → String) (name dose instructions : JsVal) :
    ∀ (meds : List DoctorController.Medication) (i : Nat),
      DoctorController.findExisting lower name meds = some (some i) →
      ∃ pre m post, meds = pre ++ m :: post ∧ SameName lower m.name name ∧
        (∀ x ∈ pre, ¬ SameName lower x.name name) ∧
        DoctorController.setDose dose instructions i meds =
          pre ++ { m with dose := dose, instructions := instructions } :: post := by
  intro meds
  induction meds with
  | nil => intro i h; simp [DoctorController.findExisting] at h
  | cons m ms ih =>
    intro i h
    unfold DoctorController.findExisting at h
    cases ha : DoctorController.lowerOf lower m.name with
    | none => simp [ha] at h
    | some a =>
      cases hb : DoctorController.lowerOf lower name with
      | none => simp [ha, hb] at h
      | some b =>
        simp only [ha, hb] at h
        by_cases hab : a = b
        · subst hab
          simp only [if_true, Option.some.injEq] at h
          subst h
          exact ⟨[], m, ms, rfl, (sameName_iff_lowerOf _ _ _).2 ⟨a, ha, hb⟩,
            by simp, rfl⟩
        · simp only [hab, if_false] at h
          cases hrec : DoctorController.findExisting lower name ms with
          | none => simp [hrec] at h
          | some r =>
            cases r with
            | none => simp [hrec] at h
            | some j =>
              simp only [hrec, Option.some.injEq] at h
              subst h
              obtain ⟨pre, m', post, hms, hsame, hpre, hset⟩ := ih j hrec
              refine ⟨m :: pre, m', post, by simp [hms], hsame, ?_, ?_⟩
              · intro x hx
                rcases List.mem_cons.1 hx with rfl | hx
                · intro hs
                  obtain ⟨y, h1, h2⟩ := (sameName_iff_lowerOf _ _ _).1 hs
                  rw [ha] at h1; rw [hb] at h2
                  exact hab ((Option.some.inj h1).trans (Option.some.inj h2).symm)
                · exact hpre x hx
              · simp [DoctorController.setDose, hset]

theorem findExisting_absent (lower : String → String) (name : JsVal) :
    ∀ (meds : List DoctorController.Medication),
      DoctorController.findExisting lower name meds = some none →
      ∀ m ∈ meds, ¬ SameName lower m.name name := by
  intro meds
  induction meds with
  | nil => intro _ m hm; simp at hm
  | cons m ms ih =>
    intro h
    unfold DoctorController.findExisting at h
    cases ha : DoctorController.lowerOf lower m.name with
    | none => simp [ha] at h
    | some a =>
      cases hb : DoctorController.lowerOf lower name with
      | none => simp [ha, hb] at h
      | some b =>
        simp only [ha, hb] at h
        by_cases hab : a = b
        · simp [hab] at h
        · simp only [hab, if_false] at h
          cases hrec : DoctorController.findExisting lower name ms with
          | none => simp [hrec] at h
          | some r =>
            cases r with
            | some j => simp [hrec] at h
            | none =>
              intro x hx
              rcases List.mem_cons.1 hx with rfl | hx
              · intro hs
                obtain ⟨y, h1, h2⟩ := (sameName_iff_lowerOf _ _ _).1 hs
                rw [ha] at h1; rw [hb] at h2
                exact hab ((Option.some.inj h1).trans (Option.some.inj h2).symm)
              · exact ih hrec x hx

/-- When `addMedicationToPatient` of `doctor.controller.js` answers with
success, the saved list keeps medication names unique ignoring case if
they were unique before; if an entry with the given name (ignoring case)
exists, the first such entry has its dose and instructions replaced, every
other entry and the length of the list are unchanged, and the event says
`updated`; otherwise exactly one entry with the given name, dose, instructions
and the current date is appended, and the event says `added`. -/
theorem saved_medications_of_success (lower : String → String) (now body : JsVal)
    (meds : List DoctorController.Medication)
    (hok : (DoctorController.addMedicationToPatient lower now body (some meds)).isSuccess
      = true) :
    ∃ saved event,
      DoctorController.addMedicationToPatient lower now body (some meds) =
        DoctorController.MedResponse.success saved event ∧
      (UniqueNames lower meds → UniqueNames lower saved) ∧
      ((∃ m ∈ meds, SameName lower m.name (body.get "name")) →
        saved.length = meds.length ∧
        event = "Medication updated: " ++ (body.get "name").toStr ∧
        ∃ pre m post, meds = pre ++ m :: post ∧
          SameName lower m.name (body.get "name") ∧
          (∀ x ∈ pre, ¬ SameName lower x.name (body.get "name")) ∧
          saved = pre ++ { m with dose := body.get "dose",
                                  instructions := body.get "instructions" } :: post) ∧
      ((¬ ∃ m ∈ meds, SameName lower m.name (body.get "name")) →
        event = "Medication added: " ++ (body.get "name").toStr ∧
        saved = meds ++ [{ name := body.get "name", dose := body.get "dose",
                           instructions := body.get "instructions", date := now }]) := by
  unfold DoctorController.addMedicationToPatient at hok ⊢
  by_cases hb : body.isNullish = true
  · simp [hb, DoctorController.MedResponse.isSuccess] at hok
  · by_cases hn : (body.get "name").truthy = true
    · simp only [hb, hn, if_false, Bool.not_true, Bool.false_eq_true] at hok ⊢
      cases hf : DoctorController.findExisting lower (body.get "name") meds with
      | none => simp [hf, DoctorController.MedResponse.isSuccess] at hok
      | some r =>
        cases r with
        | some i =>
          obtain ⟨pre, m, post, hmeds, hsame, hpre, hset⟩ :=
            findExisting_found lower (body.get "name") (body.get "dose")
              (body.get "instructions") meds i hf
          refine ⟨_, _, rfl, ?_, ?_, ?_⟩
          · intro hu
            have hnames : (DoctorController.setDose (body.get "dose")
                (body.get "instructions") i meds).map (fun m => m.name) =
                meds.map (fun m => m.name) := by
              rw [hset, hmeds]; simp
            unfold UniqueNames
            rw [hnames]
            exact hu
          · intro _
            refine ⟨?_, rfl, pre, m, post, hmeds, hsame, hpre, hset⟩
            rw [hset, hmeds]; simp
          · intro hno
            exact absurd ⟨m, by rw [hmeds]; simp, hsame⟩ hno
        | none =>
          have habs := findExisting_absent lower (body.get "name") meds hf
          refine ⟨_, _, rfl, ?_, ?_, ?_⟩
          · intro hu
            unfold UniqueNames at hu ⊢
            rw [List.map_append, List.pairwise_append]
            refine ⟨hu, by simp, ?_⟩
            intro a ha b hb'
            simp only [List.map_cons, List.map_nil, List.mem_singleton] at hb'
            subst hb'
            obtain ⟨x, hx, rfl⟩ := List.mem_map.1 ha
            exact habs x hx
          · rintro ⟨m, hm, hs⟩
            exact absurd hs (habs m hm)
          · intro _
            exact ⟨rfl, rfl⟩
    · simp [hb, hn, DoctorController.MedResponse.isSuccess] at hok

theorem findExisting_isSome (lower : String → String) (name : JsVal) (s : String)
    (hname : name = JsVal.str s) :
    ∀ meds : List DoctorController.Medication, (∀ m ∈ meds, ∃ t, m.name = JsVal.str t) →
      ∃ r, DoctorController.findExisting lower name meds = some r := by
  intro meds
  induction meds with
  | nil => intro _; exact ⟨none, rfl⟩
  | cons m ms ih =>
    intro h
    obtain ⟨t, ht⟩ := h m (List.mem_cons_self m ms)
    obtain ⟨r, hr⟩ := ih (fun x hx => h x (List.mem_cons_of_mem m hx))
    unfold DoctorController.findExisting
    simp only [ht, hname, DoctorController.lowerOf]
    by_cases hts : lower t = lower s
    · exact ⟨some 0, by simp [hts]⟩
    · rw [hname] at hr
      simp only [hts, if_false, hr]
      cases r with
      | none => exact ⟨none, rfl⟩
      | some i => exact ⟨some (i + 1), rfl⟩

/-- Claim C24: `addMedicationToPatient` of `doctor.controller.js`, called for a
patient whose medication names are strings with a non-empty string as name,
answers with success; and whenever it answers with success, the saved list
keeps medication names unique ignoring case if they were unique before; if an
entry with the given name (ignoring case) exists, the first such entry has its
dose and instructions replaced, every other entry and the length of the list
are unchanged, and the event says `updated`; otherwise exactly one entry with
the given name, dose, instructions and the current date is appended, and the
event says `added`. -/
theorem medication_names_stay_unique (lower : String → String) (now body : JsVal)
    (meds : List DoctorController.Medication) :
    ((∃ s : String, body.get "name" = JsVal.str s ∧ s ≠ "") →
      (∀ m ∈ meds, ∃ t, m.name = JsVal.str t) →
      (DoctorController.addMedicationToPatient lower now body (some meds)).isSuccess = true) ∧
    ((DoctorController.addMedicationToPatient lower now body (some meds)).isSuccess = true →
      ∃ saved event,
        DoctorController.addMedicationToPatient lower now body (some meds) =
          DoctorController.MedResponse.success saved event ∧
        (UniqueNames lower meds → UniqueNames lower saved) ∧
        ((∃ m ∈ meds, SameName lower m.name (body.get "name")) →
          saved.length = meds.length ∧
          event = "Medication updated: " ++ (body.get "name").toStr ∧
          ∃ pre m post, meds = pre ++ m :: post ∧
            SameName lower m.name (body.get "name") ∧
            (∀ x ∈ pre, ¬ SameName lower x.name (body.get "name")) ∧
            saved = pre ++ { m with dose := body.get "dose",
                                    instructions := body.get "instructions" } :: post) ∧
        ((¬ ∃ m ∈ meds, SameName lower m.name (body.get "name")) →
          event = "Medication added: " ++ (body.get "name").toStr ∧
          saved = meds ++ [{ name := body.get "name", dose := body.get "dose",
                             instructions := body.get "instructions", date := now }])) := by
  refine ⟨?_, saved_medications_of_success lower now body meds⟩
  rintro ⟨s, hname, hs⟩ hmeds
  have hbody : body.isNullish = false := by
    cases body <;> first | rfl | simp [JsVal.get] at hname
  have htruthy : (body.get "name").truthy = true := by
    rw [hname]
    have hd : s.data ≠ [] := fun h => hs (String.ext h)
    cases hsd : s.data with
    | nil => exact absurd hsd hd
    | cons c cs => simp [JsVal.truthy, hsd]
  obtain ⟨r, hr⟩ := findExisting_isSome lower (body.get "name") s hname meds hmeds
  unfold DoctorController.addMedicationToPatient
  simp only [hbody, htruthy, Bool.false_eq_true, if_false, Bool.not_true, hr]
  cases r <;> rfl

/-- Claim C24, instances: prescribing `ASPIRIN` to a patient who has `Aspirin`
succeeds and replaces the dose and instructions of that entry; prescribing
`Ibuprofen` to the same patient succeeds and appends one entry. -/
theorem medication_names_stay_unique_witness :
    (DoctorController.addMedicationToPatient toLowerCase (JsVal.str "2025-02-02")
        (medBody "ASPIRIN" "100mg") (some medsAspirin)).isSuccess = true ∧
    (DoctorController.addMedicationToPatient toLowerCase (JsVal.str "2025-02-02")
        (medBody "Ibuprofen" "200mg") (some medsAspirin)).isSuccess = true ∧
    savedView (DoctorController.addMedicationToPatient toLowerCase (JsVal.str "2025-02-02")
        (medBody "ASPIRIN" "100mg") (some medsAspirin)) =
      some ([("Aspirin", "100mg", "with food")], "Medication updated: ASPIRIN") ∧
    savedView (DoctorController.addMedicationToPatient toLowerCase (JsVal.str "2025-02-02")
        (medBody "Ibuprofen" "200mg") (some medsAspirin)) =
      some ([("Aspirin", "75mg", "daily"), ("Ibuprofen", "200mg", "with food")],
        "Medication added: Ibuprofen") ∧
    savedView (DoctorController.addMedicationToPatient toLowerCase (JsVal.str "2025-02-02")
        (medBody "Ibuprofen" "200mg") (some [])) =
      some ([("Ibuprofen", "200mg", "with food")], "Medication added: Ibuprofen") := by
  have hmeds : ∀ m ∈ medsAspirin, ∃ t, m.name = JsVal.str t := by
    intro m hm
    simp only [medsAspirin, List.mem_singleton] at hm
    subst hm
    exact ⟨_, rfl⟩
  exact ⟨(medication_names_stay_unique toLowerCase (JsVal.str "2025-02-02")
      (medBody "ASPIRIN" "100mg") medsAspirin).1 ⟨"ASPIRIN", rfl, by decide⟩ hmeds,
    (medication_names_stay_unique toLowerCase (JsVal.str "2025-02-02")
      (medBody "Ibuprofen" "200mg") medsAspirin).1 ⟨"Ibuprofen", rfl, by decide⟩ hmeds,
    by decide, by decide, by decide⟩

/-! ## Claim on the time labels of the appointments page -/

/-- Claim C28: `to24h` and `toLabel` are mutually inverse on valid times: for
every hour below 24 and minute below 60, `to24h (toLabel s) = s` for the
string `s = HH:MM`, and `toLabel (to24h label) = label` for every label of
`timeSlots`. -/
theorem to24h_toLabel_inverse :
    (∀ h m : Nat, h < 24 → m < 60 →
      Appointments.to24h (Appointments.toLabel (hhmm h m)) = hhmm h m) ∧
    (∀ label ∈ Appointments.timeSlots,
      Appointments.toLabel (Appointments.to24h label) = label) := by
  have hall : ∀ h < 24, ∀ m < 60,
      Appointments.to24h (Appointments.toLabel (hhmm h m)) = hhmm h m := by
    set_option maxRecDepth 100000 in decide!
  exact ⟨fun h m hh hm => hall h hh m hm, by decide!⟩

/-- Witness for `to24h_toLabel_inverse` at half past two in the afternoon. -/
theorem to24h_toLabel_inverse_witness :
    14 < 24 ∧ 30 < 60 ∧ hhmm 14 30 = "14:30" ∧
    Appointments.to24h (Appointments.toLabel (hhmm 14 30)) = hhmm 14 30 ∧
    "02:30 PM" ∈ Appointments.timeSlots ∧
    Appointments.toLabel (Appointments.to24h "02:30 PM") = "02:30 PM" :=
  ⟨by decide, by decide, by decide, to24h_toLabel_inverse.1 14 30 (by decide) (by decide),
    by decide, to24h_toLabel_inverse.2 "02:30 PM" (by decide)⟩

/-! ## Claim on `computeRisk` of the patient dashboard -/

/-- Claim C29, evaluation at the failing input: with a systolic pressure of 135
and no heart rate `computeRisk` gives cardio "Medium", while the same data with
a heart rate of 70 gives cardio "Low": the missing heart rate is read as 0 and
counted by the test `hr <= 50`. The empty input gives "Low" for both. -/
theorem missing_heart_rate_adds_to_score :
    PatientDashboard.computeRisk (vitalsSystolic 135) (JsVal.arr []) =
      some { cardio := "Medium", diabetes := "Low" } ∧
    PatientDashboard.computeRisk (vitalsSystolicHeart 135 70) (JsVal.arr []) =
      some { cardio := "Low", diabetes := "Low" } ∧
    PatientDashboard.vital (vitalsSystolic 135) "heartRate" = JsNum.fin 0 ∧
    PatientDashboard.computeRisk (JsVal.obj []) (JsVal.arr []) =
      some { cardio := "Low", diabetes := "Low" } ∧
    PatientDashboard.computeRisk JsVal.undefined JsVal.undefined =
      some { cardio := "Low", diabetes := "Low" } := by
  refine ⟨by decide!, by decide!, by decide!, by decide!, by decide!⟩
